import Mathlib

/-!
Verification of the `tensorboard.plugins.core.color_sampler` module.

The Python module is embedded shallowly over the real numbers: every float
computation is modelled by the corresponding exact real computation, Python's
float `%` operator by `pymod`, Python's `round` (round-half-to-even) by
`pyround`, and `math.atan2` by the argument of a complex number.  Fallible
parsing (`int(s, 16)`, which raises `ValueError` on bad input) is modelled
with `Option`.
-/

namespace ColorSampler

/-- Python `math.radians`: degrees to radians. -/
noncomputable def radiansR (x : ℝ) : ℝ := x * Real.pi / 180

/-- Python `math.degrees`: radians to degrees. -/
noncomputable def degreesR (x : ℝ) : ℝ := x * 180 / Real.pi

/-- Python float `%`: `x % y = x - y * floor (x / y)` (sign follows the divisor). -/
noncomputable def pymod (x y : ℝ) : ℝ := x - y * ⌊x / y⌋

/-- Python `math.atan2 y x`: the angle of the point `(x, y)` in `(-π, π]`.
Matches `Complex.arg`, including `atan2 0 0 = 0`. -/
noncomputable def atan2 (y x : ℝ) : ℝ := Complex.arg ⟨x, y⟩

/-- Python `int(round(x))` for a float `x`: round to nearest, ties to even. -/
noncomputable def pyround (x : ℝ) : ℤ :=
  if x - ⌊x⌋ < 1 / 2 then ⌊x⌋
  else if 1 / 2 < x - ⌊x⌋ then ⌊x⌋ + 1
  else if ⌊x⌋ % 2 = 0 then ⌊x⌋ else ⌊x⌋ + 1

/-- The sixteen lowercase hexadecimal digit characters used by `"%x"` formatting. -/
def hexDigit (d : ℕ) : Char :=
  "0123456789abcdef".data.getD d '0'

/-- Python `f"{n:02x}"` for a byte value (all call sites prove `n < 256`). -/
def hexByte (n : ℕ) : List Char := [hexDigit (n / 16), hexDigit (n % 16)]

/-- `_oklch_to_oklab` from the source: `(L, C cos H, C sin H)` with `H` in degrees. -/
noncomputable def _oklch_to_oklab (L C H : ℝ) : ℝ × ℝ × ℝ :=
  (L, C * Real.cos (radiansR H), C * Real.sin (radiansR H))

/-- `_oklab_to_linear_srgb` from the source: OKLAB to LMS-prime, cube, then the
fixed LMS → linear sRGB matrix. -/
noncomputable def _oklab_to_linear_srgb (L a b : ℝ) : ℝ × ℝ × ℝ :=
  let l_ := L + 0.3963377774 * a + 0.2158037573 * b
  let m_ := L - 0.1055613458 * a - 0.0638541728 * b
  let s_ := L - 0.0894841775 * a - 1.2914855480 * b
  let l := l_ * l_ * l_
  let m := m_ * m_ * m_
  let s := s_ * s_ * s_
  (4.0767416621 * l - 3.3077115913 * m + 0.2309699292 * s,
    -1.2684380046 * l + 2.6097574011 * m - 0.3413193965 * s,
    -0.0041960863 * l - 0.7034186147 * m + 1.7076147010 * s)

/-- `_linear_to_srgb` from the source: gamma correction of one channel. -/
noncomputable def _linear_to_srgb (x : ℝ) : ℝ :=
  if x ≤ 0.0031308 then 12.92 * x else 1.055 * x ^ ((1 : ℝ) / 2.4) - 0.055

/-- `_clamp` from the source, at its only use `lo = 0.0`, `hi = 1.0`:
`max lo (min hi x)`. -/
noncomputable def _clamp (x : ℝ) : ℝ := max 0.0 (min 1.0 x)

/-- One 8-bit output channel: clamp the gamma-encoded value, scale by 255 and
round (`int(round(srgb * 255))`; always in `0..255`, so `toNat` is exact). -/
noncomputable def byteOf (x : ℝ) : ℕ := (pyround (_clamp x * 255)).toNat

/-- `_oklch_to_hex` from the source: OKLCH → OKLAB → linear sRGB → sRGB → hex. -/
noncomputable def _oklch_to_hex (L C H : ℝ) : String :=
  let lab := _oklch_to_oklab L C H
  let linear := _oklab_to_linear_srgb lab.1 lab.2.1 lab.2.2
  let r := byteOf (_linear_to_srgb linear.1)
  let g := byteOf (_linear_to_srgb linear.2.1)
  let b := byteOf (_linear_to_srgb linear.2.2)
  String.mk ('#' :: (hexByte r ++ hexByte g ++ hexByte b))

/-- `sample_colors` from the source.  `n` is a Python `int`, so it is modelled
by `ℤ`; the guard returns `[]` for `n ≤ 0`. -/
noncomputable def sample_colors (n : ℤ) (lightness chroma hue_start hue_range : ℝ) :
    List String :=
  if n ≤ 0 then []
  else (List.range n.toNat).map fun (i : ℕ) =>
    _oklch_to_hex lightness chroma (pymod (hue_start + (i : ℝ) * hue_range / (n : ℝ)) 360)

/-- `sample_colors_varied` from the source, with its zigzag in the
lightness–chroma plane; `t = i / max (n - 1) 1`. -/
noncomputable def sample_colors_varied (n : ℤ) (lightness_range chroma_range : ℝ × ℝ) :
    List String :=
  if n ≤ 0 then []
  else
    let l_min := lightness_range.1
    let l_max := lightness_range.2
    let c_min := chroma_range.1
    let c_max := chroma_range.2
    (List.range n.toNat).map fun (i : ℕ) =>
      let hue := pymod ((i : ℝ) * 360 / (n : ℝ)) 360
      let t := (i : ℝ) / ((max (n - 1) 1 : ℤ) : ℝ)
      if i % 2 = 0 then
        _oklch_to_hex (l_min + (l_max - l_min) * (1 - t * 0.5))
          (c_min + (c_max - c_min) * t) hue
      else
        _oklch_to_hex (l_min + (l_max - l_min) * (0.5 + t * 0.5))
          (c_max - (c_max - c_min) * t * 0.5) hue

/-- The `ColorMap` class: its only state is the palette built at construction. -/
structure ColorMap where
  colors : List String

/-- `ColorMap.__init__`: `varied` selects `sample_colors_varied n` (with that
function's defaults), otherwise `sample_colors n lightness chroma hue_start`
(with default `hue_range = 360`). -/
noncomputable def ColorMap.make (n : ℤ) (lightness chroma hue_start : ℝ) (varied : Bool) :
    ColorMap :=
  if varied then ⟨sample_colors_varied n (0.55, 0.8) (0.12, 0.18)⟩
  else ⟨sample_colors n lightness chroma hue_start 360⟩

/-- `ColorMap.__call__`: gray fallback on an empty palette, otherwise index
modulo the palette length (Python `%` on ints is nonnegative here). -/
noncomputable def ColorMap.call (cm : ColorMap) (index : ℤ) : String :=
  if h : cm.colors.length = 0 then "#808080"
  else
    cm.colors.get ⟨(index % (cm.colors.length : ℤ)).toNat, by
      have hpos : 0 < cm.colors.length := Nat.pos_of_ne_zero h
      have h1 : (0 : ℤ) < (cm.colors.length : ℤ) := by exact_mod_cast hpos
      have h2 : index % (cm.colors.length : ℤ) < (cm.colors.length : ℤ) :=
        Int.emod_lt_of_pos _ h1
      have h3 : 0 ≤ index % (cm.colors.length : ℤ) := Int.emod_nonneg _ (by omega)
      omega⟩

/-- `colors_for_runs` from the source: the Python dict comprehension
`{rid: colors[i]}` over unique ids is the positional pairing, modelled as an
association list. -/
noncomputable def colors_for_runs (run_ids : List String) (lightness chroma : ℝ)
    (varied : Bool) : List (String × String) :=
  let n : ℤ := run_ids.length
  let colors :=
    if varied ∨ 8 < n then sample_colors_varied n (0.55, 0.8) (0.12, 0.18)
    else sample_colors n lightness chroma 0 360
  run_ids.zip colors

/-- `palette_categorical` from the source. -/
noncomputable def palette_categorical (n : ℤ) : List String :=
  sample_colors n 0.65 0.18 0 360

/-- `palette_sequential` from the source: light-to-dark ramp at a fixed hue. -/
noncomputable def palette_sequential (n : ℤ) (hue : ℝ) : List String :=
  if n ≤ 0 then []
  else (List.range n.toNat).map fun (i : ℕ) =>
    let lightness := 0.9 - (i : ℝ) / ((max (n - 1) 1 : ℤ) : ℝ) * 0.55
    let chroma := 0.08 + (i : ℝ) / ((max (n - 1) 1 : ℤ) : ℝ) * 0.12
    _oklch_to_hex lightness chroma hue

/-- `palette_diverging` from the source: two ramps around the midpoint
`mid = (n - 1) / 2` (float division). -/
noncomputable def palette_diverging (n : ℤ) (hue_low hue_high : ℝ) : List String :=
  if n ≤ 0 then []
  else
    let mid : ℝ := ((n : ℝ) - 1) / 2
    (List.range n.toNat).map fun (i : ℕ) =>
      if (i : ℝ) < mid then
        let t := if 0 < mid then (i : ℝ) / mid else 0
        _oklch_to_hex (0.45 + t * 0.45) (0.18 * (1 - t)) hue_low
      else if mid < (i : ℝ) then
        let t := if mid < (n : ℝ) - 1 then ((i : ℝ) - mid) / ((n : ℝ) - 1 - mid) else 0
        _oklch_to_hex (0.9 - t * 0.45) (0.18 * t) hue_high
      else
        _oklch_to_hex 0.9 0.0 0

/-- Value of a single hexadecimal digit character, both cases accepted
(Python `int(s, 16)` is case-insensitive). -/
def hexCharVal (c : Char) : Option ℕ :=
  if '0' ≤ c ∧ c ≤ '9' then some (c.toNat - '0'.toNat)
  else if 'a' ≤ c ∧ c ≤ 'f' then some (c.toNat - 'a'.toNat + 10)
  else if 'A' ≤ c ∧ c ≤ 'F' then some (c.toNat - 'A'.toNat + 10)
  else none

/-- Accumulating helper for `parseHex`. -/
def parseHexAux : List Char → ℕ → Option ℕ
  | [], acc => some acc
  | c :: cs, acc =>
    match hexCharVal c with
    | none => none
    | some d => parseHexAux cs (acc * 16 + d)

/-- Python `int(s, 16)` on the two-character slices used by `_hex_to_oklch`,
modelled on plain digit strings: a nonempty string of hexadecimal digits parses
to its value, anything else raises `ValueError` (`none`). -/
def parseHex (cs : List Char) : Option ℕ :=
  if cs.isEmpty then none else parseHexAux cs 0

/-- The inverse gamma step `to_linear` nested inside `_hex_to_oklch`. -/
noncomputable def to_linear (c : ℝ) : ℝ :=
  if c ≤ 0.04045 then c / 12.92 else ((c + 0.055) / 1.055) ^ (2.4 : ℝ)

/-- Signed cube root as written in the source:
`l ** (1/3) if l >= 0 else -((-l) ** (1/3))`. -/
noncomputable def cbrt (x : ℝ) : ℝ :=
  if 0 ≤ x then x ^ ((1 : ℝ) / 3) else -((-x) ^ ((1 : ℝ) / 3))

/-- The body of `_hex_to_oklch` after the three `int(slice, 16)` parses
succeed: sRGB bytes → linear → LMS → cube roots → OKLAB → OKLCH. -/
noncomputable def decodeRGB (rv gv bv : ℕ) : ℝ × ℝ × ℝ :=
  let r_lin := to_linear ((rv : ℝ) / 255)
  let g_lin := to_linear ((gv : ℝ) / 255)
  let b_lin := to_linear ((bv : ℝ) / 255)
  let l := 0.4122214708 * r_lin + 0.5363325363 * g_lin + 0.0514459929 * b_lin
  let m := 0.2119034982 * r_lin + 0.6806995451 * g_lin + 0.1073969566 * b_lin
  let s := 0.0883024619 * r_lin + 0.2817188376 * g_lin + 0.6299787005 * b_lin
  let l_ := cbrt l
  let m_ := cbrt m
  let s_ := cbrt s
  let L := 0.2104542553 * l_ + 0.7936177850 * m_ - 0.0040720468 * s_
  let a := 1.9779984951 * l_ - 2.4285922050 * m_ + 0.4505937099 * s_
  let b_val := 0.0259040371 * l_ + 0.7827717662 * m_ - 0.8086757660 * s_
  let C := Real.sqrt (a * a + b_val * b_val)
  let H := pymod (degreesR (atan2 b_val a)) 360
  (L, C, H)

/-- `_hex_to_oklch` from the source.  `lstrip("#")` drops every leading `#`;
the three `int(slice, 16)` calls can raise `ValueError`, modelled by `none`. -/
noncomputable def _hex_to_oklch (hex_color : String) : Option (ℝ × ℝ × ℝ) :=
  let cs := hex_color.data.dropWhile (· == '#')
  match parseHex (cs.take 2), parseHex ((cs.drop 2).take 2), parseHex ((cs.drop 4).take 2) with
  | some rv, some gv, some bv => some (decodeRGB rv gv bv)
  | _, _, _ => none

/-- `lighten` from the source: raise the decoded OKLCH lightness, capped at 1. -/
noncomputable def lighten (hex_color : String) (amount : ℝ) : Option String :=
  (_hex_to_oklch hex_color).map fun lch =>
    _oklch_to_hex (min 1.0 (lch.1 + amount)) lch.2.1 lch.2.2

/-- `darken` from the source: lower the decoded OKLCH lightness, floored at 0. -/
noncomputable def darken (hex_color : String) (amount : ℝ) : Option String :=
  (_hex_to_oklch hex_color).map fun lch =>
    _oklch_to_hex (max 0.0 (lch.1 - amount)) lch.2.1 lch.2.2

/-- Lowercase hexadecimal digit test, for the output invariant. -/
def isLowerHexDigit (c : Char) : Bool :=
  ('0' ≤ c && c ≤ '9') || ('a' ≤ c && c ≤ 'f')

/-- The spec's output invariant: the string matches `^#[0-9a-f]\x7b6\x7d$`. -/
def validHex (s : String) : Bool :=
  match s.data with
  | '#' :: rest => rest.length == 6 && rest.all isLowerHexDigit
  | _ => false

/-- The lightness the engine itself decodes from a hex string (the `L` of
`_hex_to_oklch`); 0 for unparseable input. -/
noncomputable def decodedLum (s : String) : ℝ :=
  ((_hex_to_oklch s).getD (0, 0, 0)).1

/-- The forward conversion taken from OKLAB coordinates: what `_oklch_to_hex`
computes once its polar inputs are converted back to `(a, b)`. -/
noncomputable def oklabToHex (L a b : ℝ) : String :=
  let linear := _oklab_to_linear_srgb L a b
  String.mk ('#' :: (hexByte (byteOf (_linear_to_srgb linear.1)) ++
    hexByte (byteOf (_linear_to_srgb linear.2.1)) ++
    hexByte (byteOf (_linear_to_srgb linear.2.2))))

/-- The Varied color at index `i` exactly as the spec sentence describes it:
hue `(i * 360 / n) mod 360`, `t = i / (n - 1)` (`t = 0` for `n = 1`); for even
`i` lightness `l_max - (l_max - l_min) * t / 2` and chroma
`c_min + (c_max - c_min) * t`; for odd `i` lightness
`l_min + (l_max - l_min) * (0.5 + t / 2)` and chroma
`c_max - (c_max - c_min) * t / 2`. -/
noncomputable def specVariedColor (n : ℤ) (lr cr : ℝ × ℝ) (i : ℕ) : String :=
  let t : ℝ := if n = 1 then 0 else (i : ℝ) / ((n : ℝ) - 1)
  let hue := pymod ((i : ℝ) * 360 / (n : ℝ)) 360
  if i % 2 = 0 then
    _oklch_to_hex (lr.2 - (lr.2 - lr.1) * t / 2) (cr.1 + (cr.2 - cr.1) * t) hue
  else
    _oklch_to_hex (lr.1 + (lr.2 - lr.1) * (0.5 + t / 2)) (cr.2 - (cr.2 - cr.1) * t / 2) hue

/-! ### Palette lengths -/

lemma sample_colors_length (n : ℤ) (l c hs hr : ℝ) (h : 0 < n) :
    ((sample_colors n l c hs hr).length : ℤ) = n := by
  have h' : ¬ n ≤ 0 := by omega
  simp only [sample_colors, if_neg h', List.length_map, List.length_range,
    Int.toNat_of_nonneg h.le]

lemma sample_colors_varied_length (n : ℤ) (lr cr : ℝ × ℝ) (h : 0 < n) :
    ((sample_colors_varied n lr cr).length : ℤ) = n := by
  have h' : ¬ n ≤ 0 := by omega
  simp only [sample_colors_varied, if_neg h', List.length_map, List.length_range,
    Int.toNat_of_nonneg h.le]

lemma palette_sequential_length (n : ℤ) (hue : ℝ) (h : 0 < n) :
    ((palette_sequential n hue).length : ℤ) = n := by
  have h' : ¬ n ≤ 0 := by omega
  simp only [palette_sequential, if_neg h', List.length_map, List.length_range,
    Int.toNat_of_nonneg h.le]

lemma palette_diverging_length (n : ℤ) (hl hh : ℝ) (h : 0 < n) :
    ((palette_diverging n hl hh).length : ℤ) = n := by
  have h' : ¬ n ≤ 0 := by omega
  simp only [palette_diverging, if_neg h', List.length_map, List.length_range,
    Int.toNat_of_nonneg h.le]

/-- C2: each of the four palette generators returns a sequence of length
exactly `n` when `n > 0`, and the empty sequence when `n ≤ 0`, for every
parameter setting. -/
theorem C2_palette_lengths (n : ℤ)
    (lightness chroma hue_start hue_range hue hue_low hue_high : ℝ) (lr cr : ℝ × ℝ) :
    (0 < n →
      ((sample_colors n lightness chroma hue_start hue_range).length : ℤ) = n ∧
      ((sample_colors_varied n lr cr).length : ℤ) = n ∧
      ((palette_sequential n hue).length : ℤ) = n ∧
      ((palette_diverging n hue_low hue_high).length : ℤ) = n) ∧
    (n ≤ 0 →
      sample_colors n lightness chroma hue_start hue_range = [] ∧
      sample_colors_varied n lr cr = [] ∧
      palette_sequential n hue = [] ∧
      palette_diverging n hue_low hue_high = []) := by
  constructor
  · intro hn
    exact ⟨sample_colors_length n _ _ _ _ hn, sample_colors_varied_length n _ _ hn,
      palette_sequential_length n _ hn, palette_diverging_length n _ _ hn⟩
  · intro hn
    refine ⟨?_, ?_, ?_, ?_⟩ <;>
      simp [sample_colors, sample_colors_varied, palette_sequential, palette_diverging, hn]

/-- Witness for C2 at the concrete inputs `n = 3` and `n = -1`. -/
theorem C2_palette_lengths_witness :
    ((0:ℤ) < 3 ∧ ((sample_colors 3 0.7 0.15 0 360).length : ℤ) = 3) ∧
    ((-1:ℤ) ≤ 0 ∧ sample_colors (-1) 0.7 0.15 0 360 = []) :=
  ⟨⟨by norm_num,
      ((C2_palette_lengths 3 0.7 0.15 0 360 250 250 30 (0.55, 0.8) (0.12, 0.18)).1
        (by norm_num)).1⟩,
    ⟨by norm_num,
      ((C2_palette_lengths (-1) 0.7 0.15 0 360 250 250 30 (0.55, 0.8) (0.12, 0.18)).2
        (by norm_num)).1⟩⟩

/-! ### Rounding and clamping bounds -/

lemma floor_le_pyround (x : ℝ) : ⌊x⌋ ≤ pyround x := by
  unfold pyround; split_ifs <;> omega

lemma pyround_le_floor_add_one (x : ℝ) : pyround x ≤ ⌊x⌋ + 1 := by
  unfold pyround; split_ifs <;> omega

lemma le_pyround (m : ℤ) (x : ℝ) (h : (m : ℝ) ≤ x) : m ≤ pyround x :=
  le_trans (Int.le_floor.mpr h) (floor_le_pyround x)

lemma pyround_le (m : ℤ) (x : ℝ) (h : x < (m : ℝ) + 1 / 2) : pyround x ≤ m := by
  have hfl : (⌊x⌋ : ℝ) ≤ x := Int.floor_le x
  have hm : ⌊x⌋ ≤ m := by
    have : ((⌊x⌋ : ℤ) : ℝ) < ((m : ℤ) : ℝ) + 1 := by linarith
    have := Int.lt_add_one_iff.mp (by exact_mod_cast this)
    omega
  unfold pyround
  split_ifs with h1 h2 h3
  · exact hm
  all_goals {
    have hh : (1 : ℝ) / 2 ≤ x - ⌊x⌋ := le_of_not_lt h1
    have : ((⌊x⌋ : ℤ) : ℝ) < ((m : ℤ) : ℝ) := by linarith
    have := (by exact_mod_cast this : ⌊x⌋ < m)
    omega }

lemma clamp_nonneg (x : ℝ) : 0 ≤ _clamp x := by
  unfold _clamp; exact le_max_of_le_left (by norm_num)

lemma clamp_le_one (x : ℝ) : _clamp x ≤ 1 := by
  unfold _clamp
  exact max_le (by norm_num) (le_trans (min_le_left _ _) (by norm_num))

lemma byteOf_le (x : ℝ) : byteOf x ≤ 255 := by
  unfold byteOf
  have h1 : pyround (_clamp x * 255) ≤ 255 :=
    pyround_le 255 _ (by push_cast; nlinarith [clamp_le_one x])
  omega

/-! ### The hex-format invariant -/

lemma hexDigit_valid {d : ℕ} (h : d < 16) : isLowerHexDigit (hexDigit d) = true := by
  interval_cases d <;> decide

lemma hexByte_all_valid {n : ℕ} (h : n ≤ 255) : (hexByte n).all isLowerHexDigit = true := by
  have h1 : n / 16 < 16 := by omega
  have h2 : n % 16 < 16 := Nat.mod_lt _ (by norm_num)
  simp [hexByte, hexDigit_valid h1, hexDigit_valid h2]

lemma validHex_of (r g b : ℕ) (hr : r ≤ 255) (hg : g ≤ 255) (hb : b ≤ 255) :
    validHex (String.mk ('#' :: (hexByte r ++ hexByte g ++ hexByte b))) = true := by
  simp only [validHex]
  rw [Bool.and_eq_true]
  refine ⟨by simp [hexByte], ?_⟩
  simp only [List.all_append, Bool.and_eq_true]
  exact ⟨⟨hexByte_all_valid hr, hexByte_all_valid hg⟩, hexByte_all_valid hb⟩

lemma oklch_to_hex_valid (L C H : ℝ) : validHex (_oklch_to_hex L C H) = true := by
  simp only [_oklch_to_hex]
  exact validHex_of _ _ _ (byteOf_le _) (byteOf_le _) (byteOf_le _)

lemma mem_sample_colors_valid {s : String} {n : ℤ} {l c hs hr : ℝ}
    (h : s ∈ sample_colors n l c hs hr) : validHex s = true := by
  by_cases hn : n ≤ 0
  · simp [sample_colors, hn] at h
  · simp only [sample_colors, if_neg hn, List.mem_map] at h
    obtain ⟨i, -, rfl⟩ := h
    exact oklch_to_hex_valid _ _ _

lemma mem_sample_colors_varied_valid {s : String} {n : ℤ} {lr cr : ℝ × ℝ}
    (h : s ∈ sample_colors_varied n lr cr) : validHex s = true := by
  by_cases hn : n ≤ 0
  · simp [sample_colors_varied, hn] at h
  · simp only [sample_colors_varied, if_neg hn, List.mem_map] at h
    obtain ⟨i, -, rfl⟩ := h
    split_ifs <;> exact oklch_to_hex_valid _ _ _

lemma mem_palette_sequential_valid {s : String} {n : ℤ} {hue : ℝ}
    (h : s ∈ palette_sequential n hue) : validHex s = true := by
  by_cases hn : n ≤ 0
  · simp [palette_sequential, hn] at h
  · simp only [palette_sequential, if_neg hn, List.mem_map] at h
    obtain ⟨i, -, rfl⟩ := h
    exact oklch_to_hex_valid _ _ _

lemma mem_palette_diverging_valid {s : String} {n : ℤ} {hl hh : ℝ}
    (h : s ∈ palette_diverging n hl hh) : validHex s = true := by
  by_cases hn : n ≤ 0
  · simp [palette_diverging, hn] at h
  · simp only [palette_diverging, if_neg hn, List.mem_map] at h
    obtain ⟨i, -, rfl⟩ := h
    split_ifs <;> exact oklch_to_hex_valid _ _ _

lemma mem_colormap_valid {s : String} {n : ℤ} {l c hs : ℝ} {v : Bool}
    (h : s ∈ (ColorMap.make n l c hs v).colors) : validHex s = true := by
  cases v <;> simp only [ColorMap.make] at h
  · simp only [Bool.false_eq_true, if_neg, ite_false] at h
    exact mem_sample_colors_valid h
  · simp only [ite_true] at h
    exact mem_sample_colors_varied_valid h

/-- C3: every hex string leaving the engine — through the four palette
generators, `ColorMap`, `colors_for_runs`, `lighten` or `darken` — matches
`^#[0-9a-f]\x7b6\x7d$`, for all inputs; the forward conversion has no error path. -/
theorem C3_hex_invariant :
    (∀ L C H : ℝ, validHex (_oklch_to_hex L C H) = true) ∧
    (∀ (n : ℤ) (l c hs hr : ℝ), (sample_colors n l c hs hr).all validHex = true) ∧
    (∀ (n : ℤ) (lr cr : ℝ × ℝ), (sample_colors_varied n lr cr).all validHex = true) ∧
    (∀ (n : ℤ) (hue : ℝ), (palette_sequential n hue).all validHex = true) ∧
    (∀ (n : ℤ) (hl hh : ℝ), (palette_diverging n hl hh).all validHex = true) ∧
    (∀ (n : ℤ) (l c hs : ℝ) (v : Bool) (i : ℤ),
      validHex ((ColorMap.make n l c hs v).call i) = true) ∧
    (∀ (ids : List String) (l c : ℝ) (v : Bool),
      (colors_for_runs ids l c v).all (fun p => validHex p.2) = true) ∧
    (∀ (s : String) (a : ℝ), (lighten s a).all validHex = true) ∧
    (∀ (s : String) (a : ℝ), (darken s a).all validHex = true) := by
  refine ⟨oklch_to_hex_valid, ?_, ?_, ?_, ?_, ?_, ?_, ?_, ?_⟩
  · intro n l c hs hr
    exact List.all_eq_true.mpr fun s h => mem_sample_colors_valid h
  · intro n lr cr
    exact List.all_eq_true.mpr fun s h => mem_sample_colors_varied_valid h
  · intro n hue
    exact List.all_eq_true.mpr fun s h => mem_palette_sequential_valid h
  · intro n hl hh
    exact List.all_eq_true.mpr fun s h => mem_palette_diverging_valid h
  · intro n l c hs v i
    unfold ColorMap.call
    split_ifs with h
    · decide
    · exact mem_colormap_valid (List.get_mem _ _ _)
  · intro ids l c v
    refine List.all_eq_true.mpr fun p h => ?_
    simp only [colors_for_runs] at h
    have h2 := (List.of_mem_zip h).2
    by_cases hc : v = true ∨ 8 < (ids.length : ℤ)
    · rw [if_pos hc] at h2
      exact mem_sample_colors_varied_valid h2
    · rw [if_neg hc] at h2
      exact mem_sample_colors_valid h2
  · intro s a
    unfold lighten
    cases h : _hex_to_oklch s
    · rfl
    · exact oklch_to_hex_valid _ _ _
  · intro s a
    unfold darken
    cases h : _hex_to_oklch s
    · rfl
    · exact oklch_to_hex_valid _ _ _

/-! ### ColorMap totality -/

lemma sample_colors_length_toNat (n : ℤ) (l c hs hr : ℝ) :
    (sample_colors n l c hs hr).length = n.toNat := by
  by_cases hn : n ≤ 0
  · simp only [sample_colors, if_pos hn, List.length_nil]
    omega
  · simp only [sample_colors, if_neg hn, List.length_map, List.length_range]

lemma sample_colors_varied_length_toNat (n : ℤ) (lr cr : ℝ × ℝ) :
    (sample_colors_varied n lr cr).length = n.toNat := by
  by_cases hn : n ≤ 0
  · simp only [sample_colors_varied, if_pos hn, List.length_nil]
    omega
  · simp only [sample_colors_varied, if_neg hn, List.length_map, List.length_range]

lemma colormap_make_length (n : ℤ) (l c hs : ℝ) (v : Bool) :
    (ColorMap.make n l c hs v).colors.length = n.toNat := by
  cases v <;>
    simp [ColorMap.make, sample_colors_length_toNat, sample_colors_varied_length_toNat]

/-- C10: a `ColorMap` call never fails: with a non-empty palette (`n ≥ 1`) it
returns the palette entry at position `index % n`, and with an empty palette
(`n ≤ 0`) it returns the gray fallback `#808080`, for every integer index. -/
theorem C10_colormap_total (n : ℤ) (lightness chroma hue_start : ℝ) (varied : Bool)
    (index : ℤ) :
    (1 ≤ n →
      (ColorMap.make n lightness chroma hue_start varied).colors.get?
          ((index % n).toNat) =
        some ((ColorMap.make n lightness chroma hue_start varied).call index)) ∧
    (n ≤ 0 → (ColorMap.make n lightness chroma hue_start varied).call index = "#808080") := by
  have hlen : (ColorMap.make n lightness chroma hue_start varied).colors.length = n.toNat :=
    colormap_make_length n lightness chroma hue_start varied
  constructor
  · intro hn
    have hne : (ColorMap.make n lightness chroma hue_start varied).colors.length ≠ 0 := by
      omega
    unfold ColorMap.call
    rw [dif_neg hne]
    have hcast : ((ColorMap.make n lightness chroma hue_start varied).colors.length : ℤ) = n := by
      omega
    have hidx : (index % n).toNat =
        (index % ((ColorMap.make n lightness chroma hue_start varied).colors.length : ℤ)).toNat := by
      rw [hcast]
    rw [hidx]
    have hb1 : 0 ≤ index % ((ColorMap.make n lightness chroma hue_start varied).colors.length : ℤ) :=
      Int.emod_nonneg _ (by omega)
    have hb2 : index % ((ColorMap.make n lightness chroma hue_start varied).colors.length : ℤ) <
        ((ColorMap.make n lightness chroma hue_start varied).colors.length : ℤ) :=
      Int.emod_lt_of_pos _ (by omega)
    exact List.get?_eq_get (by omega)
  · intro hn
    have h0 : (ColorMap.make n lightness chroma hue_start varied).colors.length = 0 := by omega
    unfold ColorMap.call
    rw [dif_pos h0]

/-- Witness for C10 at `n = 3`, a negative index `-1`, and the uniform strategy. -/
theorem C10_colormap_total_witness :
    (1 : ℤ) ≤ 3 ∧
      (ColorMap.make 3 0.7 0.15 0 false).colors.get? (((-1 : ℤ) % 3).toNat) =
        some ((ColorMap.make 3 0.7 0.15 0 false).call (-1)) :=
  ⟨by norm_num, (C10_colormap_total 3 0.7 0.15 0 false (-1)).1 (by norm_num)⟩

/-! ### The Varied strategy's index formulas -/

lemma oklch_hex_congr {L L' C C' H : ℝ} (hL : L = L') (hC : C = C') :
    _oklch_to_hex L C H = _oklch_to_hex L' C' H := by rw [hL, hC]

/-- C5: for `n ≥ 1` and `i < n`, the Varied strategy produces at index `i`
precisely the color the spec's formulas describe (`specVariedColor`). -/
theorem C5_varied_formula (n : ℤ) (lr cr : ℝ × ℝ) (i : ℕ)
    (hn : 1 ≤ n) (hi : (i : ℤ) < n) :
    (sample_colors_varied n lr cr).get? i = some (specVariedColor n lr cr i) := by
  have hn' : ¬ n ≤ 0 := by omega
  have hin : i < n.toNat := by omega
  simp only [sample_colors_varied, if_neg hn', List.get?_map, List.get?_range hin,
    Option.map_some']
  have ht : (i : ℝ) / ((max (n - 1) 1 : ℤ) : ℝ) =
      (if n = 1 then (0 : ℝ) else (i : ℝ) / ((n : ℝ) - 1)) := by
    by_cases h1 : n = 1
    · have hi0 : i = 0 := by omega
      subst h1; subst hi0
      simp
    · have hmax : max (n - 1) 1 = n - 1 := by omega
      rw [if_neg h1, hmax]
      push_cast
      ring
  rw [ht]
  simp only [specVariedColor]
  split_ifs <;> exact congrArg some (oklch_hex_congr (by ring) (by ring))

/-- Witness for C5 at `n = 2`, `i = 1`, with the default ranges. -/
theorem C5_varied_formula_witness :
    (sample_colors_varied 2 (0.55, 0.8) (0.12, 0.18)).get? 1 =
      some (specVariedColor 2 (0.55, 0.8) (0.12, 0.18) 1) :=
  C5_varied_formula 2 (0.55, 0.8) (0.12, 0.18) 1 (by norm_num) (by norm_num)

/-! ### Hex parsing -/

lemma hexCharVal_hexDigit {d : ℕ} (h : d < 16) : hexCharVal (hexDigit d) = some d := by
  interval_cases d <;> decide

lemma parseHex_hexByte {n : ℕ} (h : n < 256) : parseHex (hexByte n) = some n := by
  have h1 : n / 16 < 16 := by omega
  have h2 : n % 16 < 16 := by omega
  have e : parseHex (hexByte n) = parseHexAux [hexDigit (n / 16), hexDigit (n % 16)] 0 := rfl
  rw [e]
  simp only [parseHexAux, hexCharVal_hexDigit h1, hexCharVal_hexDigit h2]
  rw [Option.some_inj]
  omega

lemma hexCharVal_isSome_of_valid {c : Char} (h : isLowerHexDigit c = true) :
    (hexCharVal c).isSome = true := by
  simp only [isLowerHexDigit, Bool.or_eq_true, Bool.and_eq_true, decide_eq_true_eq] at h
  unfold hexCharVal
  rcases h with ⟨h1, h2⟩ | ⟨h1, h2⟩
  · rw [if_pos ⟨h1, h2⟩]; rfl
  · by_cases h0 : '0' ≤ c ∧ c ≤ '9'
    · rw [if_pos h0]; rfl
    · rw [if_neg h0, if_pos ⟨h1, h2⟩]; rfl

lemma parseHexAux_isSome {cs : List Char} (h : ∀ c ∈ cs, (hexCharVal c).isSome = true)
    (acc : ℕ) : (parseHexAux cs acc).isSome = true := by
  induction cs generalizing acc with
  | nil => rfl
  | cons c cs ih =>
    have hc := h c (List.mem_cons_self c cs)
    obtain ⟨d, hd⟩ := Option.isSome_iff_exists.mp hc
    rw [parseHexAux, hd]
    exact ih (fun x hx => h x (List.mem_cons_of_mem _ hx)) _

lemma parseHex_isSome {cs : List Char} (hne : cs ≠ [])
    (h : ∀ c ∈ cs, isLowerHexDigit c = true) : (parseHex cs).isSome = true := by
  unfold parseHex
  rw [if_neg (by simpa using hne)]
  exact parseHexAux_isSome (fun c hc => hexCharVal_isSome_of_valid (h c hc)) 0

lemma validHex_inv {s : String} (h : validHex s = true) :
    ∃ rest, s.data = '#' :: rest ∧ rest.length = 6 ∧ rest.all isLowerHexDigit = true := by
  unfold validHex at h
  split at h
  · rename_i rest heq
    rw [Bool.and_eq_true, beq_iff_eq] at h
    exact ⟨rest, heq, h.1, h.2⟩
  · exact absurd h (by decide)

lemma valid_char_ne_hash {c : Char} (h : isLowerHexDigit c = true) : (c == '#') = false := by
  simp only [isLowerHexDigit, Bool.or_eq_true, Bool.and_eq_true, decide_eq_true_eq] at h
  have : c ≠ '#' := by
    rcases h with ⟨h1, -⟩ | ⟨h1, -⟩ <;> { intro he; subst he; revert h1; decide }
  simpa using this

lemma hex_to_oklch_isSome_of_valid {s : String} (h : validHex s = true) :
    (_hex_to_oklch s).isSome = true := by
  obtain ⟨rest, heq, hlen, hall⟩ := validHex_inv h
  have hall' := List.all_eq_true.mp hall
  have hdrop : s.data.dropWhile (· == '#') = rest := by
    rw [heq, List.dropWhile_cons, if_pos (by decide)]
    cases rest with
    | nil => simp at hlen
    | cons c t =>
      rw [List.dropWhile_cons,
        if_neg (by rw [valid_char_ne_hash (hall' c (List.mem_cons_self c t))]; simp)]
  have hsub2 : ∀ c ∈ rest.take 2, isLowerHexDigit c = true :=
    fun c hc => hall' c (List.take_subset _ _ hc)
  have hsub4 : ∀ c ∈ (rest.drop 2).take 2, isLowerHexDigit c = true :=
    fun c hc => hall' c (List.drop_subset _ _ (List.take_subset _ _ hc))
  have hsub6 : ∀ c ∈ (rest.drop 4).take 2, isLowerHexDigit c = true :=
    fun c hc => hall' c (List.drop_subset _ _ (List.take_subset _ _ hc))
  have hne2 : rest.take 2 ≠ [] := by
    have hl : (rest.take 2).length = 2 := by rw [List.length_take]; omega
    intro he; rw [he] at hl; exact absurd hl (by decide)
  have hne4 : (rest.drop 2).take 2 ≠ [] := by
    have hl : ((rest.drop 2).take 2).length = 2 := by
      rw [List.length_take, List.length_drop]; omega
    intro he; rw [he] at hl; exact absurd hl (by decide)
  have hne6 : (rest.drop 4).take 2 ≠ [] := by
    have hl : ((rest.drop 4).take 2).length = 2 := by
      rw [List.length_take, List.length_drop]; omega
    intro he; rw [he] at hl; exact absurd hl (by decide)
  obtain ⟨v1, hv1⟩ := Option.isSome_iff_exists.mp (parseHex_isSome hne2 hsub2)
  obtain ⟨v2, hv2⟩ := Option.isSome_iff_exists.mp (parseHex_isSome hne4 hsub4)
  obtain ⟨v3, hv3⟩ := Option.isSome_iff_exists.mp (parseHex_isSome hne6 hsub6)
  simp only [_hex_to_oklch, hdrop, hv1, hv2, hv3, Option.isSome_some]

/-- C7 counterexample: on the malformed input `""` the reverse conversion does
raise (`int('', 16)` raises `ValueError`, modelled by `none`), so it does not
fail silently on every malformed input. -/
theorem C7_counterexample : validHex "" = false ∧ _hex_to_oklch "" = none :=
  ⟨rfl, rfl⟩

/-- C7 (amended): the reverse conversion fails silently only on malformed
inputs whose three two-character slices still parse as hex — e.g. trailing
garbage after six hex digits, or a five-character string — while malformed
inputs whose slices fail to parse (empty string, non-hex letters in the first
six characters) raise `ValueError`; every well-formed `#rrggbb` input
parses. -/
theorem C7_reverse_parse_behavior :
    (∀ s : String, validHex s = true → (_hex_to_oklch s).isSome = true) ∧
    (validHex "#aabbccZZ" = false ∧ (_hex_to_oklch "#aabbccZZ").isSome = true) ∧
    (validHex "abcde" = false ∧ (_hex_to_oklch "abcde").isSome = true) ∧
    (_hex_to_oklch "" = none) ∧
    (_hex_to_oklch "#12zz56" = none) :=
  ⟨fun _ h => hex_to_oklch_isSome_of_valid h, ⟨rfl, rfl⟩, ⟨rfl, rfl⟩, rfl, rfl⟩

/-- Witness for C7's amended theorem at the well-formed input `"#00ff00"`. -/
theorem C7_reverse_parse_behavior_witness :
    validHex "#00ff00" = true ∧ (_hex_to_oklch "#00ff00").isSome = true :=
  ⟨by decide, C7_reverse_parse_behavior.1 "#00ff00" (by decide)⟩

/-! ### Certified bounds for the fractional powers -/

lemma le_rpow_inv_gamma {a q : ℝ} (ha : 0 ≤ a) (hq : 0 ≤ q) (h : q ^ (12 : ℕ) ≤ a ^ (5 : ℕ)) :
    q ≤ a ^ ((1 : ℝ) / 2.4) := by
  have he : ((1 : ℝ) / 2.4) = 5 / 12 := by norm_num
  rw [he]
  have ht0 : (0 : ℝ) ≤ a ^ ((5 : ℝ) / 12) := Real.rpow_nonneg ha _
  have hpow : (a ^ ((5 : ℝ) / 12)) ^ (12 : ℕ) = a ^ (5 : ℕ) := by
    rw [← Real.rpow_natCast (a ^ ((5 : ℝ) / 12)) 12, ← Real.rpow_mul ha,
      ← Real.rpow_natCast a 5]
    norm_num
  have h2 : q ^ (12 : ℕ) ≤ (a ^ ((5 : ℝ) / 12)) ^ (12 : ℕ) := by rw [hpow]; exact h
  exact le_of_pow_le_pow_left₀ (by norm_num) ht0 h2

lemma rpow_inv_gamma_le {a q : ℝ} (ha : 0 ≤ a) (hq : 0 ≤ q) (h : a ^ (5 : ℕ) ≤ q ^ (12 : ℕ)) :
    a ^ ((1 : ℝ) / 2.4) ≤ q := by
  have he : ((1 : ℝ) / 2.4) = 5 / 12 := by norm_num
  rw [he]
  have hpow : (a ^ ((5 : ℝ) / 12)) ^ (12 : ℕ) = a ^ (5 : ℕ) := by
    rw [← Real.rpow_natCast (a ^ ((5 : ℝ) / 12)) 12, ← Real.rpow_mul ha,
      ← Real.rpow_natCast a 5]
    norm_num
  have h2 : (a ^ ((5 : ℝ) / 12)) ^ (12 : ℕ) ≤ q ^ (12 : ℕ) := by rw [hpow]; exact h
  exact le_of_pow_le_pow_left₀ (by norm_num) hq h2

lemma le_rpow_third {a q : ℝ} (ha : 0 ≤ a) (hq : 0 ≤ q) (h : q ^ (3 : ℕ) ≤ a) :
    q ≤ a ^ ((1 : ℝ) / 3) := by
  have ht0 : (0 : ℝ) ≤ a ^ ((1 : ℝ) / 3) := Real.rpow_nonneg ha _
  have hpow : (a ^ ((1 : ℝ) / 3)) ^ (3 : ℕ) = a := by
    rw [← Real.rpow_natCast (a ^ ((1 : ℝ) / 3)) 3, ← Real.rpow_mul ha]
    norm_num
  have h2 : q ^ (3 : ℕ) ≤ (a ^ ((1 : ℝ) / 3)) ^ (3 : ℕ) := by rw [hpow]; exact h
  exact le_of_pow_le_pow_left₀ (by norm_num) ht0 h2

lemma rpow_third_le {a q : ℝ} (ha : 0 ≤ a) (hq : 0 ≤ q) (h : a ≤ q ^ (3 : ℕ)) :
    a ^ ((1 : ℝ) / 3) ≤ q := by
  have hpow : (a ^ ((1 : ℝ) / 3)) ^ (3 : ℕ) = a := by
    rw [← Real.rpow_natCast (a ^ ((1 : ℝ) / 3)) 3, ← Real.rpow_mul ha]
    norm_num
  have h2 : (a ^ ((1 : ℝ) / 3)) ^ (3 : ℕ) ≤ q ^ (3 : ℕ) := by rw [hpow]; exact h
  exact le_of_pow_le_pow_left₀ (by norm_num) hq h2

lemma le_rpow_gamma24 {a q : ℝ} (ha : 0 ≤ a) (hq : 0 ≤ q) (h : q ^ (5 : ℕ) ≤ a ^ (12 : ℕ)) :
    q ≤ a ^ (2.4 : ℝ) := by
  have he : (2.4 : ℝ) = 12 / 5 := by norm_num
  rw [he]
  have ht0 : (0 : ℝ) ≤ a ^ ((12 : ℝ) / 5) := Real.rpow_nonneg ha _
  have hpow : (a ^ ((12 : ℝ) / 5)) ^ (5 : ℕ) = a ^ (12 : ℕ) := by
    rw [← Real.rpow_natCast (a ^ ((12 : ℝ) / 5)) 5, ← Real.rpow_mul ha,
      ← Real.rpow_natCast a 12]
    norm_num
  have h2 : q ^ (5 : ℕ) ≤ (a ^ ((12 : ℝ) / 5)) ^ (5 : ℕ) := by rw [hpow]; exact h
  exact le_of_pow_le_pow_left₀ (by norm_num) ht0 h2

lemma rpow_gamma24_le {a q : ℝ} (ha : 0 ≤ a) (hq : 0 ≤ q) (h : a ^ (12 : ℕ) ≤ q ^ (5 : ℕ)) :
    a ^ (2.4 : ℝ) ≤ q := by
  have he : (2.4 : ℝ) = 12 / 5 := by norm_num
  rw [he]
  have hpow : (a ^ ((12 : ℝ) / 5)) ^ (5 : ℕ) = a ^ (12 : ℕ) := by
    rw [← Real.rpow_natCast (a ^ ((12 : ℝ) / 5)) 5, ← Real.rpow_mul ha,
      ← Real.rpow_natCast a 12]
    norm_num
  have h2 : (a ^ ((12 : ℝ) / 5)) ^ (5 : ℕ) ≤ q ^ (5 : ℕ) := by rw [hpow]; exact h
  exact le_of_pow_le_pow_left₀ (by norm_num) hq h2

/-! ### Byte-level monotonicity of the encoding pipeline -/

lemma cube_mono {x y : ℝ} (h : x ≤ y) : x * x * x ≤ y * y * y := by
  nlinarith [sq_nonneg (x + y), sq_nonneg (x - y), sq_nonneg x, sq_nonneg y]

lemma clamp_mono {x y : ℝ} (h : x ≤ y) : _clamp x ≤ _clamp y := by
  unfold _clamp
  exact max_le_max le_rfl (min_le_min le_rfl h)

lemma pyround_mono {x y : ℝ} (h : x ≤ y) : pyround x ≤ pyround y := by
  rcases lt_or_le ⌊x⌋ ⌊y⌋ with hf | hf
  · calc pyround x ≤ ⌊x⌋ + 1 := pyround_le_floor_add_one x
      _ ≤ ⌊y⌋ := by omega
      _ ≤ pyround y := floor_le_pyround y
  · have hf' : ⌊x⌋ = ⌊y⌋ := le_antisymm (Int.floor_le_floor h) hf
    have hfc : ((⌊x⌋ : ℤ) : ℝ) = ((⌊y⌋ : ℤ) : ℝ) := by exact_mod_cast hf'
    have hfx : x - ⌊x⌋ ≤ y - ⌊y⌋ := by
      rw [← hfc]; linarith
    unfold pyround
    split_ifs <;> first | omega | (exfalso; linarith)

lemma byteOf_mono {x y : ℝ} (h : x ≤ y) : byteOf x ≤ byteOf y := by
  unfold byteOf
  have := pyround_mono (mul_le_mul_of_nonneg_right (clamp_mono h) (by norm_num : (0:ℝ) ≤ 255))
  omega

/-- The gamma law itself has a microscopic downward jump at the branch
threshold (the real crossover sits slightly below `0.0031308`), but after
clamping, scaling to 255 and rounding the encoded byte is still monotone. -/
lemma byte_gamma_mono {x y : ℝ} (h : x ≤ y) :
    byteOf (_linear_to_srgb x) ≤ byteOf (_linear_to_srgb y) := by
  unfold _linear_to_srgb
  split_ifs with hx hy hy
  · exact byteOf_mono (by linarith)
  · -- cross-branch: the linear side stays at byte ≤ 10, the power side at ≥ 10
    have hupper : byteOf (12.92 * x) ≤ 10 := by
      unfold byteOf
      have h1 : _clamp (12.92 * x) ≤ 0.040449936 := by
        have := clamp_mono (show 12.92 * x ≤ 0.040449936 by nlinarith)
        calc _clamp (12.92 * x) ≤ _clamp 0.040449936 := this
          _ = 0.040449936 := by
            unfold _clamp
            rw [min_eq_right (by norm_num), max_eq_right (by norm_num)]
      have h2 : pyround (_clamp (12.92 * x) * 255) ≤ 10 :=
        pyround_le 10 _ (by push_cast; nlinarith)
      omega
    have hlower : 10 ≤ byteOf (1.055 * y ^ ((1 : ℝ) / 2.4) - 0.055) := by
      unfold byteOf
      have hyth : (0.0031308 : ℝ) ≤ y := by linarith
      have hcert : ((10 / 255 + 0.055) / 1.055 : ℝ) ≤ (0.0031308 : ℝ) ^ ((1 : ℝ) / 2.4) :=
        le_rpow_inv_gamma (by norm_num) (by norm_num) (by norm_num)
      have hmono : (0.0031308 : ℝ) ^ ((1 : ℝ) / 2.4) ≤ y ^ ((1 : ℝ) / 2.4) :=
        Real.rpow_le_rpow (by norm_num) hyth (by norm_num)
      have hval : (10 / 255 : ℝ) ≤ 1.055 * y ^ ((1 : ℝ) / 2.4) - 0.055 := by nlinarith
      have hclamp : (10 / 255 : ℝ) ≤ _clamp (1.055 * y ^ ((1 : ℝ) / 2.4) - 0.055) := by
        unfold _clamp
        refine le_max_of_le_right ?_
        calc (10 / 255 : ℝ) = min 1.0 (10 / 255 : ℝ) := by norm_num
          _ ≤ min 1.0 (1.055 * y ^ ((1 : ℝ) / 2.4) - 0.055) := min_le_min le_rfl hval
      have h2 : (10 : ℤ) ≤ pyround (_clamp (1.055 * y ^ ((1 : ℝ) / 2.4) - 0.055) * 255) :=
        le_pyround 10 _ (by push_cast; nlinarith)
      omega
    omega
  · exact absurd h (by push_neg; nlinarith)
  · refine byteOf_mono ?_
    have h0x : (0 : ℝ) ≤ x := by nlinarith
    have := Real.rpow_le_rpow h0x h (by norm_num : (0:ℝ) ≤ (1:ℝ)/2.4)
    nlinarith

/-! ### Grayscale slice of the forward conversion -/

lemma oklch_hex_eq_of_channels {r1 g1 b1 r2 g2 b2 : ℝ} (hr : r1 = r2) (hg : g1 = g2)
    (hb : b1 = b2) :
    String.mk ('#' :: (hexByte (byteOf (_linear_to_srgb r1)) ++
        hexByte (byteOf (_linear_to_srgb g1)) ++ hexByte (byteOf (_linear_to_srgb b1)))) =
      String.mk ('#' :: (hexByte (byteOf (_linear_to_srgb r2)) ++
        hexByte (byteOf (_linear_to_srgb g2)) ++ hexByte (byteOf (_linear_to_srgb b2)))) := by
  rw [hr, hg, hb]

/-- With chroma 0 the OKLAB offsets vanish and all three LMS-prime values equal
`L`; the three matrix rows sum to exactly 1, so every linear channel is `L³`. -/
lemma oklch_to_hex_zero_chroma (L H : ℝ) :
    _oklch_to_hex L 0 H = String.mk ('#' ::
      (hexByte (byteOf (_linear_to_srgb (L * L * L))) ++
        hexByte (byteOf (_linear_to_srgb (L * L * L))) ++
        hexByte (byteOf (_linear_to_srgb (L * L * L))))) := by
  unfold _oklch_to_hex
  simp only [_oklch_to_oklab, _oklab_to_linear_srgb]
  exact oklch_hex_eq_of_channels (by ring) (by ring) (by ring)

lemma srgb_ge_one {x : ℝ} (h : 1 ≤ x) : 1 ≤ _linear_to_srgb x := by
  unfold _linear_to_srgb
  rw [if_neg (not_le.mpr (by linarith))]
  have h5 : (1 : ℝ) ^ (12 : ℕ) ≤ x ^ (5 : ℕ) := by
    have := pow_le_pow_left₀ (by norm_num : (0:ℝ) ≤ 1) h 5
    simpa using this
  have := le_rpow_inv_gamma (by linarith) (by norm_num) h5
  nlinarith

lemma pyround_intCast (m : ℤ) : pyround ((m : ℤ) : ℝ) = m := by
  unfold pyround
  rw [Int.floor_intCast, if_pos (by norm_num)]

lemma byteOf_eq_255 {x : ℝ} (h : 1 ≤ x) : byteOf x = 255 := by
  unfold byteOf
  have hc : _clamp x = 1 := by
    unfold _clamp
    rw [min_eq_left (by linarith)]
    norm_num
  rw [hc]
  have h255 : ((255 : ℤ) : ℝ) = 1 * 255 := by norm_num
  rw [← h255, pyround_intCast]
  rfl

/-! ### Decoding the produced hex string -/

lemma hex_to_oklch_mk {r g b : ℕ} (hr : r < 256) (hg : g < 256) (hb : b < 256) :
    _hex_to_oklch (String.mk ('#' :: (hexByte r ++ hexByte g ++ hexByte b))) =
      some (decodeRGB r g b) := by
  have hne : (hexDigit (r / 16) == '#') = false :=
    valid_char_ne_hash (hexDigit_valid (by omega))
  simp only [_hex_to_oklch]
  have hdrop : ('#' :: (hexByte r ++ hexByte g ++ hexByte b)).dropWhile (· == '#') =
      hexByte r ++ hexByte g ++ hexByte b := by
    simp only [hexByte, List.cons_append, List.dropWhile_cons, beq_self_eq_true, if_true, hne,
      Bool.false_eq_true, if_false]
  rw [hdrop]
  have h1 : (hexByte r ++ hexByte g ++ hexByte b).take 2 = hexByte r := by
    simp [hexByte, List.take]
  have h2 : ((hexByte r ++ hexByte g ++ hexByte b).drop 2).take 2 = hexByte g := by
    simp [hexByte, List.drop, List.take]
  have h3 : ((hexByte r ++ hexByte g ++ hexByte b).drop 4).take 2 = hexByte b := by
    simp [hexByte, List.drop, List.take]
  rw [h1, h2, h3, parseHex_hexByte hr, parseHex_hexByte hg, parseHex_hexByte hb]

/-! ### Monotonicity of the decoded lightness on gray pixels -/

lemma to_linear_nonneg {c : ℝ} (h : 0 ≤ c) : 0 ≤ to_linear c := by
  unfold to_linear
  split_ifs with hc
  · exact div_nonneg h (by norm_num)
  · exact Real.rpow_nonneg (by positivity) _

lemma to_linear_grid_mono {c1 c2 : ℕ} (h : c1 ≤ c2) (h255 : c2 ≤ 255) :
    to_linear ((c1 : ℝ) / 255) ≤ to_linear ((c2 : ℝ) / 255) := by
  have hc : (c1 : ℝ) ≤ (c2 : ℝ) := by exact_mod_cast h
  unfold to_linear
  split_ifs with h1 h2 h2
  · gcongr
  · -- the quantized grid jumps from byte 10 (linear branch) to byte 11 (power branch)
    have hc1 : c1 ≤ 10 := by
      by_contra hgt
      push_neg at hgt
      have h11 : (11 : ℝ) ≤ (c1 : ℝ) := by exact_mod_cast hgt
      have : (0.04045 : ℝ) < (c1 : ℝ) / 255 := by nlinarith
      linarith
    have hc2 : 11 ≤ c2 := by
      by_contra hlt
      push_neg at hlt
      have h10 : (c2 : ℝ) ≤ 10 := by exact_mod_cast Nat.lt_succ_iff.mp hlt
      exact h2 (by nlinarith)
    have hL : (c1 : ℝ) / 255 / 12.92 ≤ (10 : ℝ) / 255 / 12.92 := by
      have h10 : (c1 : ℝ) ≤ 10 := by exact_mod_cast hc1
      gcongr
    have hcert : ((10 : ℝ) / 255) / 12.92 ≤ ((11 / 255 + 0.055) / 1.055 : ℝ) ^ (2.4 : ℝ) :=
      le_rpow_gamma24 (by norm_num) (by norm_num) (by norm_num)
    have hR : ((11 / 255 + 0.055) / 1.055 : ℝ) ^ (2.4 : ℝ) ≤
        (((c2 : ℝ) / 255 + 0.055) / 1.055) ^ (2.4 : ℝ) := by
      have h11 : (11 : ℝ) ≤ (c2 : ℝ) := by exact_mod_cast hc2
      apply Real.rpow_le_rpow (by norm_num) ?_ (by norm_num)
      gcongr
    linarith
  · exact absurd (by linarith : (c1 : ℝ) / 255 ≤ 0.04045) h1
  · apply Real.rpow_le_rpow (by positivity) ?_ (by norm_num)
    gcongr

/-- On a gray pixel (equal bytes) the decoded `L` is a fixed nonnegative
multiple of the cube root of the linear value. -/
lemma decodeRGB_L_gray (c : ℕ) :
    (decodeRGB c c c).1 =
      (0.2104542553 - 0.0040720468 + 0.7936177850 * (0.9999999999 : ℝ) ^ ((1 : ℝ) / 3)) *
        (to_linear ((c : ℝ) / 255)) ^ ((1 : ℝ) / 3) := by
  have hv0 : (0 : ℝ) ≤ to_linear ((c : ℝ) / 255) := to_linear_nonneg (by positivity)
  simp only [decodeRGB]
  have el : 0.4122214708 * to_linear ((c : ℝ) / 255) + 0.5363325363 * to_linear ((c : ℝ) / 255)
      + 0.0514459929 * to_linear ((c : ℝ) / 255) = to_linear ((c : ℝ) / 255) := by ring
  have em : 0.2119034982 * to_linear ((c : ℝ) / 255) + 0.6806995451 * to_linear ((c : ℝ) / 255)
      + 0.1073969566 * to_linear ((c : ℝ) / 255) = 0.9999999999 * to_linear ((c : ℝ) / 255) := by
    ring
  have es : 0.0883024619 * to_linear ((c : ℝ) / 255) + 0.2817188376 * to_linear ((c : ℝ) / 255)
      + 0.6299787005 * to_linear ((c : ℝ) / 255) = to_linear ((c : ℝ) / 255) := by ring
  rw [el, em, es]
  have hc1 : cbrt (to_linear ((c : ℝ) / 255)) = (to_linear ((c : ℝ) / 255)) ^ ((1 : ℝ) / 3) := by
    unfold cbrt; rw [if_pos hv0]
  have hc2 : cbrt (0.9999999999 * to_linear ((c : ℝ) / 255)) =
      (0.9999999999 : ℝ) ^ ((1 : ℝ) / 3) * (to_linear ((c : ℝ) / 255)) ^ ((1 : ℝ) / 3) := by
    unfold cbrt
    rw [if_pos (by positivity)]
    exact Real.mul_rpow (by norm_num) hv0
  rw [hc1, hc2]
  ring

lemma decodeRGB_L_gray_mono {c1 c2 : ℕ} (h : c1 ≤ c2) (h255 : c2 ≤ 255) :
    (decodeRGB c1 c1 c1).1 ≤ (decodeRGB c2 c2 c2).1 := by
  rw [decodeRGB_L_gray, decodeRGB_L_gray]
  have hK : (0 : ℝ) ≤
      0.2104542553 - 0.0040720468 + 0.7936177850 * (0.9999999999 : ℝ) ^ ((1 : ℝ) / 3) := by
    have := Real.rpow_nonneg (by norm_num : (0:ℝ) ≤ 0.9999999999) ((1 : ℝ) / 3)
    nlinarith
  exact mul_le_mul_of_nonneg_left
    (Real.rpow_le_rpow (to_linear_nonneg (by positivity)) (to_linear_grid_mono h h255)
      (by norm_num)) hK

/-- C9 counterexample: at chroma 0, hue 0 the lightness inputs 2 and 3 (the
claim quantifies over every pair `L1 < L2`) produce the same hex string, so the
decoded luminance does not strictly increase. -/
theorem C9_counterexample :
    (2 : ℝ) < 3 ∧
      ¬ decodedLum (_oklch_to_hex 3 0 0) > decodedLum (_oklch_to_hex 2 0 0) := by
  refine ⟨by norm_num, ?_⟩
  have key : _oklch_to_hex 3 0 0 = _oklch_to_hex 2 0 0 := by
    rw [oklch_to_hex_zero_chroma, oklch_to_hex_zero_chroma]
    have e3 : byteOf (_linear_to_srgb ((3 : ℝ) * 3 * 3)) = 255 :=
      byteOf_eq_255 (srgb_ge_one (by norm_num))
    have e2 : byteOf (_linear_to_srgb ((2 : ℝ) * 2 * 2)) = 255 :=
      byteOf_eq_255 (srgb_ge_one (by norm_num))
    rw [e2, e3]
  rw [key]
  exact lt_irrefl _

/-- C9 (amended): with the chroma fixed at 0 (grayscale slice, any hue), the
decoded luminance of the forward conversion is monotone non-decreasing in `L`
— but only non-strictly: saturation at the gamut boundary can collapse
distinct lightness inputs to the same hex string. -/
theorem C9_decoded_luminance_monotone (H L1 L2 : ℝ) (h : L1 ≤ L2) :
    decodedLum (_oklch_to_hex L1 0 H) ≤ decodedLum (_oklch_to_hex L2 0 H) := by
  rw [oklch_to_hex_zero_chroma L1 H, oklch_to_hex_zero_chroma L2 H]
  have hb1 : byteOf (_linear_to_srgb (L1 * L1 * L1)) ≤ byteOf (_linear_to_srgb (L2 * L2 * L2)) :=
    byte_gamma_mono (cube_mono h)
  have h255a : byteOf (_linear_to_srgb (L1 * L1 * L1)) ≤ 255 := byteOf_le _
  have h255b : byteOf (_linear_to_srgb (L2 * L2 * L2)) ≤ 255 := byteOf_le _
  unfold decodedLum
  rw [hex_to_oklch_mk (by omega) (by omega) (by omega),
    hex_to_oklch_mk (by omega) (by omega) (by omega)]
  simp only [Option.getD_some]
  exact decodeRGB_L_gray_mono hb1 h255b

/-- Witness for C9's amended theorem at `H = 0`, `L1 = 0`, `L2 = 1`. -/
theorem C9_decoded_luminance_monotone_witness :
    (0 : ℝ) ≤ 1 ∧
      decodedLum (_oklch_to_hex 0 0 0) ≤ decodedLum (_oklch_to_hex 1 0 0) :=
  ⟨by norm_num, C9_decoded_luminance_monotone 0 0 1 (by norm_num)⟩

/-! ### Polar round trip: the forward conversion of a decoded OKLCH triple
computes with exactly the decoded OKLAB offsets -/

lemma radians_pymod_degrees (θ : ℝ) :
    radiansR (pymod (degreesR θ) 360) = θ - ⌊degreesR θ / 360⌋ * (2 * Real.pi) := by
  unfold radiansR pymod degreesR
  field_simp
  ring

lemma forward_of_polar (a b : ℝ) :
    Real.sqrt (a * a + b * b) * Real.cos (radiansR (pymod (degreesR (atan2 b a)) 360)) = a ∧
    Real.sqrt (a * a + b * b) * Real.sin (radiansR (pymod (degreesR (atan2 b a)) 360)) = b := by
  rw [radians_pymod_degrees, Real.cos_sub_int_mul_two_pi, Real.sin_sub_int_mul_two_pi]
  by_cases hz : (⟨a, b⟩ : ℂ) = 0
  · rw [Complex.ext_iff] at hz
    obtain ⟨ha, hb⟩ := hz
    simp only [Complex.zero_re, Complex.zero_im] at ha hb
    subst ha; subst hb
    norm_num
  · unfold atan2
    have habs : Complex.abs ⟨a, b⟩ = Real.sqrt (a * a + b * b) := by
      rw [Complex.abs_apply, Complex.normSq_mk]

    have hne : Real.sqrt (a * a + b * b) ≠ 0 := by
      rw [← habs]
      exact (Complex.abs.ne_zero hz)
    rw [Complex.cos_arg hz, Complex.sin_arg, habs]
    constructor <;> field_simp

lemma oklch_to_hex_polar (X a b : ℝ) :
    _oklch_to_hex X (Real.sqrt (a * a + b * b)) (pymod (degreesR (atan2 b a)) 360) =
      oklabToHex X a b := by
  unfold _oklch_to_hex oklabToHex _oklch_to_oklab
  dsimp only
  rw [(forward_of_polar a b).1, (forward_of_polar a b).2]

/-- The middle channel of the LMS → sRGB matrix as an explicit polynomial. -/
lemma g_channel_eq (X a b : ℝ) :
    (_oklab_to_linear_srgb X a b).2.1 =
      -1.2684380046 * ((X + 0.3963377774 * a + 0.2158037573 * b) *
          (X + 0.3963377774 * a + 0.2158037573 * b) *
          (X + 0.3963377774 * a + 0.2158037573 * b)) +
        2.6097574011 * ((X - 0.1055613458 * a - 0.0638541728 * b) *
          (X - 0.1055613458 * a - 0.0638541728 * b) *
          (X - 0.1055613458 * a - 0.0638541728 * b)) -
        0.3413193965 * ((X - 0.0894841775 * a - 1.2914855480 * b) *
          (X - 0.0894841775 * a - 1.2914855480 * b) *
          (X - 0.0894841775 * a - 1.2914855480 * b)) := rfl

/-! ### Byte bounds through the gamma encoder -/

lemma clamp_le {x q : ℝ} (hx : x ≤ q) (hq : 0 ≤ q) : _clamp x ≤ q :=
  max_le (by linarith) (le_trans (min_le_right _ _) hx)

lemma le_clamp {x q : ℝ} (hq1 : q ≤ 1) (hqx : q ≤ x) : q ≤ _clamp x := by
  unfold _clamp
  refine le_max_of_le_right (le_min (by linarith) hqx)

lemma byteOf_srgb_le {g q : ℝ} {m : ℕ} (hg : 0.0031308 < g) (hq : 0 ≤ q)
    (h0q : 0 ≤ 1.055 * q - 0.055) (hgq : g ^ (5 : ℕ) ≤ q ^ (12 : ℕ))
    (hm : (1.055 * q - 0.055) * 255 < (m : ℝ) + 1 / 2) :
    byteOf (_linear_to_srgb g) ≤ m := by
  unfold _linear_to_srgb
  rw [if_neg (not_le.mpr hg)]
  have hg0 : (0 : ℝ) ≤ g := by linarith
  have h1 : g ^ ((1 : ℝ) / 2.4) ≤ q := rpow_inv_gamma_le hg0 hq hgq
  have hcl : _clamp (1.055 * g ^ ((1 : ℝ) / 2.4) - 0.055) ≤ 1.055 * q - 0.055 :=
    clamp_le (by nlinarith) h0q
  unfold byteOf
  have hp : pyround (_clamp (1.055 * g ^ ((1 : ℝ) / 2.4) - 0.055) * 255) ≤ (m : ℤ) :=
    pyround_le _ _ (by push_cast; nlinarith)
  omega

lemma byteOf_srgb_ge {g q : ℝ} {m : ℕ} (hg : 0.0031308 < g) (hq : 0 ≤ q)
    (h1q : 1.055 * q - 0.055 ≤ 1) (hgq : q ^ (12 : ℕ) ≤ g ^ (5 : ℕ))
    (hm : (m : ℝ) ≤ (1.055 * q - 0.055) * 255) :
    m ≤ byteOf (_linear_to_srgb g) := by
  unfold _linear_to_srgb
  rw [if_neg (not_le.mpr hg)]
  have hg0 : (0 : ℝ) ≤ g := by linarith
  have h1 : q ≤ g ^ ((1 : ℝ) / 2.4) := le_rpow_inv_gamma hg0 hq hgq
  have hcl : 1.055 * q - 0.055 ≤ _clamp (1.055 * g ^ ((1 : ℝ) / 2.4) - 0.055) :=
    le_clamp h1q (by nlinarith)
  unfold byteOf
  have hp : (m : ℤ) ≤ pyround (_clamp (1.055 * g ^ ((1 : ℝ) / 2.4) - 0.055) * 255) :=
    le_pyround _ _ (by push_cast; nlinarith)
  omega

/-! ### Distinct bytes give distinct hex strings -/

lemma hexDigit_inj {d1 d2 : ℕ} (h1 : d1 < 16) (h2 : d2 < 16) :
    hexDigit d1 = hexDigit d2 → d1 = d2 := by
  interval_cases d1 <;> interval_cases d2 <;> decide

lemma hexByte_inj {n1 n2 : ℕ} (h1 : n1 < 256) (h2 : n2 < 256)
    (he : hexByte n1 = hexByte n2) : n1 = n2 := by
  unfold hexByte at he
  rw [List.cons.injEq, List.cons.injEq] at he
  have hdiv := hexDigit_inj (by omega) (by omega) he.1
  have hmod := hexDigit_inj (Nat.mod_lt _ (by norm_num)) (Nat.mod_lt _ (by norm_num)) he.2.1
  omega

lemma mid_slice (r g b : ℕ) :
    (('#' :: (hexByte r ++ hexByte g ++ hexByte b)).drop 3).take 2 = hexByte g := by
  simp [hexByte, List.cons_append, List.drop, List.take]

lemma mk_hex_ne_of_g {r1 g1 b1 r2 g2 b2 : ℕ} (hg1 : g1 < 256) (hg2 : g2 < 256)
    (hne : g1 ≠ g2) :
    String.mk ('#' :: (hexByte r1 ++ hexByte g1 ++ hexByte b1)) ≠
      String.mk ('#' :: (hexByte r2 ++ hexByte g2 ++ hexByte b2)) := by
  intro he
  have hdata : '#' :: (hexByte r1 ++ hexByte g1 ++ hexByte b1) =
      '#' :: (hexByte r2 ++ hexByte g2 ++ hexByte b2) := congrArg String.data he
  apply hne
  apply hexByte_inj hg1 hg2
  calc hexByte g1 = (('#' :: (hexByte r1 ++ hexByte g1 ++ hexByte b1)).drop 3).take 2 :=
        (mid_slice r1 g1 b1).symm
    _ = (('#' :: (hexByte r2 ++ hexByte g2 ++ hexByte b2)).drop 3).take 2 := by rw [hdata]
    _ = hexByte g2 := mid_slice r2 g2 b2

/-! ### Lighten with a negative amount versus darken -/

lemma to_linear_zero : to_linear (((0 : ℕ) : ℝ) / 255) = 0 := by
  unfold to_linear
  norm_num

lemma decode_black : _hex_to_oklch "#000000" = some ((0 : ℝ), (0 : ℝ), (0 : ℝ)) := by
  have hdec : _hex_to_oklch "#000000" = some (decodeRGB 0 0 0) := rfl
  rw [hdec]
  have hz : (⟨(0 : ℝ), (0 : ℝ)⟩ : ℂ) = 0 := by
    simp [Complex.ext_iff]
  have hD : decodeRGB 0 0 0 = ((0 : ℝ), (0 : ℝ), (0 : ℝ)) := by
    simp only [decodeRGB, to_linear_zero]
    norm_num [cbrt, Real.zero_rpow, atan2, hz, Complex.arg_zero, degreesR, pymod]
  rw [hD]

/-- C8 (amended): `lighten hex (-a) = darken hex a` holds for `a ≥ 0` provided
the adjusted lightness `l - a` stays in `[0, 1]`; when `l - a` underflows 0 the
two calls disagree (`lighten` keeps the negative lightness, `darken` clamps). -/
theorem C8_lighten_neg_eq_darken (s : String) (l c h a : ℝ)
    (hdec : _hex_to_oklch s = some (l, c, h)) (ha : 0 ≤ a) (h0 : 0 ≤ l - a)
    (h1 : l - a ≤ 1) :
    lighten s (-a) = darken s a := by
  unfold lighten darken
  rw [hdec]
  simp only [Option.map_some']
  have hmin : min 1.0 (l + -a) = l - a := by
    rw [min_eq_right (by linarith)]; ring
  have hmax : max 0.0 (l - a) = l - a := by
    rw [max_eq_right (by linarith)]
  rw [hmin, hmax]

/-- Witness for C8's amended theorem at the input `"#000000"`, `a = 0`. -/
theorem C8_lighten_neg_eq_darken_witness :
    ((0 : ℝ) ≤ 0 ∧ (0 : ℝ) ≤ 0 - 0 ∧ (0 : ℝ) - 0 ≤ 1) ∧
      lighten "#000000" (-0) = darken "#000000" 0 :=
  ⟨⟨by norm_num, by norm_num, by norm_num⟩,
    C8_lighten_neg_eq_darken "#000000" 0 0 0 0 decode_black (by norm_num) (by norm_num)
      (by norm_num)⟩

lemma to_linear_one : to_linear (((255 : ℕ) : ℝ) / 255) = 1 := by
  unfold to_linear
  norm_num [Real.one_rpow]

lemma decode_green :
    decodeRGB 0 255 0 =
      (0.2104542553 * cbrt 0.5363325363 + 0.7936177850 * cbrt 0.6806995451 -
          0.0040720468 * cbrt 0.2817188376,
        Real.sqrt
          ((1.9779984951 * cbrt 0.5363325363 - 2.4285922050 * cbrt 0.6806995451 +
              0.4505937099 * cbrt 0.2817188376) *
            (1.9779984951 * cbrt 0.5363325363 - 2.4285922050 * cbrt 0.6806995451 +
              0.4505937099 * cbrt 0.2817188376) +
            (0.0259040371 * cbrt 0.5363325363 + 0.7827717662 * cbrt 0.6806995451 -
              0.8086757660 * cbrt 0.2817188376) *
            (0.0259040371 * cbrt 0.5363325363 + 0.7827717662 * cbrt 0.6806995451 -
              0.8086757660 * cbrt 0.2817188376)),
        pymod (degreesR (atan2
          (0.0259040371 * cbrt 0.5363325363 + 0.7827717662 * cbrt 0.6806995451 -
            0.8086757660 * cbrt 0.2817188376)
          (1.9779984951 * cbrt 0.5363325363 - 2.4285922050 * cbrt 0.6806995451 +
            0.4505937099 * cbrt 0.2817188376))) 360) := by
  simp only [decodeRGB, to_linear_zero, to_linear_one]
  norm_num

/-- Interval bound for the green linear channel as a function of OKLAB
coordinates: monotone envelope via the cube bounds of the three LMS primes. -/
lemma g_poly_bounds {x1 x2 x3 lo1 hi1 lo2 hi2 lo3 hi3 glo ghi : ℝ}
    (h1l : lo1 ≤ x1) (h1h : x1 ≤ hi1) (h2l : lo2 ≤ x2) (h2h : x2 ≤ hi2)
    (h3l : lo3 ≤ x3) (h3h : x3 ≤ hi3)
    (hlo : glo ≤ -1.2684380046 * (hi1 * hi1 * hi1) + 2.6097574011 * (lo2 * lo2 * lo2) -
      0.3413193965 * (hi3 * hi3 * hi3))
    (hhi : -1.2684380046 * (lo1 * lo1 * lo1) + 2.6097574011 * (hi2 * hi2 * hi2) -
      0.3413193965 * (lo3 * lo3 * lo3) ≤ ghi) :
    glo ≤ -1.2684380046 * (x1 * x1 * x1) + 2.6097574011 * (x2 * x2 * x2) -
        0.3413193965 * (x3 * x3 * x3) ∧
      -1.2684380046 * (x1 * x1 * x1) + 2.6097574011 * (x2 * x2 * x2) -
        0.3413193965 * (x3 * x3 * x3) ≤ ghi :=
  ⟨by linarith [cube_mono h1l, cube_mono h1h, cube_mono h2l, cube_mono h2h,
      cube_mono h3l, cube_mono h3h],
    by linarith [cube_mono h1l, cube_mono h1h, cube_mono h2l, cube_mono h2h,
      cube_mono h3l, cube_mono h3h]⟩

/-- Interval bound for the green linear channel as a function of OKLAB
coordinates: monotone envelope via the cube bounds of the three LMS primes. -/
lemma g_channel_bounds {X a b lo1 hi1 lo2 hi2 lo3 hi3 glo ghi : ℝ}
    (h1l : lo1 ≤ X + 0.3963377774 * a + 0.2158037573 * b)
    (h1h : X + 0.3963377774 * a + 0.2158037573 * b ≤ hi1)
    (h2l : lo2 ≤ X - 0.1055613458 * a - 0.0638541728 * b)
    (h2h : X - 0.1055613458 * a - 0.0638541728 * b ≤ hi2)
    (h3l : lo3 ≤ X - 0.0894841775 * a - 1.2914855480 * b)
    (h3h : X - 0.0894841775 * a - 1.2914855480 * b ≤ hi3)
    (hlo : glo ≤ -1.2684380046 * (hi1 * hi1 * hi1) + 2.6097574011 * (lo2 * lo2 * lo2) -
      0.3413193965 * (hi3 * hi3 * hi3))
    (hhi : -1.2684380046 * (lo1 * lo1 * lo1) + 2.6097574011 * (hi2 * hi2 * hi2) -
      0.3413193965 * (lo3 * lo3 * lo3) ≤ ghi) :
    glo ≤ (_oklab_to_linear_srgb X a b).2.1 ∧ (_oklab_to_linear_srgb X a b).2.1 ≤ ghi := by
  rw [g_channel_eq]
  exact g_poly_bounds h1l h1h h2l h2h h3l h3h hlo hhi

set_option maxHeartbeats 3200000 in
/-- C8 counterexample: for the well-formed input `"#00ff00"` and amount
`a = 1 ≥ 0`, `lighten` with `-1` differs from `darken` with `1`: the decoded
lightness is ≈ 0.866, so `darken` clamps the new lightness to 0 while
`lighten` keeps the negative value ≈ -0.134, and the green output channels
land in disjoint byte ranges (≤ 11 versus ≥ 36). -/
theorem C8_counterexample :
    (0 : ℝ) ≤ 1 ∧ lighten "#00ff00" (-1) ≠ darken "#00ff00" 1 := by
  refine ⟨by norm_num, ?_⟩
  have hdec : _hex_to_oklch "#00ff00" = some (decodeRGB 0 255 0) := rfl
  unfold lighten darken
  rw [hdec, decode_green]
  simp only [Option.map_some', Ne, Option.some_inj]
  -- certified cube-root bounds
  have hcbA : cbrt (0.5363325363 : ℝ) = (0.5363325363 : ℝ) ^ ((1 : ℝ) / 3) := by
    unfold cbrt; rw [if_pos (by norm_num)]
  have hcbB : cbrt (0.6806995451 : ℝ) = (0.6806995451 : ℝ) ^ ((1 : ℝ) / 3) := by
    unfold cbrt; rw [if_pos (by norm_num)]
  have hcbS : cbrt (0.2817188376 : ℝ) = (0.2817188376 : ℝ) ^ ((1 : ℝ) / 3) := by
    unfold cbrt; rw [if_pos (by norm_num)]
  have hA1 : (0.8124775719 : ℝ) ≤ cbrt (0.5363325363 : ℝ) := by
    rw [hcbA]; exact le_rpow_third (by norm_num) (by norm_num) (by norm_num)
  have hA2 : cbrt (0.5363325363 : ℝ) ≤ 0.8124775720 := by
    rw [hcbA]; exact rpow_third_le (by norm_num) (by norm_num) (by norm_num)
  have hB1 : (0.8796673782 : ℝ) ≤ cbrt (0.6806995451 : ℝ) := by
    rw [hcbB]; exact le_rpow_third (by norm_num) (by norm_num) (by norm_num)
  have hB2 : cbrt (0.6806995451 : ℝ) ≤ 0.8796673783 := by
    rw [hcbB]; exact rpow_third_le (by norm_num) (by norm_num) (by norm_num)
  have hS1 : (0.6555492063 : ℝ) ≤ cbrt (0.2817188376 : ℝ) := by
    rw [hcbS]; exact le_rpow_third (by norm_num) (by norm_num) (by norm_num)
  have hS2 : cbrt (0.2817188376 : ℝ) ≤ 0.6555492064 := by
    rw [hcbS]; exact rpow_third_le (by norm_num) (by norm_num) (by norm_num)
  -- bounds for the decoded OKLAB coordinates, then make them opaque
  have hLE1 : (0.8664396115 : ℝ) ≤ 0.2104542553 * cbrt 0.5363325363 +
      0.7936177850 * cbrt 0.6806995451 - 0.0040720468 * cbrt 0.2817188376 := by linarith
  have hLE2 : 0.2104542553 * cbrt 0.5363325363 + 0.7936177850 * cbrt 0.6806995451 -
      0.0040720468 * cbrt 0.2817188376 ≤ (0.8664396117 : ℝ) := by linarith
  have haE1 : (-0.2338875746 : ℝ) ≤ 1.9779984951 * cbrt 0.5363325363 -
      2.4285922050 * cbrt 0.6806995451 + 0.4505937099 * cbrt 0.2817188376 := by linarith
  have haE2 : 1.9779984951 * cbrt 0.5363325363 - 2.4285922050 * cbrt 0.6806995451 +
      0.4505937099 * cbrt 0.2817188376 ≤ (-0.2338875740 : ℝ) := by linarith
  have hbE1 : (0.1794984798 : ℝ) ≤ 0.0259040371 * cbrt 0.5363325363 +
      0.7827717662 * cbrt 0.6806995451 - 0.8086757660 * cbrt 0.2817188376 := by linarith
  have hbE2 : 0.0259040371 * cbrt 0.5363325363 + 0.7827717662 * cbrt 0.6806995451 -
      0.8086757660 * cbrt 0.2817188376 ≤ (0.1794984800 : ℝ) := by linarith
  generalize hLEe : (0.2104542553 * cbrt 0.5363325363 + 0.7936177850 * cbrt 0.6806995451 -
      0.0040720468 * cbrt 0.2817188376 : ℝ) = LE at hLE1 hLE2 ⊢
  generalize haEe : (1.9779984951 * cbrt 0.5363325363 - 2.4285922050 * cbrt 0.6806995451 +
      0.4505937099 * cbrt 0.2817188376 : ℝ) = aE at haE1 haE2 ⊢
  generalize hbEe : (0.0259040371 * cbrt 0.5363325363 + 0.7827717662 * cbrt 0.6806995451 -
      0.8086757660 * cbrt 0.2817188376 : ℝ) = bE at hbE1 hbE2 ⊢
  -- reduce min/max and move to OKLAB coordinates
  have hmin : min 1.0 (LE + -1) = LE - 1 := by
    rw [min_eq_right (by linarith)]; ring
  have hmax : max 0.0 (LE - 1) = 0 := by
    rw [max_eq_left (by linarith)]; norm_num
  rw [hmin, hmax, oklch_to_hex_polar, oklch_to_hex_polar]
  have hoL : oklabToHex (LE - 1) aE bE = String.mk ('#' ::
      (hexByte (byteOf (_linear_to_srgb (_oklab_to_linear_srgb (LE - 1) aE bE).1)) ++
        hexByte (byteOf (_linear_to_srgb (_oklab_to_linear_srgb (LE - 1) aE bE).2.1)) ++
        hexByte (byteOf (_linear_to_srgb (_oklab_to_linear_srgb (LE - 1) aE bE).2.2)))) := rfl
  have hoD : oklabToHex 0 aE bE = String.mk ('#' ::
      (hexByte (byteOf (_linear_to_srgb (_oklab_to_linear_srgb 0 aE bE).1)) ++
        hexByte (byteOf (_linear_to_srgb (_oklab_to_linear_srgb 0 aE bE).2.1)) ++
        hexByte (byteOf (_linear_to_srgb (_oklab_to_linear_srgb 0 aE bE).2.2)))) := rfl
  rw [hoL, hoD]
  -- darken green channel interval
  have hdlo : (0.0031309 : ℝ) ≤
      -1.2684380046 * ((-0.05396203 : ℝ) * -0.05396203 * -0.05396203) +
        2.6097574011 * ((0.0132277601 : ℝ) * 0.0132277601 * 0.0132277601) -
        0.3413193965 * ((-0.21089045 : ℝ) * -0.21089045 * -0.21089045) := by norm_num
  have hdhi :
      -1.2684380046 * ((-0.05396204 : ℝ) * -0.05396204 * -0.05396204) +
        2.6097574011 * ((0.0132277602 : ℝ) * 0.0132277602 * 0.0132277602) -
        0.3413193965 * ((-0.21089046 : ℝ) * -0.21089046 * -0.21089046) ≤
      (0.0034066925 : ℝ) := by norm_num
  obtain ⟨hgd_lo1, hgd_hi⟩ :=
    g_channel_bounds
      (show (-0.05396204 : ℝ) ≤ (0 : ℝ) + 0.3963377774 * aE + 0.2158037573 * bE by linarith)
      (show (0 : ℝ) + 0.3963377774 * aE + 0.2158037573 * bE ≤ -0.05396203 by linarith)
      (show (0.0132277601 : ℝ) ≤ (0 : ℝ) - 0.1055613458 * aE - 0.0638541728 * bE by linarith)
      (show (0 : ℝ) - 0.1055613458 * aE - 0.0638541728 * bE ≤ 0.0132277602 by linarith)
      (show (-0.21089046 : ℝ) ≤ (0 : ℝ) - 0.0894841775 * aE - 1.2914855480 * bE by linarith)
      (show (0 : ℝ) - 0.0894841775 * aE - 1.2914855480 * bE ≤ -0.21089045 by linarith)
      hdlo hdhi
  have hgd_lo : (0.0031308 : ℝ) < (_oklab_to_linear_srgb 0 aE bE).2.1 := by linarith
  -- lighten green channel interval
  have hllo : (0.0177660077 : ℝ) ≤
      -1.2684380046 * ((-0.18752242 : ℝ) * -0.18752242 * -0.18752242) +
        2.6097574011 * ((-0.12033263 : ℝ) * -0.12033263 * -0.12033263) -
        0.3413193965 * ((-0.34445084 : ℝ) * -0.34445084 * -0.34445084) := by norm_num
  have hlhi :
      -1.2684380046 * ((-0.18752243 : ℝ) * -0.18752243 * -0.18752243) +
        2.6097574011 * ((-0.12033262 : ℝ) * -0.12033262 * -0.12033262) -
        0.3413193965 * ((-0.34445085 : ℝ) * -0.34445085 * -0.34445085) ≤ (1 : ℝ) := by
    norm_num
  obtain ⟨hgl_lo1, hgl_hi⟩ :=
    g_channel_bounds
      (show (-0.18752243 : ℝ) ≤ (LE - 1) + 0.3963377774 * aE + 0.2158037573 * bE by linarith)
      (show (LE - 1) + 0.3963377774 * aE + 0.2158037573 * bE ≤ -0.18752242 by linarith)
      (show (-0.12033263 : ℝ) ≤ (LE - 1) - 0.1055613458 * aE - 0.0638541728 * bE by linarith)
      (show (LE - 1) - 0.1055613458 * aE - 0.0638541728 * bE ≤ -0.12033262 by linarith)
      (show (-0.34445085 : ℝ) ≤ (LE - 1) - 0.0894841775 * aE - 1.2914855480 * bE by linarith)
      (show (LE - 1) - 0.0894841775 * aE - 1.2914855480 * bE ≤ -0.34445084 by linarith)
      hllo hlhi
  have hgl_lo : (0.0031308 : ℝ) < (_oklab_to_linear_srgb (LE - 1) aE bE).2.1 := by linarith
  -- byte bounds: darken ≤ 11 < 36 ≤ lighten
  have hc5d : (_oklab_to_linear_srgb 0 aE bE).2.1 ^ (5 : ℕ) ≤ (0.0938 : ℝ) ^ (12 : ℕ) :=
    calc (_oklab_to_linear_srgb 0 aE bE).2.1 ^ (5 : ℕ) ≤ (0.0034066925 : ℝ) ^ (5 : ℕ) :=
          pow_le_pow_left₀ (by linarith) hgd_hi 5
      _ ≤ (0.0938 : ℝ) ^ (12 : ℕ) := by norm_num
  have hbd : byteOf (_linear_to_srgb ((_oklab_to_linear_srgb 0 aE bE).2.1)) ≤ 11 :=
    byteOf_srgb_le hgd_lo (by norm_num) (by norm_num) hc5d (by norm_num)
  have hc5l : (0.1864 : ℝ) ^ (12 : ℕ) ≤ (_oklab_to_linear_srgb (LE - 1) aE bE).2.1 ^ (5 : ℕ) :=
    calc (0.1864 : ℝ) ^ (12 : ℕ) ≤ (0.0177660077 : ℝ) ^ (5 : ℕ) := by norm_num
      _ ≤ (_oklab_to_linear_srgb (LE - 1) aE bE).2.1 ^ (5 : ℕ) :=
          pow_le_pow_left₀ (by norm_num) hgl_lo1 5
  have hbl : 36 ≤ byteOf (_linear_to_srgb ((_oklab_to_linear_srgb (LE - 1) aE bE).2.1)) :=
    byteOf_srgb_ge hgl_lo (by norm_num) (by norm_num) hc5l (by norm_num)
  have h255l : byteOf (_linear_to_srgb ((_oklab_to_linear_srgb (LE - 1) aE bE).2.1)) < 256 :=
    lt_of_le_of_lt (byteOf_le _) (by norm_num)
  have h255d : byteOf (_linear_to_srgb ((_oklab_to_linear_srgb 0 aE bE).2.1)) < 256 :=
    lt_of_le_of_lt (byteOf_le _) (by norm_num)
  intro he
  exact mk_hex_ne_of_g h255l h255d (fun heq => by
    rw [heq] at hbl
    exact absurd (le_trans hbl hbd) (by norm_num)) he

/-! ### The colors assigned to twelve runs: certified byte intervals -/

lemma sqrt3_lo : (1.7320508075 : ℝ) ≤ Real.sqrt 3 := by
  have h := Real.sq_sqrt (show (0:ℝ) ≤ 3 by norm_num)
  have hn := Real.sqrt_nonneg 3
  nlinarith

lemma sqrt3_hi : Real.sqrt 3 ≤ (1.7320508076 : ℝ) := by
  have h := Real.sq_sqrt (show (0:ℝ) ≤ 3 by norm_num)
  have hn := Real.sqrt_nonneg 3
  nlinarith

lemma pymod_eq_self {x y : ℝ} (h0 : 0 ≤ x) (hxy : x < y) : pymod x y = x := by
  have hy : 0 < y := lt_of_le_of_lt h0 hxy
  have hf : ⌊x / y⌋ = 0 :=
    Int.floor_eq_zero_iff.mpr
      (Set.mem_Ico.mpr ⟨div_nonneg h0 hy.le, (div_lt_one hy).mpr hxy⟩)
  unfold pymod
  rw [hf]
  push_cast
  ring

lemma byteOf_nonpos {x : ℝ} (h : x ≤ 0) : byteOf x = 0 := by
  unfold byteOf
  have hm : min 1.0 x ≤ 0.0 := le_trans (min_le_right _ _) (by linarith)
  have hc : _clamp x = 0.0 := by
    unfold _clamp
    exact max_eq_left hm
  rw [hc, show (0.0 : ℝ) * 255 = ((0 : ℤ) : ℝ) by norm_num, pyround_intCast]
  rfl

lemma byteOf_srgb_neg {g : ℝ} (h : g ≤ 0) : byteOf (_linear_to_srgb g) = 0 := by
  unfold _linear_to_srgb
  rw [if_pos (show g ≤ 0.0031308 by linarith)]
  exact byteOf_nonpos (by linarith)

lemma lt_pyround {m : ℤ} {x : ℝ} (h : (m : ℝ) - 1 / 2 < x) : m ≤ pyround x := by
  by_cases hx : (m : ℝ) ≤ x
  · exact le_trans (Int.le_floor.mpr hx) (floor_le_pyround x)
  · push_neg at hx
    have hfl : ⌊x⌋ = m - 1 := by
      apply Int.floor_eq_iff.mpr
      constructor
      · push_cast; linarith
      · push_cast; linarith
    unfold pyround
    rw [hfl]
    rw [if_neg (by push_cast; linarith), if_pos (by push_cast; linarith)]
    omega

lemma byteOf_srgb_ge' {g q : ℝ} {m : ℕ} (hg : 0.0031308 < g) (hq : 0 ≤ q)
    (h1q : 1.055 * q - 0.055 ≤ 1) (hgq : q ^ (12 : ℕ) ≤ g ^ (5 : ℕ))
    (hm : (m : ℝ) - 1 / 2 < (1.055 * q - 0.055) * 255) :
    m ≤ byteOf (_linear_to_srgb g) := by
  unfold _linear_to_srgb
  rw [if_neg (not_le.mpr hg)]
  have hg0 : (0 : ℝ) ≤ g := by linarith
  have h1 : q ≤ g ^ ((1 : ℝ) / 2.4) := le_rpow_inv_gamma hg0 hq hgq
  have hcl : 1.055 * q - 0.055 ≤ _clamp (1.055 * g ^ ((1 : ℝ) / 2.4) - 0.055) :=
    le_clamp h1q (by nlinarith)
  unfold byteOf
  have hp : (m : ℤ) ≤ pyround (_clamp (1.055 * g ^ ((1 : ℝ) / 2.4) - 0.055) * 255) :=
    lt_pyround (by push_cast; nlinarith)
  omega

lemma byteOf_srgb_eq {g glo ghi qlo qhi : ℝ} {m : ℕ}
    (hglo : glo ≤ g) (hghi : g ≤ ghi) (hlo0 : 0.0031308 < glo)
    (hqlo : 0 ≤ qlo) (hqhi : 0 ≤ qhi)
    (hclo : qlo ^ (12 : ℕ) ≤ glo ^ (5 : ℕ)) (hchi : ghi ^ (5 : ℕ) ≤ qhi ^ (12 : ℕ))
    (h0hi : 0 ≤ 1.055 * qhi - 0.055) (h1lo : 1.055 * qlo - 0.055 ≤ 1)
    (hmlo : (m : ℝ) - 1 / 2 < (1.055 * qlo - 0.055) * 255)
    (hmhi : (1.055 * qhi - 0.055) * 255 < (m : ℝ) + 1 / 2) :
    byteOf (_linear_to_srgb g) = m := by
  have hg : (0.0031308 : ℝ) < g := lt_of_lt_of_le hlo0 hglo
  have h5lo : qlo ^ (12 : ℕ) ≤ g ^ (5 : ℕ) :=
    le_trans hclo (pow_le_pow_left₀ (by linarith) hglo 5)
  have h5hi : g ^ (5 : ℕ) ≤ qhi ^ (12 : ℕ) :=
    le_trans (pow_le_pow_left₀ (by linarith) hghi 5) hchi
  exact le_antisymm (byteOf_srgb_le hg hqhi h0hi h5hi hmhi)
    (byteOf_srgb_ge' hg hqlo h1lo h5lo hmlo)

lemma r_channel_eq (X a b : ℝ) :
    (_oklab_to_linear_srgb X a b).1 =
      4.0767416621 * ((X + 0.3963377774 * a + 0.2158037573 * b) *
          (X + 0.3963377774 * a + 0.2158037573 * b) *
          (X + 0.3963377774 * a + 0.2158037573 * b)) -
        3.3077115913 * ((X - 0.1055613458 * a - 0.0638541728 * b) *
          (X - 0.1055613458 * a - 0.0638541728 * b) *
          (X - 0.1055613458 * a - 0.0638541728 * b)) +
        0.2309699292 * ((X - 0.0894841775 * a - 1.2914855480 * b) *
          (X - 0.0894841775 * a - 1.2914855480 * b) *
          (X - 0.0894841775 * a - 1.2914855480 * b)) := rfl

lemma b_channel_eq (X a b : ℝ) :
    (_oklab_to_linear_srgb X a b).2.2 =
      -0.0041960863 * ((X + 0.3963377774 * a + 0.2158037573 * b) *
          (X + 0.3963377774 * a + 0.2158037573 * b) *
          (X + 0.3963377774 * a + 0.2158037573 * b)) -
        0.7034186147 * ((X - 0.1055613458 * a - 0.0638541728 * b) *
          (X - 0.1055613458 * a - 0.0638541728 * b) *
          (X - 0.1055613458 * a - 0.0638541728 * b)) +
        1.7076147010 * ((X - 0.0894841775 * a - 1.2914855480 * b) *
          (X - 0.0894841775 * a - 1.2914855480 * b) *
          (X - 0.0894841775 * a - 1.2914855480 * b)) := rfl

lemma r_poly_bounds {x1 x2 x3 lo1 hi1 lo2 hi2 lo3 hi3 glo ghi : ℝ}
    (h1l : lo1 ≤ x1) (h1h : x1 ≤ hi1) (h2l : lo2 ≤ x2) (h2h : x2 ≤ hi2)
    (h3l : lo3 ≤ x3) (h3h : x3 ≤ hi3)
    (hlo : glo ≤ 4.0767416621 * (lo1 * lo1 * lo1) - 3.3077115913 * (hi2 * hi2 * hi2) +
      0.2309699292 * (lo3 * lo3 * lo3))
    (hhi : 4.0767416621 * (hi1 * hi1 * hi1) - 3.3077115913 * (lo2 * lo2 * lo2) +
      0.2309699292 * (hi3 * hi3 * hi3) ≤ ghi) :
    glo ≤ 4.0767416621 * (x1 * x1 * x1) - 3.3077115913 * (x2 * x2 * x2) +
        0.2309699292 * (x3 * x3 * x3) ∧
      4.0767416621 * (x1 * x1 * x1) - 3.3077115913 * (x2 * x2 * x2) +
        0.2309699292 * (x3 * x3 * x3) ≤ ghi :=
  ⟨by linarith [cube_mono h1l, cube_mono h1h, cube_mono h2l, cube_mono h2h,
      cube_mono h3l, cube_mono h3h],
    by linarith [cube_mono h1l, cube_mono h1h, cube_mono h2l, cube_mono h2h,
      cube_mono h3l, cube_mono h3h]⟩

lemma r_channel_bounds {X a b lo1 hi1 lo2 hi2 lo3 hi3 glo ghi : ℝ}
    (h1l : lo1 ≤ X + 0.3963377774 * a + 0.2158037573 * b)
    (h1h : X + 0.3963377774 * a + 0.2158037573 * b ≤ hi1)
    (h2l : lo2 ≤ X - 0.1055613458 * a - 0.0638541728 * b)
    (h2h : X - 0.1055613458 * a - 0.0638541728 * b ≤ hi2)
    (h3l : lo3 ≤ X - 0.0894841775 * a - 1.2914855480 * b)
    (h3h : X - 0.0894841775 * a - 1.2914855480 * b ≤ hi3)
    (hlo : glo ≤ 4.0767416621 * (lo1 * lo1 * lo1) - 3.3077115913 * (hi2 * hi2 * hi2) +
      0.2309699292 * (lo3 * lo3 * lo3))
    (hhi : 4.0767416621 * (hi1 * hi1 * hi1) - 3.3077115913 * (lo2 * lo2 * lo2) +
      0.2309699292 * (hi3 * hi3 * hi3) ≤ ghi) :
    glo ≤ (_oklab_to_linear_srgb X a b).1 ∧ (_oklab_to_linear_srgb X a b).1 ≤ ghi := by
  rw [r_channel_eq]
  exact r_poly_bounds h1l h1h h2l h2h h3l h3h hlo hhi

lemma b_poly_bounds {x1 x2 x3 lo1 hi1 lo2 hi2 lo3 hi3 glo ghi : ℝ}
    (h1l : lo1 ≤ x1) (h1h : x1 ≤ hi1) (h2l : lo2 ≤ x2) (h2h : x2 ≤ hi2)
    (h3l : lo3 ≤ x3) (h3h : x3 ≤ hi3)
    (hlo : glo ≤ -0.0041960863 * (hi1 * hi1 * hi1) - 0.7034186147 * (hi2 * hi2 * hi2) +
      1.7076147010 * (lo3 * lo3 * lo3))
    (hhi : -0.0041960863 * (lo1 * lo1 * lo1) - 0.7034186147 * (lo2 * lo2 * lo2) +
      1.7076147010 * (hi3 * hi3 * hi3) ≤ ghi) :
    glo ≤ -0.0041960863 * (x1 * x1 * x1) - 0.7034186147 * (x2 * x2 * x2) +
        1.7076147010 * (x3 * x3 * x3) ∧
      -0.0041960863 * (x1 * x1 * x1) - 0.7034186147 * (x2 * x2 * x2) +
        1.7076147010 * (x3 * x3 * x3) ≤ ghi :=
  ⟨by linarith [cube_mono h1l, cube_mono h1h, cube_mono h2l, cube_mono h2h,
      cube_mono h3l, cube_mono h3h],
    by linarith [cube_mono h1l, cube_mono h1h, cube_mono h2l, cube_mono h2h,
      cube_mono h3l, cube_mono h3h]⟩

lemma b_channel_bounds {X a b lo1 hi1 lo2 hi2 lo3 hi3 glo ghi : ℝ}
    (h1l : lo1 ≤ X + 0.3963377774 * a + 0.2158037573 * b)
    (h1h : X + 0.3963377774 * a + 0.2158037573 * b ≤ hi1)
    (h2l : lo2 ≤ X - 0.1055613458 * a - 0.0638541728 * b)
    (h2h : X - 0.1055613458 * a - 0.0638541728 * b ≤ hi2)
    (h3l : lo3 ≤ X - 0.0894841775 * a - 1.2914855480 * b)
    (h3h : X - 0.0894841775 * a - 1.2914855480 * b ≤ hi3)
    (hlo : glo ≤ -0.0041960863 * (hi1 * hi1 * hi1) - 0.7034186147 * (hi2 * hi2 * hi2) +
      1.7076147010 * (lo3 * lo3 * lo3))
    (hhi : -0.0041960863 * (lo1 * lo1 * lo1) - 0.7034186147 * (lo2 * lo2 * lo2) +
      1.7076147010 * (hi3 * hi3 * hi3) ≤ ghi) :
    glo ≤ (_oklab_to_linear_srgb X a b).2.2 ∧ (_oklab_to_linear_srgb X a b).2.2 ≤ ghi := by
  rw [b_channel_eq]
  exact b_poly_bounds h1l h1h h2l h2h h3l h3h hlo hhi

lemma varied12_c0 :
    _oklch_to_hex (4 / 5 : ℝ) (3 / 25 : ℝ) (0 : ℝ) = "#fd9cba" := by
  have hang : radiansR (0 : ℝ) = 0 := by unfold radiansR; ring
  have hcos : Real.cos (radiansR (0 : ℝ)) = 1 := by
    rw [hang, Real.cos_zero]
  have hsin : Real.sin (radiansR (0 : ℝ)) = 0 := by
    rw [hang, Real.sin_zero]
  have hkey : _oklch_to_hex (4 / 5 : ℝ) (3 / 25 : ℝ) (0 : ℝ) = String.mk ('#' ::
      (hexByte (byteOf (_linear_to_srgb (_oklab_to_linear_srgb (4 / 5 : ℝ)
          ((3 / 25 : ℝ) * Real.cos (radiansR (0 : ℝ)))
          ((3 / 25 : ℝ) * Real.sin (radiansR (0 : ℝ)))).1)) ++
        hexByte (byteOf (_linear_to_srgb (_oklab_to_linear_srgb (4 / 5 : ℝ)
          ((3 / 25 : ℝ) * Real.cos (radiansR (0 : ℝ)))
          ((3 / 25 : ℝ) * Real.sin (radiansR (0 : ℝ)))).2.1)) ++
        hexByte (byteOf (_linear_to_srgb (_oklab_to_linear_srgb (4 / 5 : ℝ)
          ((3 / 25 : ℝ) * Real.cos (radiansR (0 : ℝ)))
          ((3 / 25 : ℝ) * Real.sin (radiansR (0 : ℝ)))).2.2)))) := rfl
  rw [hkey, hcos, hsin]
  have hbr : byteOf (_linear_to_srgb (_oklab_to_linear_srgb (4 / 5 : ℝ)
      ((3 / 25 : ℝ) * (1)) ((3 / 25 : ℝ) * (0))).1) = 253 := by
    have hclo : (0.9921762 : ℝ) ^ (12 : ℕ) ≤ (0.98132563 : ℝ) ^ (5 : ℕ) := by
      norm_num
    have hchi : (0.98132564 : ℝ) ^ (5 : ℕ) ≤ (0.9921763 : ℝ) ^ (12 : ℕ) := by
      norm_num
    have henvlo : (0.98132563 : ℝ) ≤
        4.0767416621 * (0.84756053328 * 0.84756053328 * 0.84756053328) - 3.3077115913 * (0.78733263851 * 0.78733263851 * 0.78733263851) + 0.2309699292 * (0.7892618987 * 0.7892618987 * 0.7892618987) := by norm_num
    have henvhi : (4.0767416621 * (0.84756053329 * 0.84756053329 * 0.84756053329) - 3.3077115913 * (0.7873326385 * 0.7873326385 * 0.7873326385) + 0.2309699292 * (0.7892618987 * 0.7892618987 * 0.7892618987) : ℝ) ≤ 0.98132564 := by norm_num
    obtain ⟨hlo, hhi⟩ := r_channel_bounds
      (show (0.84756053328 : ℝ) ≤ (4 / 5 : ℝ) + 0.3963377774 * ((3 / 25 : ℝ) * (1)) + 0.2158037573 * ((3 / 25 : ℝ) * (0)) by norm_num)
      (show (4 / 5 : ℝ) + 0.3963377774 * ((3 / 25 : ℝ) * (1)) + 0.2158037573 * ((3 / 25 : ℝ) * (0)) ≤ (0.84756053329 : ℝ) by norm_num)
      (show (0.7873326385 : ℝ) ≤ (4 / 5 : ℝ) - 0.1055613458 * ((3 / 25 : ℝ) * (1)) - 0.0638541728 * ((3 / 25 : ℝ) * (0)) by norm_num)
      (show (4 / 5 : ℝ) - 0.1055613458 * ((3 / 25 : ℝ) * (1)) - 0.0638541728 * ((3 / 25 : ℝ) * (0)) ≤ (0.78733263851 : ℝ) by norm_num)
      (show (0.7892618987 : ℝ) ≤ (4 / 5 : ℝ) - 0.0894841775 * ((3 / 25 : ℝ) * (1)) - 1.2914855480 * ((3 / 25 : ℝ) * (0)) by norm_num)
      (show (4 / 5 : ℝ) - 0.0894841775 * ((3 / 25 : ℝ) * (1)) - 1.2914855480 * ((3 / 25 : ℝ) * (0)) ≤ (0.7892618987 : ℝ) by norm_num)
      henvlo henvhi
    exact byteOf_srgb_eq hlo hhi (by norm_num) (by norm_num) (by norm_num)
      hclo hchi (by norm_num) (by norm_num) (by norm_num) (by norm_num)
  have hbg : byteOf (_linear_to_srgb (_oklab_to_linear_srgb (4 / 5 : ℝ)
      ((3 / 25 : ℝ) * (1)) ((3 / 25 : ℝ) * (0))).2.1) = 156 := by
    have hclo : (0.6329277 : ℝ) ^ (12 : ℕ) ≤ (0.33361841 : ℝ) ^ (5 : ℕ) := by
      norm_num
    have hchi : (0.33361842 : ℝ) ^ (5 : ℕ) ≤ (0.6329279 : ℝ) ^ (12 : ℕ) := by
      norm_num
    have henvlo : (0.33361841 : ℝ) ≤
        -1.2684380046 * (0.84756053329 * 0.84756053329 * 0.84756053329) + 2.6097574011 * (0.7873326385 * 0.7873326385 * 0.7873326385) - 0.3413193965 * (0.7892618987 * 0.7892618987 * 0.7892618987) := by norm_num
    have henvhi : (-1.2684380046 * (0.84756053328 * 0.84756053328 * 0.84756053328) + 2.6097574011 * (0.78733263851 * 0.78733263851 * 0.78733263851) - 0.3413193965 * (0.7892618987 * 0.7892618987 * 0.7892618987) : ℝ) ≤ 0.33361842 := by norm_num
    obtain ⟨hlo, hhi⟩ := g_channel_bounds
      (show (0.84756053328 : ℝ) ≤ (4 / 5 : ℝ) + 0.3963377774 * ((3 / 25 : ℝ) * (1)) + 0.2158037573 * ((3 / 25 : ℝ) * (0)) by norm_num)
      (show (4 / 5 : ℝ) + 0.3963377774 * ((3 / 25 : ℝ) * (1)) + 0.2158037573 * ((3 / 25 : ℝ) * (0)) ≤ (0.84756053329 : ℝ) by norm_num)
      (show (0.7873326385 : ℝ) ≤ (4 / 5 : ℝ) - 0.1055613458 * ((3 / 25 : ℝ) * (1)) - 0.0638541728 * ((3 / 25 : ℝ) * (0)) by norm_num)
      (show (4 / 5 : ℝ) - 0.1055613458 * ((3 / 25 : ℝ) * (1)) - 0.0638541728 * ((3 / 25 : ℝ) * (0)) ≤ (0.78733263851 : ℝ) by norm_num)
      (show (0.7892618987 : ℝ) ≤ (4 / 5 : ℝ) - 0.0894841775 * ((3 / 25 : ℝ) * (1)) - 1.2914855480 * ((3 / 25 : ℝ) * (0)) by norm_num)
      (show (4 / 5 : ℝ) - 0.0894841775 * ((3 / 25 : ℝ) * (1)) - 1.2914855480 * ((3 / 25 : ℝ) * (0)) ≤ (0.7892618987 : ℝ) by norm_num)
      henvlo henvhi
    exact byteOf_srgb_eq hlo hhi (by norm_num) (by norm_num) (by norm_num)
      hclo hchi (by norm_num) (by norm_num) (by norm_num) (by norm_num)
  have hbb : byteOf (_linear_to_srgb (_oklab_to_linear_srgb (4 / 5 : ℝ)
      ((3 / 25 : ℝ) * (1)) ((3 / 25 : ℝ) * (0))).2.2) = 186 := by
    have hclo : (0.7452037 : ℝ) ^ (12 : ℕ) ≤ (0.4936965 : ℝ) ^ (5 : ℕ) := by
      norm_num
    have hchi : (0.49369651 : ℝ) ^ (5 : ℕ) ≤ (0.7452038 : ℝ) ^ (12 : ℕ) := by
      norm_num
    have henvlo : (0.4936965 : ℝ) ≤
        -0.0041960863 * (0.84756053329 * 0.84756053329 * 0.84756053329) - 0.7034186147 * (0.78733263851 * 0.78733263851 * 0.78733263851) + 1.7076147010 * (0.7892618987 * 0.7892618987 * 0.7892618987) := by norm_num
    have henvhi : (-0.0041960863 * (0.84756053328 * 0.84756053328 * 0.84756053328) - 0.7034186147 * (0.7873326385 * 0.7873326385 * 0.7873326385) + 1.7076147010 * (0.7892618987 * 0.7892618987 * 0.7892618987) : ℝ) ≤ 0.49369651 := by norm_num
    obtain ⟨hlo, hhi⟩ := b_channel_bounds
      (show (0.84756053328 : ℝ) ≤ (4 / 5 : ℝ) + 0.3963377774 * ((3 / 25 : ℝ) * (1)) + 0.2158037573 * ((3 / 25 : ℝ) * (0)) by norm_num)
      (show (4 / 5 : ℝ) + 0.3963377774 * ((3 / 25 : ℝ) * (1)) + 0.2158037573 * ((3 / 25 : ℝ) * (0)) ≤ (0.84756053329 : ℝ) by norm_num)
      (show (0.7873326385 : ℝ) ≤ (4 / 5 : ℝ) - 0.1055613458 * ((3 / 25 : ℝ) * (1)) - 0.0638541728 * ((3 / 25 : ℝ) * (0)) by norm_num)
      (show (4 / 5 : ℝ) - 0.1055613458 * ((3 / 25 : ℝ) * (1)) - 0.0638541728 * ((3 / 25 : ℝ) * (0)) ≤ (0.78733263851 : ℝ) by norm_num)
      (show (0.7892618987 : ℝ) ≤ (4 / 5 : ℝ) - 0.0894841775 * ((3 / 25 : ℝ) * (1)) - 1.2914855480 * ((3 / 25 : ℝ) * (0)) by norm_num)
      (show (4 / 5 : ℝ) - 0.0894841775 * ((3 / 25 : ℝ) * (1)) - 1.2914855480 * ((3 / 25 : ℝ) * (0)) ≤ (0.7892618987 : ℝ) by norm_num)
      henvlo henvhi
    exact byteOf_srgb_eq hlo hhi (by norm_num) (by norm_num) (by norm_num)
      hclo hchi (by norm_num) (by norm_num) (by norm_num) (by norm_num)
  rw [hbr, hbg, hbb]
  decide

lemma varied12_c1 :
    _oklch_to_hex (151 / 220 : ℝ) (39 / 220 : ℝ) (30 : ℝ) = "#f46754" := by
  have hang : radiansR (30 : ℝ) = Real.pi / 6 := by unfold radiansR; ring
  have hcos : Real.cos (radiansR (30 : ℝ)) = Real.sqrt 3 / 2 := by
    rw [hang, Real.cos_pi_div_six]
  have hsin : Real.sin (radiansR (30 : ℝ)) = 1 / 2 := by
    rw [hang, Real.sin_pi_div_six]
  have hkey : _oklch_to_hex (151 / 220 : ℝ) (39 / 220 : ℝ) (30 : ℝ) = String.mk ('#' ::
      (hexByte (byteOf (_linear_to_srgb (_oklab_to_linear_srgb (151 / 220 : ℝ)
          ((39 / 220 : ℝ) * Real.cos (radiansR (30 : ℝ)))
          ((39 / 220 : ℝ) * Real.sin (radiansR (30 : ℝ)))).1)) ++
        hexByte (byteOf (_linear_to_srgb (_oklab_to_linear_srgb (151 / 220 : ℝ)
          ((39 / 220 : ℝ) * Real.cos (radiansR (30 : ℝ)))
          ((39 / 220 : ℝ) * Real.sin (radiansR (30 : ℝ)))).2.1)) ++
        hexByte (byteOf (_linear_to_srgb (_oklab_to_linear_srgb (151 / 220 : ℝ)
          ((39 / 220 : ℝ) * Real.cos (radiansR (30 : ℝ)))
          ((39 / 220 : ℝ) * Real.sin (radiansR (30 : ℝ)))).2.2)))) := rfl
  rw [hkey, hcos, hsin]
  have hbr : byteOf (_linear_to_srgb (_oklab_to_linear_srgb (151 / 220 : ℝ)
      ((39 / 220 : ℝ) * (Real.sqrt 3 / 2)) ((39 / 220 : ℝ) * (1 / 2))).1) = 244 := by
    have hclo : (0.9589858 : ℝ) ^ (12 : ℕ) ≤ (0.90437646 : ℝ) ^ (5 : ℕ) := by
      norm_num
    have hchi : (0.90437647 : ℝ) ^ (5 : ℕ) ≤ (0.9589859 : ℝ) ^ (12 : ℕ) := by
      norm_num
    have henvlo : (0.90437646 : ℝ) ≤
        4.0767416621 * (0.7663385365 * 0.7663385365 * 0.7663385365) - 3.3077115913 * (0.66449777343 * 0.66449777343 * 0.66449777343) + 0.2309699292 * (0.55815320248 * 0.55815320248 * 0.55815320248) := by norm_num
    have henvhi : (4.0767416621 * (0.76633853651 * 0.76633853651 * 0.76633853651) - 3.3077115913 * (0.66449777342 * 0.66449777342 * 0.66449777342) + 0.2309699292 * (0.55815320249 * 0.55815320249 * 0.55815320249) : ℝ) ≤ 0.90437647 := by norm_num
    obtain ⟨hlo, hhi⟩ := r_channel_bounds
      (show (0.7663385365 : ℝ) ≤ (151 / 220 : ℝ) + 0.3963377774 * ((39 / 220 : ℝ) * (Real.sqrt 3 / 2)) + 0.2158037573 * ((39 / 220 : ℝ) * (1 / 2)) by linarith [sqrt3_lo, sqrt3_hi])
      (show (151 / 220 : ℝ) + 0.3963377774 * ((39 / 220 : ℝ) * (Real.sqrt 3 / 2)) + 0.2158037573 * ((39 / 220 : ℝ) * (1 / 2)) ≤ (0.76633853651 : ℝ) by linarith [sqrt3_lo, sqrt3_hi])
      (show (0.66449777342 : ℝ) ≤ (151 / 220 : ℝ) - 0.1055613458 * ((39 / 220 : ℝ) * (Real.sqrt 3 / 2)) - 0.0638541728 * ((39 / 220 : ℝ) * (1 / 2)) by linarith [sqrt3_lo, sqrt3_hi])
      (show (151 / 220 : ℝ) - 0.1055613458 * ((39 / 220 : ℝ) * (Real.sqrt 3 / 2)) - 0.0638541728 * ((39 / 220 : ℝ) * (1 / 2)) ≤ (0.66449777343 : ℝ) by linarith [sqrt3_lo, sqrt3_hi])
      (show (0.55815320248 : ℝ) ≤ (151 / 220 : ℝ) - 0.0894841775 * ((39 / 220 : ℝ) * (Real.sqrt 3 / 2)) - 1.2914855480 * ((39 / 220 : ℝ) * (1 / 2)) by linarith [sqrt3_lo, sqrt3_hi])
      (show (151 / 220 : ℝ) - 0.0894841775 * ((39 / 220 : ℝ) * (Real.sqrt 3 / 2)) - 1.2914855480 * ((39 / 220 : ℝ) * (1 / 2)) ≤ (0.55815320249 : ℝ) by linarith [sqrt3_lo, sqrt3_hi])
      henvlo henvhi
    exact byteOf_srgb_eq hlo hhi (by norm_num) (by norm_num) (by norm_num)
      hclo hchi (by norm_num) (by norm_num) (by norm_num) (by norm_num)
  have hbg : byteOf (_linear_to_srgb (_oklab_to_linear_srgb (151 / 220 : ℝ)
      ((39 / 220 : ℝ) * (Real.sqrt 3 / 2)) ((39 / 220 : ℝ) * (1 / 2))).2.1) = 103 := by
    have hclo : (0.4348542 : ℝ) ^ (12 : ℕ) ≤ (0.13552672 : ℝ) ^ (5 : ℕ) := by
      norm_num
    have hchi : (0.13552673 : ℝ) ^ (5 : ℕ) ≤ (0.4348543 : ℝ) ^ (12 : ℕ) := by
      norm_num
    have henvlo : (0.13552672 : ℝ) ≤
        -1.2684380046 * (0.76633853651 * 0.76633853651 * 0.76633853651) + 2.6097574011 * (0.66449777342 * 0.66449777342 * 0.66449777342) - 0.3413193965 * (0.55815320249 * 0.55815320249 * 0.55815320249) := by norm_num
    have henvhi : (-1.2684380046 * (0.7663385365 * 0.7663385365 * 0.7663385365) + 2.6097574011 * (0.66449777343 * 0.66449777343 * 0.66449777343) - 0.3413193965 * (0.55815320248 * 0.55815320248 * 0.55815320248) : ℝ) ≤ 0.13552673 := by norm_num
    obtain ⟨hlo, hhi⟩ := g_channel_bounds
      (show (0.7663385365 : ℝ) ≤ (151 / 220 : ℝ) + 0.3963377774 * ((39 / 220 : ℝ) * (Real.sqrt 3 / 2)) + 0.2158037573 * ((39 / 220 : ℝ) * (1 / 2)) by linarith [sqrt3_lo, sqrt3_hi])
      (show (151 / 220 : ℝ) + 0.3963377774 * ((39 / 220 : ℝ) * (Real.sqrt 3 / 2)) + 0.2158037573 * ((39 / 220 : ℝ) * (1 / 2)) ≤ (0.76633853651 : ℝ) by linarith [sqrt3_lo, sqrt3_hi])
      (show (0.66449777342 : ℝ) ≤ (151 / 220 : ℝ) - 0.1055613458 * ((39 / 220 : ℝ) * (Real.sqrt 3 / 2)) - 0.0638541728 * ((39 / 220 : ℝ) * (1 / 2)) by linarith [sqrt3_lo, sqrt3_hi])
      (show (151 / 220 : ℝ) - 0.1055613458 * ((39 / 220 : ℝ) * (Real.sqrt 3 / 2)) - 0.0638541728 * ((39 / 220 : ℝ) * (1 / 2)) ≤ (0.66449777343 : ℝ) by linarith [sqrt3_lo, sqrt3_hi])
      (show (0.55815320248 : ℝ) ≤ (151 / 220 : ℝ) - 0.0894841775 * ((39 / 220 : ℝ) * (Real.sqrt 3 / 2)) - 1.2914855480 * ((39 / 220 : ℝ) * (1 / 2)) by linarith [sqrt3_lo, sqrt3_hi])
      (show (151 / 220 : ℝ) - 0.0894841775 * ((39 / 220 : ℝ) * (Real.sqrt 3 / 2)) - 1.2914855480 * ((39 / 220 : ℝ) * (1 / 2)) ≤ (0.55815320249 : ℝ) by linarith [sqrt3_lo, sqrt3_hi])
      henvlo henvhi
    exact byteOf_srgb_eq hlo hhi (by norm_num) (by norm_num) (by norm_num)
      hclo hchi (by norm_num) (by norm_num) (by norm_num) (by norm_num)
  have hbb : byteOf (_linear_to_srgb (_oklab_to_linear_srgb (151 / 220 : ℝ)
      ((39 / 220 : ℝ) * (Real.sqrt 3 / 2)) ((39 / 220 : ℝ) * (1 / 2))).2.2) = 84 := by
    have hclo : (0.364355 : ℝ) ^ (12 : ℕ) ≤ (0.0886461 : ℝ) ^ (5 : ℕ) := by
      norm_num
    have hchi : (0.08864611 : ℝ) ^ (5 : ℕ) ≤ (0.3643552 : ℝ) ^ (12 : ℕ) := by
      norm_num
    have henvlo : (0.0886461 : ℝ) ≤
        -0.0041960863 * (0.76633853651 * 0.76633853651 * 0.76633853651) - 0.7034186147 * (0.66449777343 * 0.66449777343 * 0.66449777343) + 1.7076147010 * (0.55815320248 * 0.55815320248 * 0.55815320248) := by norm_num
    have henvhi : (-0.0041960863 * (0.7663385365 * 0.7663385365 * 0.7663385365) - 0.7034186147 * (0.66449777342 * 0.66449777342 * 0.66449777342) + 1.7076147010 * (0.55815320249 * 0.55815320249 * 0.55815320249) : ℝ) ≤ 0.08864611 := by norm_num
    obtain ⟨hlo, hhi⟩ := b_channel_bounds
      (show (0.7663385365 : ℝ) ≤ (151 / 220 : ℝ) + 0.3963377774 * ((39 / 220 : ℝ) * (Real.sqrt 3 / 2)) + 0.2158037573 * ((39 / 220 : ℝ) * (1 / 2)) by linarith [sqrt3_lo, sqrt3_hi])
      (show (151 / 220 : ℝ) + 0.3963377774 * ((39 / 220 : ℝ) * (Real.sqrt 3 / 2)) + 0.2158037573 * ((39 / 220 : ℝ) * (1 / 2)) ≤ (0.76633853651 : ℝ) by linarith [sqrt3_lo, sqrt3_hi])
      (show (0.66449777342 : ℝ) ≤ (151 / 220 : ℝ) - 0.1055613458 * ((39 / 220 : ℝ) * (Real.sqrt 3 / 2)) - 0.0638541728 * ((39 / 220 : ℝ) * (1 / 2)) by linarith [sqrt3_lo, sqrt3_hi])
      (show (151 / 220 : ℝ) - 0.1055613458 * ((39 / 220 : ℝ) * (Real.sqrt 3 / 2)) - 0.0638541728 * ((39 / 220 : ℝ) * (1 / 2)) ≤ (0.66449777343 : ℝ) by linarith [sqrt3_lo, sqrt3_hi])
      (show (0.55815320248 : ℝ) ≤ (151 / 220 : ℝ) - 0.0894841775 * ((39 / 220 : ℝ) * (Real.sqrt 3 / 2)) - 1.2914855480 * ((39 / 220 : ℝ) * (1 / 2)) by linarith [sqrt3_lo, sqrt3_hi])
      (show (151 / 220 : ℝ) - 0.0894841775 * ((39 / 220 : ℝ) * (Real.sqrt 3 / 2)) - 1.2914855480 * ((39 / 220 : ℝ) * (1 / 2)) ≤ (0.55815320249 : ℝ) by linarith [sqrt3_lo, sqrt3_hi])
      henvlo henvhi
    exact byteOf_srgb_eq hlo hhi (by norm_num) (by norm_num) (by norm_num)
      hclo hchi (by norm_num) (by norm_num) (by norm_num) (by norm_num)
  rw [hbr, hbg, hbb]
  decide

lemma varied12_c2 :
    _oklch_to_hex (171 / 220 : ℝ) (36 / 275 : ℝ) (60 : ℝ) = "#f3a15a" := by
  have hang : radiansR (60 : ℝ) = Real.pi / 3 := by unfold radiansR; ring
  have hcos : Real.cos (radiansR (60 : ℝ)) = 1 / 2 := by
    rw [hang, Real.cos_pi_div_three]
  have hsin : Real.sin (radiansR (60 : ℝ)) = Real.sqrt 3 / 2 := by
    rw [hang, Real.sin_pi_div_three]
  have hkey : _oklch_to_hex (171 / 220 : ℝ) (36 / 275 : ℝ) (60 : ℝ) = String.mk ('#' ::
      (hexByte (byteOf (_linear_to_srgb (_oklab_to_linear_srgb (171 / 220 : ℝ)
          ((36 / 275 : ℝ) * Real.cos (radiansR (60 : ℝ)))
          ((36 / 275 : ℝ) * Real.sin (radiansR (60 : ℝ)))).1)) ++
        hexByte (byteOf (_linear_to_srgb (_oklab_to_linear_srgb (171 / 220 : ℝ)
          ((36 / 275 : ℝ) * Real.cos (radiansR (60 : ℝ)))
          ((36 / 275 : ℝ) * Real.sin (radiansR (60 : ℝ)))).2.1)) ++
        hexByte (byteOf (_linear_to_srgb (_oklab_to_linear_srgb (171 / 220 : ℝ)
          ((36 / 275 : ℝ) * Real.cos (radiansR (60 : ℝ)))
          ((36 / 275 : ℝ) * Real.sin (radiansR (60 : ℝ)))).2.2)))) := rfl
  rw [hkey, hcos, hsin]
  have hbr : byteOf (_linear_to_srgb (_oklab_to_linear_srgb (171 / 220 : ℝ)
      ((36 / 275 : ℝ) * (1 / 2)) ((36 / 275 : ℝ) * (Real.sqrt 3 / 2))).1) = 243 := by
    have hclo : (0.9561379 : ℝ) ^ (12 : ℕ) ≤ (0.89794413 : ℝ) ^ (5 : ℕ) := by
      norm_num
    have hchi : (0.89794414 : ℝ) ^ (5 : ℕ) ≤ (0.956138 : ℝ) ^ (12 : ℕ) := by
      norm_num
    have henvlo : (0.89794413 : ℝ) ≤
        4.0767416621 * (0.82768063742 * 0.82768063742 * 0.82768063742) - 3.3077115913 * (0.7631240716 * 0.7631240716 * 0.7631240716) + 0.2309699292 * (0.62499909181 * 0.62499909181 * 0.62499909181) := by norm_num
    have henvhi : (4.0767416621 * (0.82768063743 * 0.82768063743 * 0.82768063743) - 3.3077115913 * (0.76312407159 * 0.76312407159 * 0.76312407159) + 0.2309699292 * (0.62499909183 * 0.62499909183 * 0.62499909183) : ℝ) ≤ 0.89794414 := by norm_num
    obtain ⟨hlo, hhi⟩ := r_channel_bounds
      (show (0.82768063742 : ℝ) ≤ (171 / 220 : ℝ) + 0.3963377774 * ((36 / 275 : ℝ) * (1 / 2)) + 0.2158037573 * ((36 / 275 : ℝ) * (Real.sqrt 3 / 2)) by linarith [sqrt3_lo, sqrt3_hi])
      (show (171 / 220 : ℝ) + 0.3963377774 * ((36 / 275 : ℝ) * (1 / 2)) + 0.2158037573 * ((36 / 275 : ℝ) * (Real.sqrt 3 / 2)) ≤ (0.82768063743 : ℝ) by linarith [sqrt3_lo, sqrt3_hi])
      (show (0.76312407159 : ℝ) ≤ (171 / 220 : ℝ) - 0.1055613458 * ((36 / 275 : ℝ) * (1 / 2)) - 0.0638541728 * ((36 / 275 : ℝ) * (Real.sqrt 3 / 2)) by linarith [sqrt3_lo, sqrt3_hi])
      (show (171 / 220 : ℝ) - 0.1055613458 * ((36 / 275 : ℝ) * (1 / 2)) - 0.0638541728 * ((36 / 275 : ℝ) * (Real.sqrt 3 / 2)) ≤ (0.7631240716 : ℝ) by linarith [sqrt3_lo, sqrt3_hi])
      (show (0.62499909181 : ℝ) ≤ (171 / 220 : ℝ) - 0.0894841775 * ((36 / 275 : ℝ) * (1 / 2)) - 1.2914855480 * ((36 / 275 : ℝ) * (Real.sqrt 3 / 2)) by linarith [sqrt3_lo, sqrt3_hi])
      (show (171 / 220 : ℝ) - 0.0894841775 * ((36 / 275 : ℝ) * (1 / 2)) - 1.2914855480 * ((36 / 275 : ℝ) * (Real.sqrt 3 / 2)) ≤ (0.62499909183 : ℝ) by linarith [sqrt3_lo, sqrt3_hi])
      henvlo henvhi
    exact byteOf_srgb_eq hlo hhi (by norm_num) (by norm_num) (by norm_num)
      hclo hchi (by norm_num) (by norm_num) (by norm_num) (by norm_num)
  have hbg : byteOf (_linear_to_srgb (_oklab_to_linear_srgb (171 / 220 : ℝ)
      ((36 / 275 : ℝ) * (1 / 2)) ((36 / 275 : ℝ) * (Real.sqrt 3 / 2))).2.1) = 161 := by
    have hclo : (0.6512466 : ℝ) ^ (12 : ℕ) ≤ (0.35726391 : ℝ) ^ (5 : ℕ) := by
      norm_num
    have hchi : (0.35726392 : ℝ) ^ (5 : ℕ) ≤ (0.6512467 : ℝ) ^ (12 : ℕ) := by
      norm_num
    have henvlo : (0.35726391 : ℝ) ≤
        -1.2684380046 * (0.82768063743 * 0.82768063743 * 0.82768063743) + 2.6097574011 * (0.76312407159 * 0.76312407159 * 0.76312407159) - 0.3413193965 * (0.62499909183 * 0.62499909183 * 0.62499909183) := by norm_num
    have henvhi : (-1.2684380046 * (0.82768063742 * 0.82768063742 * 0.82768063742) + 2.6097574011 * (0.7631240716 * 0.7631240716 * 0.7631240716) - 0.3413193965 * (0.62499909181 * 0.62499909181 * 0.62499909181) : ℝ) ≤ 0.35726392 := by norm_num
    obtain ⟨hlo, hhi⟩ := g_channel_bounds
      (show (0.82768063742 : ℝ) ≤ (171 / 220 : ℝ) + 0.3963377774 * ((36 / 275 : ℝ) * (1 / 2)) + 0.2158037573 * ((36 / 275 : ℝ) * (Real.sqrt 3 / 2)) by linarith [sqrt3_lo, sqrt3_hi])
      (show (171 / 220 : ℝ) + 0.3963377774 * ((36 / 275 : ℝ) * (1 / 2)) + 0.2158037573 * ((36 / 275 : ℝ) * (Real.sqrt 3 / 2)) ≤ (0.82768063743 : ℝ) by linarith [sqrt3_lo, sqrt3_hi])
      (show (0.76312407159 : ℝ) ≤ (171 / 220 : ℝ) - 0.1055613458 * ((36 / 275 : ℝ) * (1 / 2)) - 0.0638541728 * ((36 / 275 : ℝ) * (Real.sqrt 3 / 2)) by linarith [sqrt3_lo, sqrt3_hi])
      (show (171 / 220 : ℝ) - 0.1055613458 * ((36 / 275 : ℝ) * (1 / 2)) - 0.0638541728 * ((36 / 275 : ℝ) * (Real.sqrt 3 / 2)) ≤ (0.7631240716 : ℝ) by linarith [sqrt3_lo, sqrt3_hi])
      (show (0.62499909181 : ℝ) ≤ (171 / 220 : ℝ) - 0.0894841775 * ((36 / 275 : ℝ) * (1 / 2)) - 1.2914855480 * ((36 / 275 : ℝ) * (Real.sqrt 3 / 2)) by linarith [sqrt3_lo, sqrt3_hi])
      (show (171 / 220 : ℝ) - 0.0894841775 * ((36 / 275 : ℝ) * (1 / 2)) - 1.2914855480 * ((36 / 275 : ℝ) * (Real.sqrt 3 / 2)) ≤ (0.62499909183 : ℝ) by linarith [sqrt3_lo, sqrt3_hi])
      henvlo henvhi
    exact byteOf_srgb_eq hlo hhi (by norm_num) (by norm_num) (by norm_num)
      hclo hchi (by norm_num) (by norm_num) (by norm_num) (by norm_num)
  have hbb : byteOf (_linear_to_srgb (_oklab_to_linear_srgb (171 / 220 : ℝ)
      ((36 / 275 : ℝ) * (1 / 2)) ((36 / 275 : ℝ) * (Real.sqrt 3 / 2))).2.2) = 90 := by
    have hclo : (0.3861502 : ℝ) ^ (12 : ℕ) ≤ (0.10190964 : ℝ) ^ (5 : ℕ) := by
      norm_num
    have hchi : (0.10190965 : ℝ) ^ (5 : ℕ) ≤ (0.3861504 : ℝ) ^ (12 : ℕ) := by
      norm_num
    have henvlo : (0.10190964 : ℝ) ≤
        -0.0041960863 * (0.82768063743 * 0.82768063743 * 0.82768063743) - 0.7034186147 * (0.7631240716 * 0.7631240716 * 0.7631240716) + 1.7076147010 * (0.62499909181 * 0.62499909181 * 0.62499909181) := by norm_num
    have henvhi : (-0.0041960863 * (0.82768063742 * 0.82768063742 * 0.82768063742) - 0.7034186147 * (0.76312407159 * 0.76312407159 * 0.76312407159) + 1.7076147010 * (0.62499909183 * 0.62499909183 * 0.62499909183) : ℝ) ≤ 0.10190965 := by norm_num
    obtain ⟨hlo, hhi⟩ := b_channel_bounds
      (show (0.82768063742 : ℝ) ≤ (171 / 220 : ℝ) + 0.3963377774 * ((36 / 275 : ℝ) * (1 / 2)) + 0.2158037573 * ((36 / 275 : ℝ) * (Real.sqrt 3 / 2)) by linarith [sqrt3_lo, sqrt3_hi])
      (show (171 / 220 : ℝ) + 0.3963377774 * ((36 / 275 : ℝ) * (1 / 2)) + 0.2158037573 * ((36 / 275 : ℝ) * (Real.sqrt 3 / 2)) ≤ (0.82768063743 : ℝ) by linarith [sqrt3_lo, sqrt3_hi])
      (show (0.76312407159 : ℝ) ≤ (171 / 220 : ℝ) - 0.1055613458 * ((36 / 275 : ℝ) * (1 / 2)) - 0.0638541728 * ((36 / 275 : ℝ) * (Real.sqrt 3 / 2)) by linarith [sqrt3_lo, sqrt3_hi])
      (show (171 / 220 : ℝ) - 0.1055613458 * ((36 / 275 : ℝ) * (1 / 2)) - 0.0638541728 * ((36 / 275 : ℝ) * (Real.sqrt 3 / 2)) ≤ (0.7631240716 : ℝ) by linarith [sqrt3_lo, sqrt3_hi])
      (show (0.62499909181 : ℝ) ≤ (171 / 220 : ℝ) - 0.0894841775 * ((36 / 275 : ℝ) * (1 / 2)) - 1.2914855480 * ((36 / 275 : ℝ) * (Real.sqrt 3 / 2)) by linarith [sqrt3_lo, sqrt3_hi])
      (show (171 / 220 : ℝ) - 0.0894841775 * ((36 / 275 : ℝ) * (1 / 2)) - 1.2914855480 * ((36 / 275 : ℝ) * (Real.sqrt 3 / 2)) ≤ (0.62499909183 : ℝ) by linarith [sqrt3_lo, sqrt3_hi])
      henvlo henvhi
    exact byteOf_srgb_eq hlo hhi (by norm_num) (by norm_num) (by norm_num)
      hclo hchi (by norm_num) (by norm_num) (by norm_num) (by norm_num)
  rw [hbr, hbg, hbb]
  decide

lemma varied12_c3 :
    _oklch_to_hex (39 / 55 : ℝ) (189 / 1100 : ℝ) (90 : ℝ) = "#cb9a00" := by
  have hang : radiansR (90 : ℝ) = Real.pi / 2 := by unfold radiansR; ring
  have hcos : Real.cos (radiansR (90 : ℝ)) = 0 := by
    rw [hang, Real.cos_pi_div_two]
  have hsin : Real.sin (radiansR (90 : ℝ)) = 1 := by
    rw [hang, Real.sin_pi_div_two]
  have hkey : _oklch_to_hex (39 / 55 : ℝ) (189 / 1100 : ℝ) (90 : ℝ) = String.mk ('#' ::
      (hexByte (byteOf (_linear_to_srgb (_oklab_to_linear_srgb (39 / 55 : ℝ)
          ((189 / 1100 : ℝ) * Real.cos (radiansR (90 : ℝ)))
          ((189 / 1100 : ℝ) * Real.sin (radiansR (90 : ℝ)))).1)) ++
        hexByte (byteOf (_linear_to_srgb (_oklab_to_linear_srgb (39 / 55 : ℝ)
          ((189 / 1100 : ℝ) * Real.cos (radiansR (90 : ℝ)))
          ((189 / 1100 : ℝ) * Real.sin (radiansR (90 : ℝ)))).2.1)) ++
        hexByte (byteOf (_linear_to_srgb (_oklab_to_linear_srgb (39 / 55 : ℝ)
          ((189 / 1100 : ℝ) * Real.cos (radiansR (90 : ℝ)))
          ((189 / 1100 : ℝ) * Real.sin (radiansR (90 : ℝ)))).2.2)))) := rfl
  rw [hkey, hcos, hsin]
  have hbr : byteOf (_linear_to_srgb (_oklab_to_linear_srgb (39 / 55 : ℝ)
      ((189 / 1100 : ℝ) * (0)) ((189 / 1100 : ℝ) * (1))).1) = 203 := by
    have hclo : (0.8054365 : ℝ) ^ (12 : ℕ) ≤ (0.59494277 : ℝ) ^ (5 : ℕ) := by
      norm_num
    have hchi : (0.59494278 : ℝ) ^ (5 : ℕ) ≤ (0.8054366 : ℝ) ^ (12 : ℕ) := by
      norm_num
    have henvlo : (0.59494277 : ℝ) ≤
        4.0767416621 * (0.74616991829 * 0.74616991829 * 0.74616991829) - 3.3077115913 * (0.69811960122 * 0.69811960122 * 0.69811960122) + 0.2309699292 * (0.48719021038 * 0.48719021038 * 0.48719021038) := by norm_num
    have henvhi : (4.0767416621 * (0.7461699183 * 0.7461699183 * 0.7461699183) - 3.3077115913 * (0.69811960121 * 0.69811960121 * 0.69811960121) + 0.2309699292 * (0.48719021039 * 0.48719021039 * 0.48719021039) : ℝ) ≤ 0.59494278 := by norm_num
    obtain ⟨hlo, hhi⟩ := r_channel_bounds
      (show (0.74616991829 : ℝ) ≤ (39 / 55 : ℝ) + 0.3963377774 * ((189 / 1100 : ℝ) * (0)) + 0.2158037573 * ((189 / 1100 : ℝ) * (1)) by norm_num)
      (show (39 / 55 : ℝ) + 0.3963377774 * ((189 / 1100 : ℝ) * (0)) + 0.2158037573 * ((189 / 1100 : ℝ) * (1)) ≤ (0.7461699183 : ℝ) by norm_num)
      (show (0.69811960121 : ℝ) ≤ (39 / 55 : ℝ) - 0.1055613458 * ((189 / 1100 : ℝ) * (0)) - 0.0638541728 * ((189 / 1100 : ℝ) * (1)) by norm_num)
      (show (39 / 55 : ℝ) - 0.1055613458 * ((189 / 1100 : ℝ) * (0)) - 0.0638541728 * ((189 / 1100 : ℝ) * (1)) ≤ (0.69811960122 : ℝ) by norm_num)
      (show (0.48719021038 : ℝ) ≤ (39 / 55 : ℝ) - 0.0894841775 * ((189 / 1100 : ℝ) * (0)) - 1.2914855480 * ((189 / 1100 : ℝ) * (1)) by norm_num)
      (show (39 / 55 : ℝ) - 0.0894841775 * ((189 / 1100 : ℝ) * (0)) - 1.2914855480 * ((189 / 1100 : ℝ) * (1)) ≤ (0.48719021039 : ℝ) by norm_num)
      henvlo henvhi
    exact byteOf_srgb_eq hlo hhi (by norm_num) (by norm_num) (by norm_num)
      hclo hchi (by norm_num) (by norm_num) (by norm_num) (by norm_num)
  have hbg : byteOf (_linear_to_srgb (_oklab_to_linear_srgb (39 / 55 : ℝ)
      ((189 / 1100 : ℝ) * (0)) ((189 / 1100 : ℝ) * (1))).2.1) = 154 := by
    have hclo : (0.6232589 : ℝ) ^ (12 : ℕ) ≤ (0.32151741 : ℝ) ^ (5 : ℕ) := by
      norm_num
    have hchi : (0.32151742 : ℝ) ^ (5 : ℕ) ≤ (0.623259 : ℝ) ^ (12 : ℕ) := by
      norm_num
    have henvlo : (0.32151741 : ℝ) ≤
        -1.2684380046 * (0.7461699183 * 0.7461699183 * 0.7461699183) + 2.6097574011 * (0.69811960121 * 0.69811960121 * 0.69811960121) - 0.3413193965 * (0.48719021039 * 0.48719021039 * 0.48719021039) := by norm_num
    have henvhi : (-1.2684380046 * (0.74616991829 * 0.74616991829 * 0.74616991829) + 2.6097574011 * (0.69811960122 * 0.69811960122 * 0.69811960122) - 0.3413193965 * (0.48719021038 * 0.48719021038 * 0.48719021038) : ℝ) ≤ 0.32151742 := by norm_num
    obtain ⟨hlo, hhi⟩ := g_channel_bounds
      (show (0.74616991829 : ℝ) ≤ (39 / 55 : ℝ) + 0.3963377774 * ((189 / 1100 : ℝ) * (0)) + 0.2158037573 * ((189 / 1100 : ℝ) * (1)) by norm_num)
      (show (39 / 55 : ℝ) + 0.3963377774 * ((189 / 1100 : ℝ) * (0)) + 0.2158037573 * ((189 / 1100 : ℝ) * (1)) ≤ (0.7461699183 : ℝ) by norm_num)
      (show (0.69811960121 : ℝ) ≤ (39 / 55 : ℝ) - 0.1055613458 * ((189 / 1100 : ℝ) * (0)) - 0.0638541728 * ((189 / 1100 : ℝ) * (1)) by norm_num)
      (show (39 / 55 : ℝ) - 0.1055613458 * ((189 / 1100 : ℝ) * (0)) - 0.0638541728 * ((189 / 1100 : ℝ) * (1)) ≤ (0.69811960122 : ℝ) by norm_num)
      (show (0.48719021038 : ℝ) ≤ (39 / 55 : ℝ) - 0.0894841775 * ((189 / 1100 : ℝ) * (0)) - 1.2914855480 * ((189 / 1100 : ℝ) * (1)) by norm_num)
      (show (39 / 55 : ℝ) - 0.0894841775 * ((189 / 1100 : ℝ) * (0)) - 1.2914855480 * ((189 / 1100 : ℝ) * (1)) ≤ (0.48719021039 : ℝ) by norm_num)
      henvlo henvhi
    exact byteOf_srgb_eq hlo hhi (by norm_num) (by norm_num) (by norm_num)
      hclo hchi (by norm_num) (by norm_num) (by norm_num) (by norm_num)
  have hbb : byteOf (_linear_to_srgb (_oklab_to_linear_srgb (39 / 55 : ℝ)
      ((189 / 1100 : ℝ) * (0)) ((189 / 1100 : ℝ) * (1))).2.2) = 0 := by
    have henvlo : (-0.043613751 : ℝ) ≤
        -0.0041960863 * (0.7461699183 * 0.7461699183 * 0.7461699183) - 0.7034186147 * (0.69811960122 * 0.69811960122 * 0.69811960122) + 1.7076147010 * (0.48719021038 * 0.48719021038 * 0.48719021038) := by norm_num
    have henvhi : (-0.0041960863 * (0.74616991829 * 0.74616991829 * 0.74616991829) - 0.7034186147 * (0.69811960121 * 0.69811960121 * 0.69811960121) + 1.7076147010 * (0.48719021039 * 0.48719021039 * 0.48719021039) : ℝ) ≤ -0.043613749 := by norm_num
    obtain ⟨hlo, hhi⟩ := b_channel_bounds
      (show (0.74616991829 : ℝ) ≤ (39 / 55 : ℝ) + 0.3963377774 * ((189 / 1100 : ℝ) * (0)) + 0.2158037573 * ((189 / 1100 : ℝ) * (1)) by norm_num)
      (show (39 / 55 : ℝ) + 0.3963377774 * ((189 / 1100 : ℝ) * (0)) + 0.2158037573 * ((189 / 1100 : ℝ) * (1)) ≤ (0.7461699183 : ℝ) by norm_num)
      (show (0.69811960121 : ℝ) ≤ (39 / 55 : ℝ) - 0.1055613458 * ((189 / 1100 : ℝ) * (0)) - 0.0638541728 * ((189 / 1100 : ℝ) * (1)) by norm_num)
      (show (39 / 55 : ℝ) - 0.1055613458 * ((189 / 1100 : ℝ) * (0)) - 0.0638541728 * ((189 / 1100 : ℝ) * (1)) ≤ (0.69811960122 : ℝ) by norm_num)
      (show (0.48719021038 : ℝ) ≤ (39 / 55 : ℝ) - 0.0894841775 * ((189 / 1100 : ℝ) * (0)) - 1.2914855480 * ((189 / 1100 : ℝ) * (1)) by norm_num)
      (show (39 / 55 : ℝ) - 0.0894841775 * ((189 / 1100 : ℝ) * (0)) - 1.2914855480 * ((189 / 1100 : ℝ) * (1)) ≤ (0.48719021039 : ℝ) by norm_num)
      henvlo henvhi
    exact byteOf_srgb_neg (by linarith)
  rw [hbr, hbg, hbb]
  decide

lemma varied12_c4 :
    _oklch_to_hex (83 / 110 : ℝ) (39 / 275 : ℝ) (120 : ℝ) = "#a4bc4b" := by
  have hang : radiansR (120 : ℝ) = Real.pi - Real.pi / 3 := by unfold radiansR; ring
  have hcos : Real.cos (radiansR (120 : ℝ)) = -(1 / 2) := by
    rw [hang, Real.cos_pi_sub, Real.cos_pi_div_three]
  have hsin : Real.sin (radiansR (120 : ℝ)) = Real.sqrt 3 / 2 := by
    rw [hang, Real.sin_pi_sub, Real.sin_pi_div_three]
  have hkey : _oklch_to_hex (83 / 110 : ℝ) (39 / 275 : ℝ) (120 : ℝ) = String.mk ('#' ::
      (hexByte (byteOf (_linear_to_srgb (_oklab_to_linear_srgb (83 / 110 : ℝ)
          ((39 / 275 : ℝ) * Real.cos (radiansR (120 : ℝ)))
          ((39 / 275 : ℝ) * Real.sin (radiansR (120 : ℝ)))).1)) ++
        hexByte (byteOf (_linear_to_srgb (_oklab_to_linear_srgb (83 / 110 : ℝ)
          ((39 / 275 : ℝ) * Real.cos (radiansR (120 : ℝ)))
          ((39 / 275 : ℝ) * Real.sin (radiansR (120 : ℝ)))).2.1)) ++
        hexByte (byteOf (_linear_to_srgb (_oklab_to_linear_srgb (83 / 110 : ℝ)
          ((39 / 275 : ℝ) * Real.cos (radiansR (120 : ℝ)))
          ((39 / 275 : ℝ) * Real.sin (radiansR (120 : ℝ)))).2.2)))) := rfl
  rw [hkey, hcos, hsin]
  have hbr : byteOf (_linear_to_srgb (_oklab_to_linear_srgb (83 / 110 : ℝ)
      ((39 / 275 : ℝ) * (-(1 / 2))) ((39 / 275 : ℝ) * (Real.sqrt 3 / 2))).1) = 164 := by
    have hclo : (0.6621085 : ℝ) ^ (12 : ℕ) ≤ (0.37173204 : ℝ) ^ (5 : ℕ) := by
      norm_num
    have hchi : (0.37173205 : ℝ) ^ (5 : ℕ) ≤ (0.6621086 : ℝ) ^ (12 : ℕ) := by
      norm_num
    have henvlo : (0.37173204 : ℝ) ≤
        4.0767416621 * (0.75294612089 * 0.75294612089 * 0.75294612089) - 3.3077115913 * (0.75418826236 * 0.75418826236 * 0.75418826236) + 0.2309699292 * (0.60227283282 * 0.60227283282 * 0.60227283282) := by norm_num
    have henvhi : (4.0767416621 * (0.7529461209 * 0.7529461209 * 0.7529461209) - 3.3077115913 * (0.75418826235 * 0.75418826235 * 0.75418826235) + 0.2309699292 * (0.60227283284 * 0.60227283284 * 0.60227283284) : ℝ) ≤ 0.37173205 := by norm_num
    obtain ⟨hlo, hhi⟩ := r_channel_bounds
      (show (0.75294612089 : ℝ) ≤ (83 / 110 : ℝ) + 0.3963377774 * ((39 / 275 : ℝ) * (-(1 / 2))) + 0.2158037573 * ((39 / 275 : ℝ) * (Real.sqrt 3 / 2)) by linarith [sqrt3_lo, sqrt3_hi])
      (show (83 / 110 : ℝ) + 0.3963377774 * ((39 / 275 : ℝ) * (-(1 / 2))) + 0.2158037573 * ((39 / 275 : ℝ) * (Real.sqrt 3 / 2)) ≤ (0.7529461209 : ℝ) by linarith [sqrt3_lo, sqrt3_hi])
      (show (0.75418826235 : ℝ) ≤ (83 / 110 : ℝ) - 0.1055613458 * ((39 / 275 : ℝ) * (-(1 / 2))) - 0.0638541728 * ((39 / 275 : ℝ) * (Real.sqrt 3 / 2)) by linarith [sqrt3_lo, sqrt3_hi])
      (show (83 / 110 : ℝ) - 0.1055613458 * ((39 / 275 : ℝ) * (-(1 / 2))) - 0.0638541728 * ((39 / 275 : ℝ) * (Real.sqrt 3 / 2)) ≤ (0.75418826236 : ℝ) by linarith [sqrt3_lo, sqrt3_hi])
      (show (0.60227283282 : ℝ) ≤ (83 / 110 : ℝ) - 0.0894841775 * ((39 / 275 : ℝ) * (-(1 / 2))) - 1.2914855480 * ((39 / 275 : ℝ) * (Real.sqrt 3 / 2)) by linarith [sqrt3_lo, sqrt3_hi])
      (show (83 / 110 : ℝ) - 0.0894841775 * ((39 / 275 : ℝ) * (-(1 / 2))) - 1.2914855480 * ((39 / 275 : ℝ) * (Real.sqrt 3 / 2)) ≤ (0.60227283284 : ℝ) by linarith [sqrt3_lo, sqrt3_hi])
      henvlo henvhi
    exact byteOf_srgb_eq hlo hhi (by norm_num) (by norm_num) (by norm_num)
      hclo hchi (by norm_num) (by norm_num) (by norm_num) (by norm_num)
  have hbg : byteOf (_linear_to_srgb (_oklab_to_linear_srgb (83 / 110 : ℝ)
      ((39 / 275 : ℝ) * (-(1 / 2))) ((39 / 275 : ℝ) * (Real.sqrt 3 / 2))).2.1) = 188 := by
    have hclo : (0.7513467 : ℝ) ^ (12 : ℕ) ≤ (0.50352034 : ℝ) ^ (5 : ℕ) := by
      norm_num
    have hchi : (0.50352035 : ℝ) ^ (5 : ℕ) ≤ (0.7513468 : ℝ) ^ (12 : ℕ) := by
      norm_num
    have henvlo : (0.50352034 : ℝ) ≤
        -1.2684380046 * (0.7529461209 * 0.7529461209 * 0.7529461209) + 2.6097574011 * (0.75418826235 * 0.75418826235 * 0.75418826235) - 0.3413193965 * (0.60227283284 * 0.60227283284 * 0.60227283284) := by norm_num
    have henvhi : (-1.2684380046 * (0.75294612089 * 0.75294612089 * 0.75294612089) + 2.6097574011 * (0.75418826236 * 0.75418826236 * 0.75418826236) - 0.3413193965 * (0.60227283282 * 0.60227283282 * 0.60227283282) : ℝ) ≤ 0.50352035 := by norm_num
    obtain ⟨hlo, hhi⟩ := g_channel_bounds
      (show (0.75294612089 : ℝ) ≤ (83 / 110 : ℝ) + 0.3963377774 * ((39 / 275 : ℝ) * (-(1 / 2))) + 0.2158037573 * ((39 / 275 : ℝ) * (Real.sqrt 3 / 2)) by linarith [sqrt3_lo, sqrt3_hi])
      (show (83 / 110 : ℝ) + 0.3963377774 * ((39 / 275 : ℝ) * (-(1 / 2))) + 0.2158037573 * ((39 / 275 : ℝ) * (Real.sqrt 3 / 2)) ≤ (0.7529461209 : ℝ) by linarith [sqrt3_lo, sqrt3_hi])
      (show (0.75418826235 : ℝ) ≤ (83 / 110 : ℝ) - 0.1055613458 * ((39 / 275 : ℝ) * (-(1 / 2))) - 0.0638541728 * ((39 / 275 : ℝ) * (Real.sqrt 3 / 2)) by linarith [sqrt3_lo, sqrt3_hi])
      (show (83 / 110 : ℝ) - 0.1055613458 * ((39 / 275 : ℝ) * (-(1 / 2))) - 0.0638541728 * ((39 / 275 : ℝ) * (Real.sqrt 3 / 2)) ≤ (0.75418826236 : ℝ) by linarith [sqrt3_lo, sqrt3_hi])
      (show (0.60227283282 : ℝ) ≤ (83 / 110 : ℝ) - 0.0894841775 * ((39 / 275 : ℝ) * (-(1 / 2))) - 1.2914855480 * ((39 / 275 : ℝ) * (Real.sqrt 3 / 2)) by linarith [sqrt3_lo, sqrt3_hi])
      (show (83 / 110 : ℝ) - 0.0894841775 * ((39 / 275 : ℝ) * (-(1 / 2))) - 1.2914855480 * ((39 / 275 : ℝ) * (Real.sqrt 3 / 2)) ≤ (0.60227283284 : ℝ) by linarith [sqrt3_lo, sqrt3_hi])
      henvlo henvhi
    exact byteOf_srgb_eq hlo hhi (by norm_num) (by norm_num) (by norm_num)
      hclo hchi (by norm_num) (by norm_num) (by norm_num) (by norm_num)
  have hbb : byteOf (_linear_to_srgb (_oklab_to_linear_srgb (83 / 110 : ℝ)
      ((39 / 275 : ℝ) * (-(1 / 2))) ((39 / 275 : ℝ) * (Real.sqrt 3 / 2))).2.2) = 75 := by
    have hclo : (0.3292395 : ℝ) ^ (12 : ℕ) ≤ (0.06950702 : ℝ) ^ (5 : ℕ) := by
      norm_num
    have hchi : (0.06950703 : ℝ) ^ (5 : ℕ) ≤ (0.3292396 : ℝ) ^ (12 : ℕ) := by
      norm_num
    have henvlo : (0.06950702 : ℝ) ≤
        -0.0041960863 * (0.7529461209 * 0.7529461209 * 0.7529461209) - 0.7034186147 * (0.75418826236 * 0.75418826236 * 0.75418826236) + 1.7076147010 * (0.60227283282 * 0.60227283282 * 0.60227283282) := by norm_num
    have henvhi : (-0.0041960863 * (0.75294612089 * 0.75294612089 * 0.75294612089) - 0.7034186147 * (0.75418826235 * 0.75418826235 * 0.75418826235) + 1.7076147010 * (0.60227283284 * 0.60227283284 * 0.60227283284) : ℝ) ≤ 0.06950703 := by norm_num
    obtain ⟨hlo, hhi⟩ := b_channel_bounds
      (show (0.75294612089 : ℝ) ≤ (83 / 110 : ℝ) + 0.3963377774 * ((39 / 275 : ℝ) * (-(1 / 2))) + 0.2158037573 * ((39 / 275 : ℝ) * (Real.sqrt 3 / 2)) by linarith [sqrt3_lo, sqrt3_hi])
      (show (83 / 110 : ℝ) + 0.3963377774 * ((39 / 275 : ℝ) * (-(1 / 2))) + 0.2158037573 * ((39 / 275 : ℝ) * (Real.sqrt 3 / 2)) ≤ (0.7529461209 : ℝ) by linarith [sqrt3_lo, sqrt3_hi])
      (show (0.75418826235 : ℝ) ≤ (83 / 110 : ℝ) - 0.1055613458 * ((39 / 275 : ℝ) * (-(1 / 2))) - 0.0638541728 * ((39 / 275 : ℝ) * (Real.sqrt 3 / 2)) by linarith [sqrt3_lo, sqrt3_hi])
      (show (83 / 110 : ℝ) - 0.1055613458 * ((39 / 275 : ℝ) * (-(1 / 2))) - 0.0638541728 * ((39 / 275 : ℝ) * (Real.sqrt 3 / 2)) ≤ (0.75418826236 : ℝ) by linarith [sqrt3_lo, sqrt3_hi])
      (show (0.60227283282 : ℝ) ≤ (83 / 110 : ℝ) - 0.0894841775 * ((39 / 275 : ℝ) * (-(1 / 2))) - 1.2914855480 * ((39 / 275 : ℝ) * (Real.sqrt 3 / 2)) by linarith [sqrt3_lo, sqrt3_hi])
      (show (83 / 110 : ℝ) - 0.0894841775 * ((39 / 275 : ℝ) * (-(1 / 2))) - 1.2914855480 * ((39 / 275 : ℝ) * (Real.sqrt 3 / 2)) ≤ (0.60227283284 : ℝ) by linarith [sqrt3_lo, sqrt3_hi])
      henvlo henvhi
    exact byteOf_srgb_eq hlo hhi (by norm_num) (by norm_num) (by norm_num)
      hclo hchi (by norm_num) (by norm_num) (by norm_num) (by norm_num)
  rw [hbr, hbg, hbb]
  decide

lemma varied12_c5 :
    _oklch_to_hex (161 / 220 : ℝ) (183 / 1100 : ℝ) (150 : ℝ) = "#48c46d" := by
  have hang : radiansR (150 : ℝ) = Real.pi - Real.pi / 6 := by unfold radiansR; ring
  have hcos : Real.cos (radiansR (150 : ℝ)) = -(Real.sqrt 3 / 2) := by
    rw [hang, Real.cos_pi_sub, Real.cos_pi_div_six]
  have hsin : Real.sin (radiansR (150 : ℝ)) = 1 / 2 := by
    rw [hang, Real.sin_pi_sub, Real.sin_pi_div_six]
  have hkey : _oklch_to_hex (161 / 220 : ℝ) (183 / 1100 : ℝ) (150 : ℝ) = String.mk ('#' ::
      (hexByte (byteOf (_linear_to_srgb (_oklab_to_linear_srgb (161 / 220 : ℝ)
          ((183 / 1100 : ℝ) * Real.cos (radiansR (150 : ℝ)))
          ((183 / 1100 : ℝ) * Real.sin (radiansR (150 : ℝ)))).1)) ++
        hexByte (byteOf (_linear_to_srgb (_oklab_to_linear_srgb (161 / 220 : ℝ)
          ((183 / 1100 : ℝ) * Real.cos (radiansR (150 : ℝ)))
          ((183 / 1100 : ℝ) * Real.sin (radiansR (150 : ℝ)))).2.1)) ++
        hexByte (byteOf (_linear_to_srgb (_oklab_to_linear_srgb (161 / 220 : ℝ)
          ((183 / 1100 : ℝ) * Real.cos (radiansR (150 : ℝ)))
          ((183 / 1100 : ℝ) * Real.sin (radiansR (150 : ℝ)))).2.2)))) := rfl
  rw [hkey, hcos, hsin]
  have hbr : byteOf (_linear_to_srgb (_oklab_to_linear_srgb (161 / 220 : ℝ)
      ((183 / 1100 : ℝ) * (-(Real.sqrt 3 / 2))) ((183 / 1100 : ℝ) * (1 / 2))).1) = 72 := by
    have hclo : (0.3199774 : ℝ) ^ (12 : ℕ) ≤ (0.06490626 : ℝ) ^ (5 : ℕ) := by
      norm_num
    have hchi : (0.06490627 : ℝ) ^ (5 : ℕ) ≤ (0.3199775 : ℝ) ^ (12 : ℕ) := by
      norm_num
    have henvlo : (0.06490626 : ℝ) ≤
        4.0767416621 * (0.69266671179 * 0.69266671179 * 0.69266671179) - 3.3077115913 * (0.74171544082 * 0.74171544082 * 0.74171544082) + 0.2309699292 * (0.63728251076 * 0.63728251076 * 0.63728251076) := by norm_num
    have henvhi : (4.0767416621 * (0.6926667118 * 0.6926667118 * 0.6926667118) - 3.3077115913 * (0.74171544081 * 0.74171544081 * 0.74171544081) + 0.2309699292 * (0.63728251077 * 0.63728251077 * 0.63728251077) : ℝ) ≤ 0.06490627 := by norm_num
    obtain ⟨hlo, hhi⟩ := r_channel_bounds
      (show (0.69266671179 : ℝ) ≤ (161 / 220 : ℝ) + 0.3963377774 * ((183 / 1100 : ℝ) * (-(Real.sqrt 3 / 2))) + 0.2158037573 * ((183 / 1100 : ℝ) * (1 / 2)) by linarith [sqrt3_lo, sqrt3_hi])
      (show (161 / 220 : ℝ) + 0.3963377774 * ((183 / 1100 : ℝ) * (-(Real.sqrt 3 / 2))) + 0.2158037573 * ((183 / 1100 : ℝ) * (1 / 2)) ≤ (0.6926667118 : ℝ) by linarith [sqrt3_lo, sqrt3_hi])
      (show (0.74171544081 : ℝ) ≤ (161 / 220 : ℝ) - 0.1055613458 * ((183 / 1100 : ℝ) * (-(Real.sqrt 3 / 2))) - 0.0638541728 * ((183 / 1100 : ℝ) * (1 / 2)) by linarith [sqrt3_lo, sqrt3_hi])
      (show (161 / 220 : ℝ) - 0.1055613458 * ((183 / 1100 : ℝ) * (-(Real.sqrt 3 / 2))) - 0.0638541728 * ((183 / 1100 : ℝ) * (1 / 2)) ≤ (0.74171544082 : ℝ) by linarith [sqrt3_lo, sqrt3_hi])
      (show (0.63728251076 : ℝ) ≤ (161 / 220 : ℝ) - 0.0894841775 * ((183 / 1100 : ℝ) * (-(Real.sqrt 3 / 2))) - 1.2914855480 * ((183 / 1100 : ℝ) * (1 / 2)) by linarith [sqrt3_lo, sqrt3_hi])
      (show (161 / 220 : ℝ) - 0.0894841775 * ((183 / 1100 : ℝ) * (-(Real.sqrt 3 / 2))) - 1.2914855480 * ((183 / 1100 : ℝ) * (1 / 2)) ≤ (0.63728251077 : ℝ) by linarith [sqrt3_lo, sqrt3_hi])
      henvlo henvhi
    exact byteOf_srgb_eq hlo hhi (by norm_num) (by norm_num) (by norm_num)
      hclo hchi (by norm_num) (by norm_num) (by norm_num) (by norm_num)
  have hbg : byteOf (_linear_to_srgb (_oklab_to_linear_srgb (161 / 220 : ℝ)
      ((183 / 1100 : ℝ) * (-(Real.sqrt 3 / 2))) ((183 / 1100 : ℝ) * (1 / 2))).2.1) = 196 := by
    have hclo : (0.7824624 : ℝ) ^ (12 : ℕ) ≤ (0.5550248 : ℝ) ^ (5 : ℕ) := by
      norm_num
    have hchi : (0.55502481 : ℝ) ^ (5 : ℕ) ≤ (0.7824625 : ℝ) ^ (12 : ℕ) := by
      norm_num
    have henvlo : (0.5550248 : ℝ) ≤
        -1.2684380046 * (0.6926667118 * 0.6926667118 * 0.6926667118) + 2.6097574011 * (0.74171544081 * 0.74171544081 * 0.74171544081) - 0.3413193965 * (0.63728251077 * 0.63728251077 * 0.63728251077) := by norm_num
    have henvhi : (-1.2684380046 * (0.69266671179 * 0.69266671179 * 0.69266671179) + 2.6097574011 * (0.74171544082 * 0.74171544082 * 0.74171544082) - 0.3413193965 * (0.63728251076 * 0.63728251076 * 0.63728251076) : ℝ) ≤ 0.55502481 := by norm_num
    obtain ⟨hlo, hhi⟩ := g_channel_bounds
      (show (0.69266671179 : ℝ) ≤ (161 / 220 : ℝ) + 0.3963377774 * ((183 / 1100 : ℝ) * (-(Real.sqrt 3 / 2))) + 0.2158037573 * ((183 / 1100 : ℝ) * (1 / 2)) by linarith [sqrt3_lo, sqrt3_hi])
      (show (161 / 220 : ℝ) + 0.3963377774 * ((183 / 1100 : ℝ) * (-(Real.sqrt 3 / 2))) + 0.2158037573 * ((183 / 1100 : ℝ) * (1 / 2)) ≤ (0.6926667118 : ℝ) by linarith [sqrt3_lo, sqrt3_hi])
      (show (0.74171544081 : ℝ) ≤ (161 / 220 : ℝ) - 0.1055613458 * ((183 / 1100 : ℝ) * (-(Real.sqrt 3 / 2))) - 0.0638541728 * ((183 / 1100 : ℝ) * (1 / 2)) by linarith [sqrt3_lo, sqrt3_hi])
      (show (161 / 220 : ℝ) - 0.1055613458 * ((183 / 1100 : ℝ) * (-(Real.sqrt 3 / 2))) - 0.0638541728 * ((183 / 1100 : ℝ) * (1 / 2)) ≤ (0.74171544082 : ℝ) by linarith [sqrt3_lo, sqrt3_hi])
      (show (0.63728251076 : ℝ) ≤ (161 / 220 : ℝ) - 0.0894841775 * ((183 / 1100 : ℝ) * (-(Real.sqrt 3 / 2))) - 1.2914855480 * ((183 / 1100 : ℝ) * (1 / 2)) by linarith [sqrt3_lo, sqrt3_hi])
      (show (161 / 220 : ℝ) - 0.0894841775 * ((183 / 1100 : ℝ) * (-(Real.sqrt 3 / 2))) - 1.2914855480 * ((183 / 1100 : ℝ) * (1 / 2)) ≤ (0.63728251077 : ℝ) by linarith [sqrt3_lo, sqrt3_hi])
      henvlo henvhi
    exact byteOf_srgb_eq hlo hhi (by norm_num) (by norm_num) (by norm_num)
      hclo hchi (by norm_num) (by norm_num) (by norm_num) (by norm_num)
  have hbb : byteOf (_linear_to_srgb (_oklab_to_linear_srgb (161 / 220 : ℝ)
      ((183 / 1100 : ℝ) * (-(Real.sqrt 3 / 2))) ((183 / 1100 : ℝ) * (1 / 2))).2.2) = 109 := by
    have hclo : (0.4580627 : ℝ) ^ (12 : ℕ) ≤ (0.15353944 : ℝ) ^ (5 : ℕ) := by
      norm_num
    have hchi : (0.15353945 : ℝ) ^ (5 : ℕ) ≤ (0.4580628 : ℝ) ^ (12 : ℕ) := by
      norm_num
    have henvlo : (0.15353944 : ℝ) ≤
        -0.0041960863 * (0.6926667118 * 0.6926667118 * 0.6926667118) - 0.7034186147 * (0.74171544082 * 0.74171544082 * 0.74171544082) + 1.7076147010 * (0.63728251076 * 0.63728251076 * 0.63728251076) := by norm_num
    have henvhi : (-0.0041960863 * (0.69266671179 * 0.69266671179 * 0.69266671179) - 0.7034186147 * (0.74171544081 * 0.74171544081 * 0.74171544081) + 1.7076147010 * (0.63728251077 * 0.63728251077 * 0.63728251077) : ℝ) ≤ 0.15353945 := by norm_num
    obtain ⟨hlo, hhi⟩ := b_channel_bounds
      (show (0.69266671179 : ℝ) ≤ (161 / 220 : ℝ) + 0.3963377774 * ((183 / 1100 : ℝ) * (-(Real.sqrt 3 / 2))) + 0.2158037573 * ((183 / 1100 : ℝ) * (1 / 2)) by linarith [sqrt3_lo, sqrt3_hi])
      (show (161 / 220 : ℝ) + 0.3963377774 * ((183 / 1100 : ℝ) * (-(Real.sqrt 3 / 2))) + 0.2158037573 * ((183 / 1100 : ℝ) * (1 / 2)) ≤ (0.6926667118 : ℝ) by linarith [sqrt3_lo, sqrt3_hi])
      (show (0.74171544081 : ℝ) ≤ (161 / 220 : ℝ) - 0.1055613458 * ((183 / 1100 : ℝ) * (-(Real.sqrt 3 / 2))) - 0.0638541728 * ((183 / 1100 : ℝ) * (1 / 2)) by linarith [sqrt3_lo, sqrt3_hi])
      (show (161 / 220 : ℝ) - 0.1055613458 * ((183 / 1100 : ℝ) * (-(Real.sqrt 3 / 2))) - 0.0638541728 * ((183 / 1100 : ℝ) * (1 / 2)) ≤ (0.74171544082 : ℝ) by linarith [sqrt3_lo, sqrt3_hi])
      (show (0.63728251076 : ℝ) ≤ (161 / 220 : ℝ) - 0.0894841775 * ((183 / 1100 : ℝ) * (-(Real.sqrt 3 / 2))) - 1.2914855480 * ((183 / 1100 : ℝ) * (1 / 2)) by linarith [sqrt3_lo, sqrt3_hi])
      (show (161 / 220 : ℝ) - 0.0894841775 * ((183 / 1100 : ℝ) * (-(Real.sqrt 3 / 2))) - 1.2914855480 * ((183 / 1100 : ℝ) * (1 / 2)) ≤ (0.63728251077 : ℝ) by linarith [sqrt3_lo, sqrt3_hi])
      henvlo henvhi
    exact byteOf_srgb_eq hlo hhi (by norm_num) (by norm_num) (by norm_num)
      hclo hchi (by norm_num) (by norm_num) (by norm_num) (by norm_num)
  rw [hbr, hbg, hbb]
  decide

lemma varied12_c6 :
    _oklch_to_hex (161 / 220 : ℝ) (42 / 275 : ℝ) (180 : ℝ) = "#00c6ac" := by
  have hang : radiansR (180 : ℝ) = Real.pi := by unfold radiansR; ring
  have hcos : Real.cos (radiansR (180 : ℝ)) = -1 := by
    rw [hang, Real.cos_pi]
  have hsin : Real.sin (radiansR (180 : ℝ)) = 0 := by
    rw [hang, Real.sin_pi]
  have hkey : _oklch_to_hex (161 / 220 : ℝ) (42 / 275 : ℝ) (180 : ℝ) = String.mk ('#' ::
      (hexByte (byteOf (_linear_to_srgb (_oklab_to_linear_srgb (161 / 220 : ℝ)
          ((42 / 275 : ℝ) * Real.cos (radiansR (180 : ℝ)))
          ((42 / 275 : ℝ) * Real.sin (radiansR (180 : ℝ)))).1)) ++
        hexByte (byteOf (_linear_to_srgb (_oklab_to_linear_srgb (161 / 220 : ℝ)
          ((42 / 275 : ℝ) * Real.cos (radiansR (180 : ℝ)))
          ((42 / 275 : ℝ) * Real.sin (radiansR (180 : ℝ)))).2.1)) ++
        hexByte (byteOf (_linear_to_srgb (_oklab_to_linear_srgb (161 / 220 : ℝ)
          ((42 / 275 : ℝ) * Real.cos (radiansR (180 : ℝ)))
          ((42 / 275 : ℝ) * Real.sin (radiansR (180 : ℝ)))).2.2)))) := rfl
  rw [hkey, hcos, hsin]
  have hbr : byteOf (_linear_to_srgb (_oklab_to_linear_srgb (161 / 220 : ℝ)
      ((42 / 275 : ℝ) * (-1)) ((42 / 275 : ℝ) * (0))).1) = 0 := by
    have henvlo : (-0.055074095 : ℝ) ≤
        4.0767416621 * (0.67128659399 * 0.67128659399 * 0.67128659399) - 3.3077115913 * (0.74794027827 * 0.74794027827 * 0.74794027827) + 0.2309699292 * (0.7454848562 * 0.7454848562 * 0.7454848562) := by norm_num
    have henvhi : (4.0767416621 * (0.671286594 * 0.671286594 * 0.671286594) - 3.3077115913 * (0.74794027826 * 0.74794027826 * 0.74794027826) + 0.2309699292 * (0.7454848562 * 0.7454848562 * 0.7454848562) : ℝ) ≤ -0.055074094 := by norm_num
    obtain ⟨hlo, hhi⟩ := r_channel_bounds
      (show (0.67128659399 : ℝ) ≤ (161 / 220 : ℝ) + 0.3963377774 * ((42 / 275 : ℝ) * (-1)) + 0.2158037573 * ((42 / 275 : ℝ) * (0)) by norm_num)
      (show (161 / 220 : ℝ) + 0.3963377774 * ((42 / 275 : ℝ) * (-1)) + 0.2158037573 * ((42 / 275 : ℝ) * (0)) ≤ (0.671286594 : ℝ) by norm_num)
      (show (0.74794027826 : ℝ) ≤ (161 / 220 : ℝ) - 0.1055613458 * ((42 / 275 : ℝ) * (-1)) - 0.0638541728 * ((42 / 275 : ℝ) * (0)) by norm_num)
      (show (161 / 220 : ℝ) - 0.1055613458 * ((42 / 275 : ℝ) * (-1)) - 0.0638541728 * ((42 / 275 : ℝ) * (0)) ≤ (0.74794027827 : ℝ) by norm_num)
      (show (0.7454848562 : ℝ) ≤ (161 / 220 : ℝ) - 0.0894841775 * ((42 / 275 : ℝ) * (-1)) - 1.2914855480 * ((42 / 275 : ℝ) * (0)) by norm_num)
      (show (161 / 220 : ℝ) - 0.0894841775 * ((42 / 275 : ℝ) * (-1)) - 1.2914855480 * ((42 / 275 : ℝ) * (0)) ≤ (0.7454848562 : ℝ) by norm_num)
      henvlo henvhi
    exact byteOf_srgb_neg (by linarith)
  have hbg : byteOf (_linear_to_srgb (_oklab_to_linear_srgb (161 / 220 : ℝ)
      ((42 / 275 : ℝ) * (-1)) ((42 / 275 : ℝ) * (0))).2.1) = 198 := by
    have hclo : (0.7893572 : ℝ) ^ (12 : ℕ) ≤ (0.56683501 : ℝ) ^ (5 : ℕ) := by
      norm_num
    have hchi : (0.56683502 : ℝ) ^ (5 : ℕ) ≤ (0.7893573 : ℝ) ^ (12 : ℕ) := by
      norm_num
    have henvlo : (0.56683501 : ℝ) ≤
        -1.2684380046 * (0.671286594 * 0.671286594 * 0.671286594) + 2.6097574011 * (0.74794027826 * 0.74794027826 * 0.74794027826) - 0.3413193965 * (0.7454848562 * 0.7454848562 * 0.7454848562) := by norm_num
    have henvhi : (-1.2684380046 * (0.67128659399 * 0.67128659399 * 0.67128659399) + 2.6097574011 * (0.74794027827 * 0.74794027827 * 0.74794027827) - 0.3413193965 * (0.7454848562 * 0.7454848562 * 0.7454848562) : ℝ) ≤ 0.56683502 := by norm_num
    obtain ⟨hlo, hhi⟩ := g_channel_bounds
      (show (0.67128659399 : ℝ) ≤ (161 / 220 : ℝ) + 0.3963377774 * ((42 / 275 : ℝ) * (-1)) + 0.2158037573 * ((42 / 275 : ℝ) * (0)) by norm_num)
      (show (161 / 220 : ℝ) + 0.3963377774 * ((42 / 275 : ℝ) * (-1)) + 0.2158037573 * ((42 / 275 : ℝ) * (0)) ≤ (0.671286594 : ℝ) by norm_num)
      (show (0.74794027826 : ℝ) ≤ (161 / 220 : ℝ) - 0.1055613458 * ((42 / 275 : ℝ) * (-1)) - 0.0638541728 * ((42 / 275 : ℝ) * (0)) by norm_num)
      (show (161 / 220 : ℝ) - 0.1055613458 * ((42 / 275 : ℝ) * (-1)) - 0.0638541728 * ((42 / 275 : ℝ) * (0)) ≤ (0.74794027827 : ℝ) by norm_num)
      (show (0.7454848562 : ℝ) ≤ (161 / 220 : ℝ) - 0.0894841775 * ((42 / 275 : ℝ) * (-1)) - 1.2914855480 * ((42 / 275 : ℝ) * (0)) by norm_num)
      (show (161 / 220 : ℝ) - 0.0894841775 * ((42 / 275 : ℝ) * (-1)) - 1.2914855480 * ((42 / 275 : ℝ) * (0)) ≤ (0.7454848562 : ℝ) by norm_num)
      henvlo henvhi
    exact byteOf_srgb_eq hlo hhi (by norm_num) (by norm_num) (by norm_num)
      hclo hchi (by norm_num) (by norm_num) (by norm_num) (by norm_num)
  have hbb : byteOf (_linear_to_srgb (_oklab_to_linear_srgb (161 / 220 : ℝ)
      ((42 / 275 : ℝ) * (-1)) ((42 / 275 : ℝ) * (0))).2.2) = 172 := by
    have hclo : (0.6910165 : ℝ) ^ (12 : ℕ) ≤ (0.41188146 : ℝ) ^ (5 : ℕ) := by
      norm_num
    have hchi : (0.41188147 : ℝ) ^ (5 : ℕ) ≤ (0.6910166 : ℝ) ^ (12 : ℕ) := by
      norm_num
    have henvlo : (0.41188146 : ℝ) ≤
        -0.0041960863 * (0.671286594 * 0.671286594 * 0.671286594) - 0.7034186147 * (0.74794027827 * 0.74794027827 * 0.74794027827) + 1.7076147010 * (0.7454848562 * 0.7454848562 * 0.7454848562) := by norm_num
    have henvhi : (-0.0041960863 * (0.67128659399 * 0.67128659399 * 0.67128659399) - 0.7034186147 * (0.74794027826 * 0.74794027826 * 0.74794027826) + 1.7076147010 * (0.7454848562 * 0.7454848562 * 0.7454848562) : ℝ) ≤ 0.41188147 := by norm_num
    obtain ⟨hlo, hhi⟩ := b_channel_bounds
      (show (0.67128659399 : ℝ) ≤ (161 / 220 : ℝ) + 0.3963377774 * ((42 / 275 : ℝ) * (-1)) + 0.2158037573 * ((42 / 275 : ℝ) * (0)) by norm_num)
      (show (161 / 220 : ℝ) + 0.3963377774 * ((42 / 275 : ℝ) * (-1)) + 0.2158037573 * ((42 / 275 : ℝ) * (0)) ≤ (0.671286594 : ℝ) by norm_num)
      (show (0.74794027826 : ℝ) ≤ (161 / 220 : ℝ) - 0.1055613458 * ((42 / 275 : ℝ) * (-1)) - 0.0638541728 * ((42 / 275 : ℝ) * (0)) by norm_num)
      (show (161 / 220 : ℝ) - 0.1055613458 * ((42 / 275 : ℝ) * (-1)) - 0.0638541728 * ((42 / 275 : ℝ) * (0)) ≤ (0.74794027827 : ℝ) by norm_num)
      (show (0.7454848562 : ℝ) ≤ (161 / 220 : ℝ) - 0.0894841775 * ((42 / 275 : ℝ) * (-1)) - 1.2914855480 * ((42 / 275 : ℝ) * (0)) by norm_num)
      (show (161 / 220 : ℝ) - 0.0894841775 * ((42 / 275 : ℝ) * (-1)) - 1.2914855480 * ((42 / 275 : ℝ) * (0)) ≤ (0.7454848562 : ℝ) by norm_num)
      henvlo henvhi
    exact byteOf_srgb_eq hlo hhi (by norm_num) (by norm_num) (by norm_num)
      hclo hchi (by norm_num) (by norm_num) (by norm_num) (by norm_num)
  rw [hbr, hbg, hbb]
  decide

lemma varied12_c7 :
    _oklch_to_hex (83 / 110 : ℝ) (177 / 1100 : ℝ) (210 : ℝ) = "#00c9e7" := by
  have hang : radiansR (210 : ℝ) = Real.pi - -(Real.pi / 6) := by unfold radiansR; ring
  have hcos : Real.cos (radiansR (210 : ℝ)) = -(Real.sqrt 3 / 2) := by
    rw [hang, Real.cos_pi_sub, Real.cos_neg, Real.cos_pi_div_six]
  have hsin : Real.sin (radiansR (210 : ℝ)) = -(1 / 2) := by
    rw [hang, Real.sin_pi_sub, Real.sin_neg, Real.sin_pi_div_six]
  have hkey : _oklch_to_hex (83 / 110 : ℝ) (177 / 1100 : ℝ) (210 : ℝ) = String.mk ('#' ::
      (hexByte (byteOf (_linear_to_srgb (_oklab_to_linear_srgb (83 / 110 : ℝ)
          ((177 / 1100 : ℝ) * Real.cos (radiansR (210 : ℝ)))
          ((177 / 1100 : ℝ) * Real.sin (radiansR (210 : ℝ)))).1)) ++
        hexByte (byteOf (_linear_to_srgb (_oklab_to_linear_srgb (83 / 110 : ℝ)
          ((177 / 1100 : ℝ) * Real.cos (radiansR (210 : ℝ)))
          ((177 / 1100 : ℝ) * Real.sin (radiansR (210 : ℝ)))).2.1)) ++
        hexByte (byteOf (_linear_to_srgb (_oklab_to_linear_srgb (83 / 110 : ℝ)
          ((177 / 1100 : ℝ) * Real.cos (radiansR (210 : ℝ)))
          ((177 / 1100 : ℝ) * Real.sin (radiansR (210 : ℝ)))).2.2)))) := rfl
  rw [hkey, hcos, hsin]
  have hbr : byteOf (_linear_to_srgb (_oklab_to_linear_srgb (83 / 110 : ℝ)
      ((177 / 1100 : ℝ) * (-(Real.sqrt 3 / 2))) ((177 / 1100 : ℝ) * (-(1 / 2)))).1) = 0 := by
    have henvlo : (-0.090561071 : ℝ) ≤
        4.0767416621 * (0.68195285287 * 0.68195285287 * 0.68195285287) - 3.3077115913 * (0.77439293014 * 0.77439293014 * 0.77439293014) + 0.2309699292 * (0.87092107914 * 0.87092107914 * 0.87092107914) := by norm_num
    have henvhi : (4.0767416621 * (0.68195285288 * 0.68195285288 * 0.68195285288) - 3.3077115913 * (0.77439293013 * 0.77439293013 * 0.77439293013) + 0.2309699292 * (0.87092107915 * 0.87092107915 * 0.87092107915) : ℝ) ≤ -0.09056107 := by norm_num
    obtain ⟨hlo, hhi⟩ := r_channel_bounds
      (show (0.68195285287 : ℝ) ≤ (83 / 110 : ℝ) + 0.3963377774 * ((177 / 1100 : ℝ) * (-(Real.sqrt 3 / 2))) + 0.2158037573 * ((177 / 1100 : ℝ) * (-(1 / 2))) by linarith [sqrt3_lo, sqrt3_hi])
      (show (83 / 110 : ℝ) + 0.3963377774 * ((177 / 1100 : ℝ) * (-(Real.sqrt 3 / 2))) + 0.2158037573 * ((177 / 1100 : ℝ) * (-(1 / 2))) ≤ (0.68195285288 : ℝ) by linarith [sqrt3_lo, sqrt3_hi])
      (show (0.77439293013 : ℝ) ≤ (83 / 110 : ℝ) - 0.1055613458 * ((177 / 1100 : ℝ) * (-(Real.sqrt 3 / 2))) - 0.0638541728 * ((177 / 1100 : ℝ) * (-(1 / 2))) by linarith [sqrt3_lo, sqrt3_hi])
      (show (83 / 110 : ℝ) - 0.1055613458 * ((177 / 1100 : ℝ) * (-(Real.sqrt 3 / 2))) - 0.0638541728 * ((177 / 1100 : ℝ) * (-(1 / 2))) ≤ (0.77439293014 : ℝ) by linarith [sqrt3_lo, sqrt3_hi])
      (show (0.87092107914 : ℝ) ≤ (83 / 110 : ℝ) - 0.0894841775 * ((177 / 1100 : ℝ) * (-(Real.sqrt 3 / 2))) - 1.2914855480 * ((177 / 1100 : ℝ) * (-(1 / 2))) by linarith [sqrt3_lo, sqrt3_hi])
      (show (83 / 110 : ℝ) - 0.0894841775 * ((177 / 1100 : ℝ) * (-(Real.sqrt 3 / 2))) - 1.2914855480 * ((177 / 1100 : ℝ) * (-(1 / 2))) ≤ (0.87092107915 : ℝ) by linarith [sqrt3_lo, sqrt3_hi])
      henvlo henvhi
    exact byteOf_srgb_neg (by linarith)
  have hbg : byteOf (_linear_to_srgb (_oklab_to_linear_srgb (83 / 110 : ℝ)
      ((177 / 1100 : ℝ) * (-(Real.sqrt 3 / 2))) ((177 / 1100 : ℝ) * (-(1 / 2)))).2.1) = 201 := by
    have hclo : (0.7993392 : ℝ) ^ (12 : ℕ) ≤ (0.58419076 : ℝ) ^ (5 : ℕ) := by
      norm_num
    have hchi : (0.58419077 : ℝ) ^ (5 : ℕ) ≤ (0.7993393 : ℝ) ^ (12 : ℕ) := by
      norm_num
    have henvlo : (0.58419076 : ℝ) ≤
        -1.2684380046 * (0.68195285288 * 0.68195285288 * 0.68195285288) + 2.6097574011 * (0.77439293013 * 0.77439293013 * 0.77439293013) - 0.3413193965 * (0.87092107915 * 0.87092107915 * 0.87092107915) := by norm_num
    have henvhi : (-1.2684380046 * (0.68195285287 * 0.68195285287 * 0.68195285287) + 2.6097574011 * (0.77439293014 * 0.77439293014 * 0.77439293014) - 0.3413193965 * (0.87092107914 * 0.87092107914 * 0.87092107914) : ℝ) ≤ 0.58419077 := by norm_num
    obtain ⟨hlo, hhi⟩ := g_channel_bounds
      (show (0.68195285287 : ℝ) ≤ (83 / 110 : ℝ) + 0.3963377774 * ((177 / 1100 : ℝ) * (-(Real.sqrt 3 / 2))) + 0.2158037573 * ((177 / 1100 : ℝ) * (-(1 / 2))) by linarith [sqrt3_lo, sqrt3_hi])
      (show (83 / 110 : ℝ) + 0.3963377774 * ((177 / 1100 : ℝ) * (-(Real.sqrt 3 / 2))) + 0.2158037573 * ((177 / 1100 : ℝ) * (-(1 / 2))) ≤ (0.68195285288 : ℝ) by linarith [sqrt3_lo, sqrt3_hi])
      (show (0.77439293013 : ℝ) ≤ (83 / 110 : ℝ) - 0.1055613458 * ((177 / 1100 : ℝ) * (-(Real.sqrt 3 / 2))) - 0.0638541728 * ((177 / 1100 : ℝ) * (-(1 / 2))) by linarith [sqrt3_lo, sqrt3_hi])
      (show (83 / 110 : ℝ) - 0.1055613458 * ((177 / 1100 : ℝ) * (-(Real.sqrt 3 / 2))) - 0.0638541728 * ((177 / 1100 : ℝ) * (-(1 / 2))) ≤ (0.77439293014 : ℝ) by linarith [sqrt3_lo, sqrt3_hi])
      (show (0.87092107914 : ℝ) ≤ (83 / 110 : ℝ) - 0.0894841775 * ((177 / 1100 : ℝ) * (-(Real.sqrt 3 / 2))) - 1.2914855480 * ((177 / 1100 : ℝ) * (-(1 / 2))) by linarith [sqrt3_lo, sqrt3_hi])
      (show (83 / 110 : ℝ) - 0.0894841775 * ((177 / 1100 : ℝ) * (-(Real.sqrt 3 / 2))) - 1.2914855480 * ((177 / 1100 : ℝ) * (-(1 / 2))) ≤ (0.87092107915 : ℝ) by linarith [sqrt3_lo, sqrt3_hi])
      henvlo henvhi
    exact byteOf_srgb_eq hlo hhi (by norm_num) (by norm_num) (by norm_num)
      hclo hchi (by norm_num) (by norm_num) (by norm_num) (by norm_num)
  have hbb : byteOf (_linear_to_srgb (_oklab_to_linear_srgb (83 / 110 : ℝ)
      ((177 / 1100 : ℝ) * (-(Real.sqrt 3 / 2))) ((177 / 1100 : ℝ) * (-(1 / 2)))).2.2) = 231 := by
    have hclo : (0.9112397 : ℝ) ^ (12 : ℕ) ≤ (0.80005233 : ℝ) ^ (5 : ℕ) := by
      norm_num
    have hchi : (0.80005234 : ℝ) ^ (5 : ℕ) ≤ (0.9112398 : ℝ) ^ (12 : ℕ) := by
      norm_num
    have henvlo : (0.80005233 : ℝ) ≤
        -0.0041960863 * (0.68195285288 * 0.68195285288 * 0.68195285288) - 0.7034186147 * (0.77439293014 * 0.77439293014 * 0.77439293014) + 1.7076147010 * (0.87092107914 * 0.87092107914 * 0.87092107914) := by norm_num
    have henvhi : (-0.0041960863 * (0.68195285287 * 0.68195285287 * 0.68195285287) - 0.7034186147 * (0.77439293013 * 0.77439293013 * 0.77439293013) + 1.7076147010 * (0.87092107915 * 0.87092107915 * 0.87092107915) : ℝ) ≤ 0.80005234 := by norm_num
    obtain ⟨hlo, hhi⟩ := b_channel_bounds
      (show (0.68195285287 : ℝ) ≤ (83 / 110 : ℝ) + 0.3963377774 * ((177 / 1100 : ℝ) * (-(Real.sqrt 3 / 2))) + 0.2158037573 * ((177 / 1100 : ℝ) * (-(1 / 2))) by linarith [sqrt3_lo, sqrt3_hi])
      (show (83 / 110 : ℝ) + 0.3963377774 * ((177 / 1100 : ℝ) * (-(Real.sqrt 3 / 2))) + 0.2158037573 * ((177 / 1100 : ℝ) * (-(1 / 2))) ≤ (0.68195285288 : ℝ) by linarith [sqrt3_lo, sqrt3_hi])
      (show (0.77439293013 : ℝ) ≤ (83 / 110 : ℝ) - 0.1055613458 * ((177 / 1100 : ℝ) * (-(Real.sqrt 3 / 2))) - 0.0638541728 * ((177 / 1100 : ℝ) * (-(1 / 2))) by linarith [sqrt3_lo, sqrt3_hi])
      (show (83 / 110 : ℝ) - 0.1055613458 * ((177 / 1100 : ℝ) * (-(Real.sqrt 3 / 2))) - 0.0638541728 * ((177 / 1100 : ℝ) * (-(1 / 2))) ≤ (0.77439293014 : ℝ) by linarith [sqrt3_lo, sqrt3_hi])
      (show (0.87092107914 : ℝ) ≤ (83 / 110 : ℝ) - 0.0894841775 * ((177 / 1100 : ℝ) * (-(Real.sqrt 3 / 2))) - 1.2914855480 * ((177 / 1100 : ℝ) * (-(1 / 2))) by linarith [sqrt3_lo, sqrt3_hi])
      (show (83 / 110 : ℝ) - 0.0894841775 * ((177 / 1100 : ℝ) * (-(Real.sqrt 3 / 2))) - 1.2914855480 * ((177 / 1100 : ℝ) * (-(1 / 2))) ≤ (0.87092107915 : ℝ) by linarith [sqrt3_lo, sqrt3_hi])
      henvlo henvhi
    exact byteOf_srgb_eq hlo hhi (by norm_num) (by norm_num) (by norm_num)
      hclo hchi (by norm_num) (by norm_num) (by norm_num) (by norm_num)
  rw [hbr, hbg, hbb]
  decide

lemma varied12_c8 :
    _oklch_to_hex (39 / 55 : ℝ) (9 / 55 : ℝ) (240 : ℝ) = "#00acfc" := by
  have hang : radiansR (240 : ℝ) = Real.pi - -(Real.pi / 3) := by unfold radiansR; ring
  have hcos : Real.cos (radiansR (240 : ℝ)) = -(1 / 2) := by
    rw [hang, Real.cos_pi_sub, Real.cos_neg, Real.cos_pi_div_three]
  have hsin : Real.sin (radiansR (240 : ℝ)) = -(Real.sqrt 3 / 2) := by
    rw [hang, Real.sin_pi_sub, Real.sin_neg, Real.sin_pi_div_three]
  have hkey : _oklch_to_hex (39 / 55 : ℝ) (9 / 55 : ℝ) (240 : ℝ) = String.mk ('#' ::
      (hexByte (byteOf (_linear_to_srgb (_oklab_to_linear_srgb (39 / 55 : ℝ)
          ((9 / 55 : ℝ) * Real.cos (radiansR (240 : ℝ)))
          ((9 / 55 : ℝ) * Real.sin (radiansR (240 : ℝ)))).1)) ++
        hexByte (byteOf (_linear_to_srgb (_oklab_to_linear_srgb (39 / 55 : ℝ)
          ((9 / 55 : ℝ) * Real.cos (radiansR (240 : ℝ)))
          ((9 / 55 : ℝ) * Real.sin (radiansR (240 : ℝ)))).2.1)) ++
        hexByte (byteOf (_linear_to_srgb (_oklab_to_linear_srgb (39 / 55 : ℝ)
          ((9 / 55 : ℝ) * Real.cos (radiansR (240 : ℝ)))
          ((9 / 55 : ℝ) * Real.sin (radiansR (240 : ℝ)))).2.2)))) := rfl
  rw [hkey, hcos, hsin]
  have hbr : byteOf (_linear_to_srgb (_oklab_to_linear_srgb (39 / 55 : ℝ)
      ((9 / 55 : ℝ) * (-(1 / 2))) ((9 / 55 : ℝ) * (-(Real.sqrt 3 / 2)))).1) = 0 := by
    have henvlo : (-0.002280781 : ℝ) ≤
        4.0767416621 * (0.6460810214 * 0.6460810214 * 0.6460810214) - 3.3077115913 * (0.7267767287 * 0.7267767287 * 0.7267767287) + 0.2309699292 * (0.8994329534 * 0.8994329534 * 0.8994329534) := by norm_num
    have henvhi : (4.0767416621 * (0.64608102141 * 0.64608102141 * 0.64608102141) - 3.3077115913 * (0.72677672869 * 0.72677672869 * 0.72677672869) + 0.2309699292 * (0.89943295342 * 0.89943295342 * 0.89943295342) : ℝ) ≤ -0.00228078 := by norm_num
    obtain ⟨hlo, hhi⟩ := r_channel_bounds
      (show (0.6460810214 : ℝ) ≤ (39 / 55 : ℝ) + 0.3963377774 * ((9 / 55 : ℝ) * (-(1 / 2))) + 0.2158037573 * ((9 / 55 : ℝ) * (-(Real.sqrt 3 / 2))) by linarith [sqrt3_lo, sqrt3_hi])
      (show (39 / 55 : ℝ) + 0.3963377774 * ((9 / 55 : ℝ) * (-(1 / 2))) + 0.2158037573 * ((9 / 55 : ℝ) * (-(Real.sqrt 3 / 2))) ≤ (0.64608102141 : ℝ) by linarith [sqrt3_lo, sqrt3_hi])
      (show (0.72677672869 : ℝ) ≤ (39 / 55 : ℝ) - 0.1055613458 * ((9 / 55 : ℝ) * (-(1 / 2))) - 0.0638541728 * ((9 / 55 : ℝ) * (-(Real.sqrt 3 / 2))) by linarith [sqrt3_lo, sqrt3_hi])
      (show (39 / 55 : ℝ) - 0.1055613458 * ((9 / 55 : ℝ) * (-(1 / 2))) - 0.0638541728 * ((9 / 55 : ℝ) * (-(Real.sqrt 3 / 2))) ≤ (0.7267767287 : ℝ) by linarith [sqrt3_lo, sqrt3_hi])
      (show (0.8994329534 : ℝ) ≤ (39 / 55 : ℝ) - 0.0894841775 * ((9 / 55 : ℝ) * (-(1 / 2))) - 1.2914855480 * ((9 / 55 : ℝ) * (-(Real.sqrt 3 / 2))) by linarith [sqrt3_lo, sqrt3_hi])
      (show (39 / 55 : ℝ) - 0.0894841775 * ((9 / 55 : ℝ) * (-(1 / 2))) - 1.2914855480 * ((9 / 55 : ℝ) * (-(Real.sqrt 3 / 2))) ≤ (0.89943295342 : ℝ) by linarith [sqrt3_lo, sqrt3_hi])
      henvlo henvhi
    exact byteOf_srgb_neg (by linarith)
  have hbg : byteOf (_linear_to_srgb (_oklab_to_linear_srgb (39 / 55 : ℝ)
      ((9 / 55 : ℝ) * (-(1 / 2))) ((9 / 55 : ℝ) * (-(Real.sqrt 3 / 2)))).2.1) = 172 := by
    have hclo : (0.6906919 : ℝ) ^ (12 : ℕ) ≤ (0.41141728 : ℝ) ^ (5 : ℕ) := by
      norm_num
    have hchi : (0.41141729 : ℝ) ^ (5 : ℕ) ≤ (0.690692 : ℝ) ^ (12 : ℕ) := by
      norm_num
    have henvlo : (0.41141728 : ℝ) ≤
        -1.2684380046 * (0.64608102141 * 0.64608102141 * 0.64608102141) + 2.6097574011 * (0.72677672869 * 0.72677672869 * 0.72677672869) - 0.3413193965 * (0.89943295342 * 0.89943295342 * 0.89943295342) := by norm_num
    have henvhi : (-1.2684380046 * (0.6460810214 * 0.6460810214 * 0.6460810214) + 2.6097574011 * (0.7267767287 * 0.7267767287 * 0.7267767287) - 0.3413193965 * (0.8994329534 * 0.8994329534 * 0.8994329534) : ℝ) ≤ 0.41141729 := by norm_num
    obtain ⟨hlo, hhi⟩ := g_channel_bounds
      (show (0.6460810214 : ℝ) ≤ (39 / 55 : ℝ) + 0.3963377774 * ((9 / 55 : ℝ) * (-(1 / 2))) + 0.2158037573 * ((9 / 55 : ℝ) * (-(Real.sqrt 3 / 2))) by linarith [sqrt3_lo, sqrt3_hi])
      (show (39 / 55 : ℝ) + 0.3963377774 * ((9 / 55 : ℝ) * (-(1 / 2))) + 0.2158037573 * ((9 / 55 : ℝ) * (-(Real.sqrt 3 / 2))) ≤ (0.64608102141 : ℝ) by linarith [sqrt3_lo, sqrt3_hi])
      (show (0.72677672869 : ℝ) ≤ (39 / 55 : ℝ) - 0.1055613458 * ((9 / 55 : ℝ) * (-(1 / 2))) - 0.0638541728 * ((9 / 55 : ℝ) * (-(Real.sqrt 3 / 2))) by linarith [sqrt3_lo, sqrt3_hi])
      (show (39 / 55 : ℝ) - 0.1055613458 * ((9 / 55 : ℝ) * (-(1 / 2))) - 0.0638541728 * ((9 / 55 : ℝ) * (-(Real.sqrt 3 / 2))) ≤ (0.7267767287 : ℝ) by linarith [sqrt3_lo, sqrt3_hi])
      (show (0.8994329534 : ℝ) ≤ (39 / 55 : ℝ) - 0.0894841775 * ((9 / 55 : ℝ) * (-(1 / 2))) - 1.2914855480 * ((9 / 55 : ℝ) * (-(Real.sqrt 3 / 2))) by linarith [sqrt3_lo, sqrt3_hi])
      (show (39 / 55 : ℝ) - 0.0894841775 * ((9 / 55 : ℝ) * (-(1 / 2))) - 1.2914855480 * ((9 / 55 : ℝ) * (-(Real.sqrt 3 / 2))) ≤ (0.89943295342 : ℝ) by linarith [sqrt3_lo, sqrt3_hi])
      henvlo henvhi
    exact byteOf_srgb_eq hlo hhi (by norm_num) (by norm_num) (by norm_num)
      hclo hchi (by norm_num) (by norm_num) (by norm_num) (by norm_num)
  have hbb : byteOf (_linear_to_srgb (_oklab_to_linear_srgb (39 / 55 : ℝ)
      ((9 / 55 : ℝ) * (-(1 / 2))) ((9 / 55 : ℝ) * (-(Real.sqrt 3 / 2)))).2.2) = 252 := by
    have hclo : (0.9879548 : ℝ) ^ (12 : ℕ) ≤ (0.97133497 : ℝ) ^ (5 : ℕ) := by
      norm_num
    have hchi : (0.97133498 : ℝ) ^ (5 : ℕ) ≤ (0.9879549 : ℝ) ^ (12 : ℕ) := by
      norm_num
    have henvlo : (0.97133497 : ℝ) ≤
        -0.0041960863 * (0.64608102141 * 0.64608102141 * 0.64608102141) - 0.7034186147 * (0.7267767287 * 0.7267767287 * 0.7267767287) + 1.7076147010 * (0.8994329534 * 0.8994329534 * 0.8994329534) := by norm_num
    have henvhi : (-0.0041960863 * (0.6460810214 * 0.6460810214 * 0.6460810214) - 0.7034186147 * (0.72677672869 * 0.72677672869 * 0.72677672869) + 1.7076147010 * (0.89943295342 * 0.89943295342 * 0.89943295342) : ℝ) ≤ 0.97133498 := by norm_num
    obtain ⟨hlo, hhi⟩ := b_channel_bounds
      (show (0.6460810214 : ℝ) ≤ (39 / 55 : ℝ) + 0.3963377774 * ((9 / 55 : ℝ) * (-(1 / 2))) + 0.2158037573 * ((9 / 55 : ℝ) * (-(Real.sqrt 3 / 2))) by linarith [sqrt3_lo, sqrt3_hi])
      (show (39 / 55 : ℝ) + 0.3963377774 * ((9 / 55 : ℝ) * (-(1 / 2))) + 0.2158037573 * ((9 / 55 : ℝ) * (-(Real.sqrt 3 / 2))) ≤ (0.64608102141 : ℝ) by linarith [sqrt3_lo, sqrt3_hi])
      (show (0.72677672869 : ℝ) ≤ (39 / 55 : ℝ) - 0.1055613458 * ((9 / 55 : ℝ) * (-(1 / 2))) - 0.0638541728 * ((9 / 55 : ℝ) * (-(Real.sqrt 3 / 2))) by linarith [sqrt3_lo, sqrt3_hi])
      (show (39 / 55 : ℝ) - 0.1055613458 * ((9 / 55 : ℝ) * (-(1 / 2))) - 0.0638541728 * ((9 / 55 : ℝ) * (-(Real.sqrt 3 / 2))) ≤ (0.7267767287 : ℝ) by linarith [sqrt3_lo, sqrt3_hi])
      (show (0.8994329534 : ℝ) ≤ (39 / 55 : ℝ) - 0.0894841775 * ((9 / 55 : ℝ) * (-(1 / 2))) - 1.2914855480 * ((9 / 55 : ℝ) * (-(Real.sqrt 3 / 2))) by linarith [sqrt3_lo, sqrt3_hi])
      (show (39 / 55 : ℝ) - 0.0894841775 * ((9 / 55 : ℝ) * (-(1 / 2))) - 1.2914855480 * ((9 / 55 : ℝ) * (-(Real.sqrt 3 / 2))) ≤ (0.89943295342 : ℝ) by linarith [sqrt3_lo, sqrt3_hi])
      henvlo henvhi
    exact byteOf_srgb_eq hlo hhi (by norm_num) (by norm_num) (by norm_num)
      hclo hchi (by norm_num) (by norm_num) (by norm_num) (by norm_num)
  rw [hbr, hbg, hbb]
  decide

lemma varied12_c9 :
    _oklch_to_hex (171 / 220 : ℝ) (171 / 1100 : ℝ) (270 : ℝ) = "#90b0ff" := by
  have hang : radiansR (270 : ℝ) = Real.pi - -(Real.pi / 2) := by unfold radiansR; ring
  have hcos : Real.cos (radiansR (270 : ℝ)) = 0 := by
    rw [hang, Real.cos_pi_sub, Real.cos_neg, Real.cos_pi_div_two]
    norm_num
  have hsin : Real.sin (radiansR (270 : ℝ)) = -1 := by
    rw [hang, Real.sin_pi_sub, Real.sin_neg, Real.sin_pi_div_two]
  have hkey : _oklch_to_hex (171 / 220 : ℝ) (171 / 1100 : ℝ) (270 : ℝ) = String.mk ('#' ::
      (hexByte (byteOf (_linear_to_srgb (_oklab_to_linear_srgb (171 / 220 : ℝ)
          ((171 / 1100 : ℝ) * Real.cos (radiansR (270 : ℝ)))
          ((171 / 1100 : ℝ) * Real.sin (radiansR (270 : ℝ)))).1)) ++
        hexByte (byteOf (_linear_to_srgb (_oklab_to_linear_srgb (171 / 220 : ℝ)
          ((171 / 1100 : ℝ) * Real.cos (radiansR (270 : ℝ)))
          ((171 / 1100 : ℝ) * Real.sin (radiansR (270 : ℝ)))).2.1)) ++
        hexByte (byteOf (_linear_to_srgb (_oklab_to_linear_srgb (171 / 220 : ℝ)
          ((171 / 1100 : ℝ) * Real.cos (radiansR (270 : ℝ)))
          ((171 / 1100 : ℝ) * Real.sin (radiansR (270 : ℝ)))).2.2)))) := rfl
  rw [hkey, hcos, hsin]
  have hbr : byteOf (_linear_to_srgb (_oklab_to_linear_srgb (171 / 220 : ℝ)
      ((171 / 1100 : ℝ) * (0)) ((171 / 1100 : ℝ) * (-1))).1) = 144 := by
    have hclo : (0.5880229 : ℝ) ^ (12 : ℕ) ≤ (0.2796059 : ℝ) ^ (5 : ℕ) := by
      norm_num
    have hchi : (0.27960591 : ℝ) ^ (5 : ℕ) ≤ (0.588023 : ℝ) ^ (12 : ℕ) := by
      norm_num
    have henvlo : (0.2796059 : ℝ) ≤
        4.0767416621 * (0.74372505227 * 0.74372505227 * 0.74372505227) - 3.3077115913 * (0.78719914869 * 0.78719914869 * 0.78719914869) + 0.2309699292 * (0.97804002609 * 0.97804002609 * 0.97804002609) := by norm_num
    have henvhi : (4.0767416621 * (0.74372505228 * 0.74372505228 * 0.74372505228) - 3.3077115913 * (0.78719914868 * 0.78719914868 * 0.78719914868) + 0.2309699292 * (0.9780400261 * 0.9780400261 * 0.9780400261) : ℝ) ≤ 0.27960591 := by norm_num
    obtain ⟨hlo, hhi⟩ := r_channel_bounds
      (show (0.74372505227 : ℝ) ≤ (171 / 220 : ℝ) + 0.3963377774 * ((171 / 1100 : ℝ) * (0)) + 0.2158037573 * ((171 / 1100 : ℝ) * (-1)) by norm_num)
      (show (171 / 220 : ℝ) + 0.3963377774 * ((171 / 1100 : ℝ) * (0)) + 0.2158037573 * ((171 / 1100 : ℝ) * (-1)) ≤ (0.74372505228 : ℝ) by norm_num)
      (show (0.78719914868 : ℝ) ≤ (171 / 220 : ℝ) - 0.1055613458 * ((171 / 1100 : ℝ) * (0)) - 0.0638541728 * ((171 / 1100 : ℝ) * (-1)) by norm_num)
      (show (171 / 220 : ℝ) - 0.1055613458 * ((171 / 1100 : ℝ) * (0)) - 0.0638541728 * ((171 / 1100 : ℝ) * (-1)) ≤ (0.78719914869 : ℝ) by norm_num)
      (show (0.97804002609 : ℝ) ≤ (171 / 220 : ℝ) - 0.0894841775 * ((171 / 1100 : ℝ) * (0)) - 1.2914855480 * ((171 / 1100 : ℝ) * (-1)) by norm_num)
      (show (171 / 220 : ℝ) - 0.0894841775 * ((171 / 1100 : ℝ) * (0)) - 1.2914855480 * ((171 / 1100 : ℝ) * (-1)) ≤ (0.9780400261 : ℝ) by norm_num)
      henvlo henvhi
    exact byteOf_srgb_eq hlo hhi (by norm_num) (by norm_num) (by norm_num)
      hclo hchi (by norm_num) (by norm_num) (by norm_num) (by norm_num)
  have hbg : byteOf (_linear_to_srgb (_oklab_to_linear_srgb (171 / 220 : ℝ)
      ((171 / 1100 : ℝ) * (0)) ((171 / 1100 : ℝ) * (-1))).2.1) = 176 := by
    have hclo : (0.7048499 : ℝ) ^ (12 : ℕ) ≤ (0.43194861 : ℝ) ^ (5 : ℕ) := by
      norm_num
    have hchi : (0.43194862 : ℝ) ^ (5 : ℕ) ≤ (0.7048501 : ℝ) ^ (12 : ℕ) := by
      norm_num
    have henvlo : (0.43194861 : ℝ) ≤
        -1.2684380046 * (0.74372505228 * 0.74372505228 * 0.74372505228) + 2.6097574011 * (0.78719914868 * 0.78719914868 * 0.78719914868) - 0.3413193965 * (0.9780400261 * 0.9780400261 * 0.9780400261) := by norm_num
    have henvhi : (-1.2684380046 * (0.74372505227 * 0.74372505227 * 0.74372505227) + 2.6097574011 * (0.78719914869 * 0.78719914869 * 0.78719914869) - 0.3413193965 * (0.97804002609 * 0.97804002609 * 0.97804002609) : ℝ) ≤ 0.43194862 := by norm_num
    obtain ⟨hlo, hhi⟩ := g_channel_bounds
      (show (0.74372505227 : ℝ) ≤ (171 / 220 : ℝ) + 0.3963377774 * ((171 / 1100 : ℝ) * (0)) + 0.2158037573 * ((171 / 1100 : ℝ) * (-1)) by norm_num)
      (show (171 / 220 : ℝ) + 0.3963377774 * ((171 / 1100 : ℝ) * (0)) + 0.2158037573 * ((171 / 1100 : ℝ) * (-1)) ≤ (0.74372505228 : ℝ) by norm_num)
      (show (0.78719914868 : ℝ) ≤ (171 / 220 : ℝ) - 0.1055613458 * ((171 / 1100 : ℝ) * (0)) - 0.0638541728 * ((171 / 1100 : ℝ) * (-1)) by norm_num)
      (show (171 / 220 : ℝ) - 0.1055613458 * ((171 / 1100 : ℝ) * (0)) - 0.0638541728 * ((171 / 1100 : ℝ) * (-1)) ≤ (0.78719914869 : ℝ) by norm_num)
      (show (0.97804002609 : ℝ) ≤ (171 / 220 : ℝ) - 0.0894841775 * ((171 / 1100 : ℝ) * (0)) - 1.2914855480 * ((171 / 1100 : ℝ) * (-1)) by norm_num)
      (show (171 / 220 : ℝ) - 0.0894841775 * ((171 / 1100 : ℝ) * (0)) - 1.2914855480 * ((171 / 1100 : ℝ) * (-1)) ≤ (0.9780400261 : ℝ) by norm_num)
      henvlo henvhi
    exact byteOf_srgb_eq hlo hhi (by norm_num) (by norm_num) (by norm_num)
      hclo hchi (by norm_num) (by norm_num) (by norm_num) (by norm_num)
  have hbb : byteOf (_linear_to_srgb (_oklab_to_linear_srgb (171 / 220 : ℝ)
      ((171 / 1100 : ℝ) * (0)) ((171 / 1100 : ℝ) * (-1))).2.2) = 255 := by
    have henvlo : (1.252706252 : ℝ) ≤
        -0.0041960863 * (0.74372505228 * 0.74372505228 * 0.74372505228) - 0.7034186147 * (0.78719914869 * 0.78719914869 * 0.78719914869) + 1.7076147010 * (0.97804002609 * 0.97804002609 * 0.97804002609) := by norm_num
    have henvhi : (-0.0041960863 * (0.74372505227 * 0.74372505227 * 0.74372505227) - 0.7034186147 * (0.78719914868 * 0.78719914868 * 0.78719914868) + 1.7076147010 * (0.9780400261 * 0.9780400261 * 0.9780400261) : ℝ) ≤ 1.252706254 := by norm_num
    obtain ⟨hlo, hhi⟩ := b_channel_bounds
      (show (0.74372505227 : ℝ) ≤ (171 / 220 : ℝ) + 0.3963377774 * ((171 / 1100 : ℝ) * (0)) + 0.2158037573 * ((171 / 1100 : ℝ) * (-1)) by norm_num)
      (show (171 / 220 : ℝ) + 0.3963377774 * ((171 / 1100 : ℝ) * (0)) + 0.2158037573 * ((171 / 1100 : ℝ) * (-1)) ≤ (0.74372505228 : ℝ) by norm_num)
      (show (0.78719914868 : ℝ) ≤ (171 / 220 : ℝ) - 0.1055613458 * ((171 / 1100 : ℝ) * (0)) - 0.0638541728 * ((171 / 1100 : ℝ) * (-1)) by norm_num)
      (show (171 / 220 : ℝ) - 0.1055613458 * ((171 / 1100 : ℝ) * (0)) - 0.0638541728 * ((171 / 1100 : ℝ) * (-1)) ≤ (0.78719914869 : ℝ) by norm_num)
      (show (0.97804002609 : ℝ) ≤ (171 / 220 : ℝ) - 0.0894841775 * ((171 / 1100 : ℝ) * (0)) - 1.2914855480 * ((171 / 1100 : ℝ) * (-1)) by norm_num)
      (show (171 / 220 : ℝ) - 0.0894841775 * ((171 / 1100 : ℝ) * (0)) - 1.2914855480 * ((171 / 1100 : ℝ) * (-1)) ≤ (0.9780400261 : ℝ) by norm_num)
      henvlo henvhi
    exact byteOf_eq_255 (srgb_ge_one (by linarith))
  rw [hbr, hbg, hbb]
  decide

lemma varied12_c10 :
    _oklch_to_hex (151 / 220 : ℝ) (48 / 275 : ℝ) (300 : ℝ) = "#ac7df5" := by
  have hang : radiansR (300 : ℝ) = -(Real.pi / 3) + 2 * Real.pi := by unfold radiansR; ring
  have hcos : Real.cos (radiansR (300 : ℝ)) = 1 / 2 := by
    rw [hang, Real.cos_add_two_pi, Real.cos_neg, Real.cos_pi_div_three]
  have hsin : Real.sin (radiansR (300 : ℝ)) = -(Real.sqrt 3 / 2) := by
    rw [hang, Real.sin_add_two_pi, Real.sin_neg, Real.sin_pi_div_three]
  have hkey : _oklch_to_hex (151 / 220 : ℝ) (48 / 275 : ℝ) (300 : ℝ) = String.mk ('#' ::
      (hexByte (byteOf (_linear_to_srgb (_oklab_to_linear_srgb (151 / 220 : ℝ)
          ((48 / 275 : ℝ) * Real.cos (radiansR (300 : ℝ)))
          ((48 / 275 : ℝ) * Real.sin (radiansR (300 : ℝ)))).1)) ++
        hexByte (byteOf (_linear_to_srgb (_oklab_to_linear_srgb (151 / 220 : ℝ)
          ((48 / 275 : ℝ) * Real.cos (radiansR (300 : ℝ)))
          ((48 / 275 : ℝ) * Real.sin (radiansR (300 : ℝ)))).2.1)) ++
        hexByte (byteOf (_linear_to_srgb (_oklab_to_linear_srgb (151 / 220 : ℝ)
          ((48 / 275 : ℝ) * Real.cos (radiansR (300 : ℝ)))
          ((48 / 275 : ℝ) * Real.sin (radiansR (300 : ℝ)))).2.2)))) := rfl
  rw [hkey, hcos, hsin]
  have hbr : byteOf (_linear_to_srgb (_oklab_to_linear_srgb (151 / 220 : ℝ)
      ((48 / 275 : ℝ) * (1 / 2)) ((48 / 275 : ℝ) * (-(Real.sqrt 3 / 2)))).1) = 172 := by
    have hclo : (0.6911419 : ℝ) ^ (12 : ℕ) ≤ (0.41206084 : ℝ) ^ (5 : ℕ) := by
      norm_num
    have hchi : (0.41206085 : ℝ) ^ (5 : ℕ) ≤ (0.691142 : ℝ) ^ (12 : ℕ) := by
      norm_num
    have henvlo : (0.41206084 : ℝ) ≤
        4.0767416621 * (0.688332047 * 0.688332047 * 0.688332047) - 3.3077115913 * (0.68680325753 * 0.68680325753 * 0.68680325753) + 0.2309699292 * (0.87377609385 * 0.87377609385 * 0.87377609385) := by norm_num
    have henvhi : (4.0767416621 * (0.68833204701 * 0.68833204701 * 0.68833204701) - 3.3077115913 * (0.68680325752 * 0.68680325752 * 0.68680325752) + 0.2309699292 * (0.87377609387 * 0.87377609387 * 0.87377609387) : ℝ) ≤ 0.41206085 := by norm_num
    obtain ⟨hlo, hhi⟩ := r_channel_bounds
      (show (0.688332047 : ℝ) ≤ (151 / 220 : ℝ) + 0.3963377774 * ((48 / 275 : ℝ) * (1 / 2)) + 0.2158037573 * ((48 / 275 : ℝ) * (-(Real.sqrt 3 / 2))) by linarith [sqrt3_lo, sqrt3_hi])
      (show (151 / 220 : ℝ) + 0.3963377774 * ((48 / 275 : ℝ) * (1 / 2)) + 0.2158037573 * ((48 / 275 : ℝ) * (-(Real.sqrt 3 / 2))) ≤ (0.68833204701 : ℝ) by linarith [sqrt3_lo, sqrt3_hi])
      (show (0.68680325752 : ℝ) ≤ (151 / 220 : ℝ) - 0.1055613458 * ((48 / 275 : ℝ) * (1 / 2)) - 0.0638541728 * ((48 / 275 : ℝ) * (-(Real.sqrt 3 / 2))) by linarith [sqrt3_lo, sqrt3_hi])
      (show (151 / 220 : ℝ) - 0.1055613458 * ((48 / 275 : ℝ) * (1 / 2)) - 0.0638541728 * ((48 / 275 : ℝ) * (-(Real.sqrt 3 / 2))) ≤ (0.68680325753 : ℝ) by linarith [sqrt3_lo, sqrt3_hi])
      (show (0.87377609385 : ℝ) ≤ (151 / 220 : ℝ) - 0.0894841775 * ((48 / 275 : ℝ) * (1 / 2)) - 1.2914855480 * ((48 / 275 : ℝ) * (-(Real.sqrt 3 / 2))) by linarith [sqrt3_lo, sqrt3_hi])
      (show (151 / 220 : ℝ) - 0.0894841775 * ((48 / 275 : ℝ) * (1 / 2)) - 1.2914855480 * ((48 / 275 : ℝ) * (-(Real.sqrt 3 / 2))) ≤ (0.87377609387 : ℝ) by linarith [sqrt3_lo, sqrt3_hi])
      henvlo henvhi
    exact byteOf_srgb_eq hlo hhi (by norm_num) (by norm_num) (by norm_num)
      hclo hchi (by norm_num) (by norm_num) (by norm_num) (by norm_num)
  have hbg : byteOf (_linear_to_srgb (_oklab_to_linear_srgb (151 / 220 : ℝ)
      ((48 / 275 : ℝ) * (1 / 2)) ((48 / 275 : ℝ) * (-(Real.sqrt 3 / 2)))).2.1) = 125 := by
    have hclo : (0.515734 : ℝ) ^ (12 : ℕ) ≤ (0.20409008 : ℝ) ^ (5 : ℕ) := by
      norm_num
    have hchi : (0.20409009 : ℝ) ^ (5 : ℕ) ≤ (0.5157341 : ℝ) ^ (12 : ℕ) := by
      norm_num
    have henvlo : (0.20409008 : ℝ) ≤
        -1.2684380046 * (0.68833204701 * 0.68833204701 * 0.68833204701) + 2.6097574011 * (0.68680325752 * 0.68680325752 * 0.68680325752) - 0.3413193965 * (0.87377609387 * 0.87377609387 * 0.87377609387) := by norm_num
    have henvhi : (-1.2684380046 * (0.688332047 * 0.688332047 * 0.688332047) + 2.6097574011 * (0.68680325753 * 0.68680325753 * 0.68680325753) - 0.3413193965 * (0.87377609385 * 0.87377609385 * 0.87377609385) : ℝ) ≤ 0.20409009 := by norm_num
    obtain ⟨hlo, hhi⟩ := g_channel_bounds
      (show (0.688332047 : ℝ) ≤ (151 / 220 : ℝ) + 0.3963377774 * ((48 / 275 : ℝ) * (1 / 2)) + 0.2158037573 * ((48 / 275 : ℝ) * (-(Real.sqrt 3 / 2))) by linarith [sqrt3_lo, sqrt3_hi])
      (show (151 / 220 : ℝ) + 0.3963377774 * ((48 / 275 : ℝ) * (1 / 2)) + 0.2158037573 * ((48 / 275 : ℝ) * (-(Real.sqrt 3 / 2))) ≤ (0.68833204701 : ℝ) by linarith [sqrt3_lo, sqrt3_hi])
      (show (0.68680325752 : ℝ) ≤ (151 / 220 : ℝ) - 0.1055613458 * ((48 / 275 : ℝ) * (1 / 2)) - 0.0638541728 * ((48 / 275 : ℝ) * (-(Real.sqrt 3 / 2))) by linarith [sqrt3_lo, sqrt3_hi])
      (show (151 / 220 : ℝ) - 0.1055613458 * ((48 / 275 : ℝ) * (1 / 2)) - 0.0638541728 * ((48 / 275 : ℝ) * (-(Real.sqrt 3 / 2))) ≤ (0.68680325753 : ℝ) by linarith [sqrt3_lo, sqrt3_hi])
      (show (0.87377609385 : ℝ) ≤ (151 / 220 : ℝ) - 0.0894841775 * ((48 / 275 : ℝ) * (1 / 2)) - 1.2914855480 * ((48 / 275 : ℝ) * (-(Real.sqrt 3 / 2))) by linarith [sqrt3_lo, sqrt3_hi])
      (show (151 / 220 : ℝ) - 0.0894841775 * ((48 / 275 : ℝ) * (1 / 2)) - 1.2914855480 * ((48 / 275 : ℝ) * (-(Real.sqrt 3 / 2))) ≤ (0.87377609387 : ℝ) by linarith [sqrt3_lo, sqrt3_hi])
      henvlo henvhi
    exact byteOf_srgb_eq hlo hhi (by norm_num) (by norm_num) (by norm_num)
      hclo hchi (by norm_num) (by norm_num) (by norm_num) (by norm_num)
  have hbb : byteOf (_linear_to_srgb (_oklab_to_linear_srgb (151 / 220 : ℝ)
      ((48 / 275 : ℝ) * (1 / 2)) ((48 / 275 : ℝ) * (-(Real.sqrt 3 / 2)))).2.2) = 245 := by
    have hclo : (0.9614324 : ℝ) ^ (12 : ℕ) ≤ (0.90992383 : ℝ) ^ (5 : ℕ) := by
      norm_num
    have hchi : (0.90992384 : ℝ) ^ (5 : ℕ) ≤ (0.9614325 : ℝ) ^ (12 : ℕ) := by
      norm_num
    have henvlo : (0.90992383 : ℝ) ≤
        -0.0041960863 * (0.68833204701 * 0.68833204701 * 0.68833204701) - 0.7034186147 * (0.68680325753 * 0.68680325753 * 0.68680325753) + 1.7076147010 * (0.87377609385 * 0.87377609385 * 0.87377609385) := by norm_num
    have henvhi : (-0.0041960863 * (0.688332047 * 0.688332047 * 0.688332047) - 0.7034186147 * (0.68680325752 * 0.68680325752 * 0.68680325752) + 1.7076147010 * (0.87377609387 * 0.87377609387 * 0.87377609387) : ℝ) ≤ 0.90992384 := by norm_num
    obtain ⟨hlo, hhi⟩ := b_channel_bounds
      (show (0.688332047 : ℝ) ≤ (151 / 220 : ℝ) + 0.3963377774 * ((48 / 275 : ℝ) * (1 / 2)) + 0.2158037573 * ((48 / 275 : ℝ) * (-(Real.sqrt 3 / 2))) by linarith [sqrt3_lo, sqrt3_hi])
      (show (151 / 220 : ℝ) + 0.3963377774 * ((48 / 275 : ℝ) * (1 / 2)) + 0.2158037573 * ((48 / 275 : ℝ) * (-(Real.sqrt 3 / 2))) ≤ (0.68833204701 : ℝ) by linarith [sqrt3_lo, sqrt3_hi])
      (show (0.68680325752 : ℝ) ≤ (151 / 220 : ℝ) - 0.1055613458 * ((48 / 275 : ℝ) * (1 / 2)) - 0.0638541728 * ((48 / 275 : ℝ) * (-(Real.sqrt 3 / 2))) by linarith [sqrt3_lo, sqrt3_hi])
      (show (151 / 220 : ℝ) - 0.1055613458 * ((48 / 275 : ℝ) * (1 / 2)) - 0.0638541728 * ((48 / 275 : ℝ) * (-(Real.sqrt 3 / 2))) ≤ (0.68680325753 : ℝ) by linarith [sqrt3_lo, sqrt3_hi])
      (show (0.87377609385 : ℝ) ≤ (151 / 220 : ℝ) - 0.0894841775 * ((48 / 275 : ℝ) * (1 / 2)) - 1.2914855480 * ((48 / 275 : ℝ) * (-(Real.sqrt 3 / 2))) by linarith [sqrt3_lo, sqrt3_hi])
      (show (151 / 220 : ℝ) - 0.0894841775 * ((48 / 275 : ℝ) * (1 / 2)) - 1.2914855480 * ((48 / 275 : ℝ) * (-(Real.sqrt 3 / 2))) ≤ (0.87377609387 : ℝ) by linarith [sqrt3_lo, sqrt3_hi])
      henvlo henvhi
    exact byteOf_srgb_eq hlo hhi (by norm_num) (by norm_num) (by norm_num)
      hclo hchi (by norm_num) (by norm_num) (by norm_num) (by norm_num)
  rw [hbr, hbg, hbb]
  decide

lemma varied12_c11 :
    _oklch_to_hex (4 / 5 : ℝ) (3 / 20 : ℝ) (330 : ℝ) = "#f398eb" := by
  have hang : radiansR (330 : ℝ) = -(Real.pi / 6) + 2 * Real.pi := by unfold radiansR; ring
  have hcos : Real.cos (radiansR (330 : ℝ)) = Real.sqrt 3 / 2 := by
    rw [hang, Real.cos_add_two_pi, Real.cos_neg, Real.cos_pi_div_six]
  have hsin : Real.sin (radiansR (330 : ℝ)) = -(1 / 2) := by
    rw [hang, Real.sin_add_two_pi, Real.sin_neg, Real.sin_pi_div_six]
  have hkey : _oklch_to_hex (4 / 5 : ℝ) (3 / 20 : ℝ) (330 : ℝ) = String.mk ('#' ::
      (hexByte (byteOf (_linear_to_srgb (_oklab_to_linear_srgb (4 / 5 : ℝ)
          ((3 / 20 : ℝ) * Real.cos (radiansR (330 : ℝ)))
          ((3 / 20 : ℝ) * Real.sin (radiansR (330 : ℝ)))).1)) ++
        hexByte (byteOf (_linear_to_srgb (_oklab_to_linear_srgb (4 / 5 : ℝ)
          ((3 / 20 : ℝ) * Real.cos (radiansR (330 : ℝ)))
          ((3 / 20 : ℝ) * Real.sin (radiansR (330 : ℝ)))).2.1)) ++
        hexByte (byteOf (_linear_to_srgb (_oklab_to_linear_srgb (4 / 5 : ℝ)
          ((3 / 20 : ℝ) * Real.cos (radiansR (330 : ℝ)))
          ((3 / 20 : ℝ) * Real.sin (radiansR (330 : ℝ)))).2.2)))) := rfl
  rw [hkey, hcos, hsin]
  have hbr : byteOf (_linear_to_srgb (_oklab_to_linear_srgb (4 / 5 : ℝ)
      ((3 / 20 : ℝ) * (Real.sqrt 3 / 2)) ((3 / 20 : ℝ) * (-(1 / 2)))).1) = 243 := by
    have hclo : (0.9564705 : ℝ) ^ (12 : ℕ) ≤ (0.89869394 : ℝ) ^ (5 : ℕ) := by
      norm_num
    have hchi : (0.89869395 : ℝ) ^ (5 : ℕ) ≤ (0.9564706 : ℝ) ^ (12 : ℕ) := by
      norm_num
    have henvlo : (0.89869394 : ℝ) ≤
        4.0767416621 * (0.83530050575 * 0.83530050575 * 0.83530050575) - 3.3077115913 * (0.7910762419 * 0.7910762419 * 0.7910762419) + 0.2309699292 * (0.88523708045 * 0.88523708045 * 0.88523708045) := by norm_num
    have henvhi : (4.0767416621 * (0.83530050576 * 0.83530050576 * 0.83530050576) - 3.3077115913 * (0.79107624189 * 0.79107624189 * 0.79107624189) + 0.2309699292 * (0.88523708046 * 0.88523708046 * 0.88523708046) : ℝ) ≤ 0.89869395 := by norm_num
    obtain ⟨hlo, hhi⟩ := r_channel_bounds
      (show (0.83530050575 : ℝ) ≤ (4 / 5 : ℝ) + 0.3963377774 * ((3 / 20 : ℝ) * (Real.sqrt 3 / 2)) + 0.2158037573 * ((3 / 20 : ℝ) * (-(1 / 2))) by linarith [sqrt3_lo, sqrt3_hi])
      (show (4 / 5 : ℝ) + 0.3963377774 * ((3 / 20 : ℝ) * (Real.sqrt 3 / 2)) + 0.2158037573 * ((3 / 20 : ℝ) * (-(1 / 2))) ≤ (0.83530050576 : ℝ) by linarith [sqrt3_lo, sqrt3_hi])
      (show (0.79107624189 : ℝ) ≤ (4 / 5 : ℝ) - 0.1055613458 * ((3 / 20 : ℝ) * (Real.sqrt 3 / 2)) - 0.0638541728 * ((3 / 20 : ℝ) * (-(1 / 2))) by linarith [sqrt3_lo, sqrt3_hi])
      (show (4 / 5 : ℝ) - 0.1055613458 * ((3 / 20 : ℝ) * (Real.sqrt 3 / 2)) - 0.0638541728 * ((3 / 20 : ℝ) * (-(1 / 2))) ≤ (0.7910762419 : ℝ) by linarith [sqrt3_lo, sqrt3_hi])
      (show (0.88523708045 : ℝ) ≤ (4 / 5 : ℝ) - 0.0894841775 * ((3 / 20 : ℝ) * (Real.sqrt 3 / 2)) - 1.2914855480 * ((3 / 20 : ℝ) * (-(1 / 2))) by linarith [sqrt3_lo, sqrt3_hi])
      (show (4 / 5 : ℝ) - 0.0894841775 * ((3 / 20 : ℝ) * (Real.sqrt 3 / 2)) - 1.2914855480 * ((3 / 20 : ℝ) * (-(1 / 2))) ≤ (0.88523708046 : ℝ) by linarith [sqrt3_lo, sqrt3_hi])
      henvlo henvhi
    exact byteOf_srgb_eq hlo hhi (by norm_num) (by norm_num) (by norm_num)
      hclo hchi (by norm_num) (by norm_num) (by norm_num) (by norm_num)
  have hbg : byteOf (_linear_to_srgb (_oklab_to_linear_srgb (4 / 5 : ℝ)
      ((3 / 20 : ℝ) * (Real.sqrt 3 / 2)) ((3 / 20 : ℝ) * (-(1 / 2)))).2.1) = 152 := by
    have hclo : (0.6187314 : ℝ) ^ (12 : ℕ) ≤ (0.31594053 : ℝ) ^ (5 : ℕ) := by
      norm_num
    have hchi : (0.31594054 : ℝ) ^ (5 : ℕ) ≤ (0.6187316 : ℝ) ^ (12 : ℕ) := by
      norm_num
    have henvlo : (0.31594053 : ℝ) ≤
        -1.2684380046 * (0.83530050576 * 0.83530050576 * 0.83530050576) + 2.6097574011 * (0.79107624189 * 0.79107624189 * 0.79107624189) - 0.3413193965 * (0.88523708046 * 0.88523708046 * 0.88523708046) := by norm_num
    have henvhi : (-1.2684380046 * (0.83530050575 * 0.83530050575 * 0.83530050575) + 2.6097574011 * (0.7910762419 * 0.7910762419 * 0.7910762419) - 0.3413193965 * (0.88523708045 * 0.88523708045 * 0.88523708045) : ℝ) ≤ 0.31594054 := by norm_num
    obtain ⟨hlo, hhi⟩ := g_channel_bounds
      (show (0.83530050575 : ℝ) ≤ (4 / 5 : ℝ) + 0.3963377774 * ((3 / 20 : ℝ) * (Real.sqrt 3 / 2)) + 0.2158037573 * ((3 / 20 : ℝ) * (-(1 / 2))) by linarith [sqrt3_lo, sqrt3_hi])
      (show (4 / 5 : ℝ) + 0.3963377774 * ((3 / 20 : ℝ) * (Real.sqrt 3 / 2)) + 0.2158037573 * ((3 / 20 : ℝ) * (-(1 / 2))) ≤ (0.83530050576 : ℝ) by linarith [sqrt3_lo, sqrt3_hi])
      (show (0.79107624189 : ℝ) ≤ (4 / 5 : ℝ) - 0.1055613458 * ((3 / 20 : ℝ) * (Real.sqrt 3 / 2)) - 0.0638541728 * ((3 / 20 : ℝ) * (-(1 / 2))) by linarith [sqrt3_lo, sqrt3_hi])
      (show (4 / 5 : ℝ) - 0.1055613458 * ((3 / 20 : ℝ) * (Real.sqrt 3 / 2)) - 0.0638541728 * ((3 / 20 : ℝ) * (-(1 / 2))) ≤ (0.7910762419 : ℝ) by linarith [sqrt3_lo, sqrt3_hi])
      (show (0.88523708045 : ℝ) ≤ (4 / 5 : ℝ) - 0.0894841775 * ((3 / 20 : ℝ) * (Real.sqrt 3 / 2)) - 1.2914855480 * ((3 / 20 : ℝ) * (-(1 / 2))) by linarith [sqrt3_lo, sqrt3_hi])
      (show (4 / 5 : ℝ) - 0.0894841775 * ((3 / 20 : ℝ) * (Real.sqrt 3 / 2)) - 1.2914855480 * ((3 / 20 : ℝ) * (-(1 / 2))) ≤ (0.88523708046 : ℝ) by linarith [sqrt3_lo, sqrt3_hi])
      henvlo henvhi
    exact byteOf_srgb_eq hlo hhi (by norm_num) (by norm_num) (by norm_num)
      hclo hchi (by norm_num) (by norm_num) (by norm_num) (by norm_num)
  have hbb : byteOf (_linear_to_srgb (_oklab_to_linear_srgb (4 / 5 : ℝ)
      ((3 / 20 : ℝ) * (Real.sqrt 3 / 2)) ((3 / 20 : ℝ) * (-(1 / 2)))).2.2) = 235 := by
    have hclo : (0.9271155 : ℝ) ^ (12 : ℕ) ≤ (0.83391398 : ℝ) ^ (5 : ℕ) := by
      norm_num
    have hchi : (0.83391399 : ℝ) ^ (5 : ℕ) ≤ (0.9271156 : ℝ) ^ (12 : ℕ) := by
      norm_num
    have henvlo : (0.83391398 : ℝ) ≤
        -0.0041960863 * (0.83530050576 * 0.83530050576 * 0.83530050576) - 0.7034186147 * (0.7910762419 * 0.7910762419 * 0.7910762419) + 1.7076147010 * (0.88523708045 * 0.88523708045 * 0.88523708045) := by norm_num
    have henvhi : (-0.0041960863 * (0.83530050575 * 0.83530050575 * 0.83530050575) - 0.7034186147 * (0.79107624189 * 0.79107624189 * 0.79107624189) + 1.7076147010 * (0.88523708046 * 0.88523708046 * 0.88523708046) : ℝ) ≤ 0.83391399 := by norm_num
    obtain ⟨hlo, hhi⟩ := b_channel_bounds
      (show (0.83530050575 : ℝ) ≤ (4 / 5 : ℝ) + 0.3963377774 * ((3 / 20 : ℝ) * (Real.sqrt 3 / 2)) + 0.2158037573 * ((3 / 20 : ℝ) * (-(1 / 2))) by linarith [sqrt3_lo, sqrt3_hi])
      (show (4 / 5 : ℝ) + 0.3963377774 * ((3 / 20 : ℝ) * (Real.sqrt 3 / 2)) + 0.2158037573 * ((3 / 20 : ℝ) * (-(1 / 2))) ≤ (0.83530050576 : ℝ) by linarith [sqrt3_lo, sqrt3_hi])
      (show (0.79107624189 : ℝ) ≤ (4 / 5 : ℝ) - 0.1055613458 * ((3 / 20 : ℝ) * (Real.sqrt 3 / 2)) - 0.0638541728 * ((3 / 20 : ℝ) * (-(1 / 2))) by linarith [sqrt3_lo, sqrt3_hi])
      (show (4 / 5 : ℝ) - 0.1055613458 * ((3 / 20 : ℝ) * (Real.sqrt 3 / 2)) - 0.0638541728 * ((3 / 20 : ℝ) * (-(1 / 2))) ≤ (0.7910762419 : ℝ) by linarith [sqrt3_lo, sqrt3_hi])
      (show (0.88523708045 : ℝ) ≤ (4 / 5 : ℝ) - 0.0894841775 * ((3 / 20 : ℝ) * (Real.sqrt 3 / 2)) - 1.2914855480 * ((3 / 20 : ℝ) * (-(1 / 2))) by linarith [sqrt3_lo, sqrt3_hi])
      (show (4 / 5 : ℝ) - 0.0894841775 * ((3 / 20 : ℝ) * (Real.sqrt 3 / 2)) - 1.2914855480 * ((3 / 20 : ℝ) * (-(1 / 2))) ≤ (0.88523708046 : ℝ) by linarith [sqrt3_lo, sqrt3_hi])
      henvlo henvhi
    exact byteOf_srgb_eq hlo hhi (by norm_num) (by norm_num) (by norm_num)
      hclo hchi (by norm_num) (by norm_num) (by norm_num) (by norm_num)
  rw [hbr, hbg, hbb]
  decide

lemma varied12_eq :
    sample_colors_varied 12 (0.55, 0.8) (0.12, 0.18) =
      ["#fd9cba", "#f46754", "#f3a15a", "#cb9a00", "#a4bc4b", "#48c46d",
        "#00c6ac", "#00c9e7", "#00acfc", "#90b0ff", "#ac7df5", "#f398eb"] := by
  unfold sample_colors_varied
  rw [if_neg (show ¬ (12 : ℤ) ≤ 0 by norm_num)]
  rw [show ((12 : ℤ).toNat) = 12 from rfl]
  rw [show List.range 12 = [0, 1, 2, 3, 4, 5, 6, 7, 8, 9, 10, 11] from rfl]
  simp only [List.map_cons, List.map_nil]
  rw [show (((max ((12 : ℤ) - 1) 1 : ℤ)) : ℝ) = 11 by norm_num]
  simp only [List.cons.injEq, and_true]
  refine ⟨?_, ?_, ?_, ?_, ?_, ?_, ?_, ?_, ?_, ?_, ?_, ?_⟩
  · rw [if_pos (show True by trivial)]
    have hh0 : pymod (((0 : ℕ) : ℝ) * 360 / (((12 : ℤ)) : ℝ)) 360 = (0 : ℝ) := by
      rw [show ((0 : ℕ) : ℝ) * 360 / (((12 : ℤ)) : ℝ) = (0 : ℝ) by push_cast; norm_num]
      exact pymod_eq_self (by norm_num) (by norm_num)
    rw [hh0]
    exact (oklch_hex_congr (by push_cast; norm_num) (by push_cast; norm_num)).trans varied12_c0
  · rw [if_neg (show ¬ (1 : ℕ) % 2 = 0 by norm_num)]
    have hh1 : pymod (((1 : ℕ) : ℝ) * 360 / (((12 : ℤ)) : ℝ)) 360 = (30 : ℝ) := by
      rw [show ((1 : ℕ) : ℝ) * 360 / (((12 : ℤ)) : ℝ) = (30 : ℝ) by push_cast; norm_num]
      exact pymod_eq_self (by norm_num) (by norm_num)
    rw [hh1]
    exact (oklch_hex_congr (by push_cast; norm_num) (by push_cast; norm_num)).trans varied12_c1
  · rw [if_pos (show True by trivial)]
    have hh2 : pymod (((2 : ℕ) : ℝ) * 360 / (((12 : ℤ)) : ℝ)) 360 = (60 : ℝ) := by
      rw [show ((2 : ℕ) : ℝ) * 360 / (((12 : ℤ)) : ℝ) = (60 : ℝ) by push_cast; norm_num]
      exact pymod_eq_self (by norm_num) (by norm_num)
    rw [hh2]
    exact (oklch_hex_congr (by push_cast; norm_num) (by push_cast; norm_num)).trans varied12_c2
  · rw [if_neg (show ¬ (3 : ℕ) % 2 = 0 by norm_num)]
    have hh3 : pymod (((3 : ℕ) : ℝ) * 360 / (((12 : ℤ)) : ℝ)) 360 = (90 : ℝ) := by
      rw [show ((3 : ℕ) : ℝ) * 360 / (((12 : ℤ)) : ℝ) = (90 : ℝ) by push_cast; norm_num]
      exact pymod_eq_self (by norm_num) (by norm_num)
    rw [hh3]
    exact (oklch_hex_congr (by push_cast; norm_num) (by push_cast; norm_num)).trans varied12_c3
  · rw [if_pos (show True by trivial)]
    have hh4 : pymod (((4 : ℕ) : ℝ) * 360 / (((12 : ℤ)) : ℝ)) 360 = (120 : ℝ) := by
      rw [show ((4 : ℕ) : ℝ) * 360 / (((12 : ℤ)) : ℝ) = (120 : ℝ) by push_cast; norm_num]
      exact pymod_eq_self (by norm_num) (by norm_num)
    rw [hh4]
    exact (oklch_hex_congr (by push_cast; norm_num) (by push_cast; norm_num)).trans varied12_c4
  · rw [if_neg (show ¬ (5 : ℕ) % 2 = 0 by norm_num)]
    have hh5 : pymod (((5 : ℕ) : ℝ) * 360 / (((12 : ℤ)) : ℝ)) 360 = (150 : ℝ) := by
      rw [show ((5 : ℕ) : ℝ) * 360 / (((12 : ℤ)) : ℝ) = (150 : ℝ) by push_cast; norm_num]
      exact pymod_eq_self (by norm_num) (by norm_num)
    rw [hh5]
    exact (oklch_hex_congr (by push_cast; norm_num) (by push_cast; norm_num)).trans varied12_c5
  · rw [if_pos (show True by trivial)]
    have hh6 : pymod (((6 : ℕ) : ℝ) * 360 / (((12 : ℤ)) : ℝ)) 360 = (180 : ℝ) := by
      rw [show ((6 : ℕ) : ℝ) * 360 / (((12 : ℤ)) : ℝ) = (180 : ℝ) by push_cast; norm_num]
      exact pymod_eq_self (by norm_num) (by norm_num)
    rw [hh6]
    exact (oklch_hex_congr (by push_cast; norm_num) (by push_cast; norm_num)).trans varied12_c6
  · rw [if_neg (show ¬ (7 : ℕ) % 2 = 0 by norm_num)]
    have hh7 : pymod (((7 : ℕ) : ℝ) * 360 / (((12 : ℤ)) : ℝ)) 360 = (210 : ℝ) := by
      rw [show ((7 : ℕ) : ℝ) * 360 / (((12 : ℤ)) : ℝ) = (210 : ℝ) by push_cast; norm_num]
      exact pymod_eq_self (by norm_num) (by norm_num)
    rw [hh7]
    exact (oklch_hex_congr (by push_cast; norm_num) (by push_cast; norm_num)).trans varied12_c7
  · rw [if_pos (show True by trivial)]
    have hh8 : pymod (((8 : ℕ) : ℝ) * 360 / (((12 : ℤ)) : ℝ)) 360 = (240 : ℝ) := by
      rw [show ((8 : ℕ) : ℝ) * 360 / (((12 : ℤ)) : ℝ) = (240 : ℝ) by push_cast; norm_num]
      exact pymod_eq_self (by norm_num) (by norm_num)
    rw [hh8]
    exact (oklch_hex_congr (by push_cast; norm_num) (by push_cast; norm_num)).trans varied12_c8
  · rw [if_neg (show ¬ (9 : ℕ) % 2 = 0 by norm_num)]
    have hh9 : pymod (((9 : ℕ) : ℝ) * 360 / (((12 : ℤ)) : ℝ)) 360 = (270 : ℝ) := by
      rw [show ((9 : ℕ) : ℝ) * 360 / (((12 : ℤ)) : ℝ) = (270 : ℝ) by push_cast; norm_num]
      exact pymod_eq_self (by norm_num) (by norm_num)
    rw [hh9]
    exact (oklch_hex_congr (by push_cast; norm_num) (by push_cast; norm_num)).trans varied12_c9
  · rw [if_pos (show True by trivial)]
    have hh10 : pymod (((10 : ℕ) : ℝ) * 360 / (((12 : ℤ)) : ℝ)) 360 = (300 : ℝ) := by
      rw [show ((10 : ℕ) : ℝ) * 360 / (((12 : ℤ)) : ℝ) = (300 : ℝ) by push_cast; norm_num]
      exact pymod_eq_self (by norm_num) (by norm_num)
    rw [hh10]
    exact (oklch_hex_congr (by push_cast; norm_num) (by push_cast; norm_num)).trans varied12_c10
  · rw [if_neg (show ¬ (11 : ℕ) % 2 = 0 by norm_num)]
    have hh11 : pymod (((11 : ℕ) : ℝ) * 360 / (((12 : ℤ)) : ℝ)) 360 = (330 : ℝ) := by
      rw [show ((11 : ℕ) : ℝ) * 360 / (((12 : ℤ)) : ℝ) = (330 : ℝ) by push_cast; norm_num]
      exact pymod_eq_self (by norm_num) (by norm_num)
    rw [hh11]
    exact (oklch_hex_congr (by push_cast; norm_num) (by push_cast; norm_num)).trans varied12_c11


/-- C6: `colors_for_runs` pairs the identifiers positionally with the palette:
the keys (first components) are exactly the input identifiers; the palette is
the Varied one (`sample_colors_varied` with its default ranges) exactly when
the `varied` flag is set or more than 8 identifiers are given, and otherwise
the Uniform one (`sample_colors` with the given lightness and chroma); and for
12 identifiers the Varied palette is selected and the 12 assigned colors are
pairwise distinct. -/
theorem C6_colors_for_runs (run_ids : List String) (lightness chroma : ℝ) (varied : Bool)
    (hu : run_ids.Nodup) :
    ((colors_for_runs run_ids lightness chroma varied).map Prod.fst = run_ids) ∧
    ((varied = true ∨ 8 < (run_ids.length : ℤ)) →
      colors_for_runs run_ids lightness chroma varied =
        run_ids.zip (sample_colors_varied (run_ids.length : ℤ) (0.55, 0.8) (0.12, 0.18))) ∧
    (¬ (varied = true ∨ 8 < (run_ids.length : ℤ)) →
      colors_for_runs run_ids lightness chroma varied =
        run_ids.zip (sample_colors (run_ids.length : ℤ) lightness chroma 0 360)) ∧
    (run_ids.length = 12 →
      (colors_for_runs run_ids lightness chroma varied).map Prod.snd =
          sample_colors_varied 12 (0.55, 0.8) (0.12, 0.18) ∧
        ((colors_for_runs run_ids lightness chroma varied).map Prod.snd).Nodup) := by
  have hvl : (sample_colors_varied (run_ids.length : ℤ) (0.55, 0.8) (0.12, 0.18)).length
      = run_ids.length := by
    rw [sample_colors_varied_length_toNat]
    simp
  have hul : (sample_colors (run_ids.length : ℤ) lightness chroma 0 360).length
      = run_ids.length := by
    rw [sample_colors_length_toNat]
    simp
  refine ⟨?_, ?_, ?_, ?_⟩
  · simp only [colors_for_runs]
    by_cases hc : varied = true ∨ 8 < (run_ids.length : ℤ)
    · rw [if_pos hc]
      exact List.map_fst_zip _ _ (le_of_eq hvl.symm)
    · rw [if_neg hc]
      exact List.map_fst_zip _ _ (le_of_eq hul.symm)
  · intro hc
    simp only [colors_for_runs]
    rw [if_pos hc]
  · intro hc
    simp only [colors_for_runs]
    rw [if_neg hc]
  · intro h12
    have hsel : colors_for_runs run_ids lightness chroma varied =
        run_ids.zip (sample_colors_varied 12 (0.55, 0.8) (0.12, 0.18)) := by
      simp only [colors_for_runs]
      rw [if_pos (Or.inr (show (8 : ℤ) < (run_ids.length : ℤ) by rw [h12]; norm_num))]
      rw [h12]
      norm_cast
    have hmap : (colors_for_runs run_ids lightness chroma varied).map Prod.snd =
        sample_colors_varied 12 (0.55, 0.8) (0.12, 0.18) := by
      rw [hsel]
      refine List.map_snd_zip _ _ ?_
      rw [sample_colors_varied_length_toNat, h12]
      norm_num
    refine ⟨hmap, ?_⟩
    rw [hmap, varied12_eq]
    decide

theorem C6_colors_for_runs_witness :
    (["r00", "r01", "r02", "r03", "r04", "r05", "r06", "r07", "r08", "r09", "r10", "r11"] : List String).Nodup ∧
    (((colors_for_runs ["r00", "r01", "r02", "r03", "r04", "r05", "r06", "r07", "r08", "r09", "r10", "r11"]
          0.7 0.15 false).map Prod.fst =
        ["r00", "r01", "r02", "r03", "r04", "r05", "r06", "r07", "r08", "r09", "r10", "r11"]) ∧
    ((false = true ∨ 8 <
        ((["r00", "r01", "r02", "r03", "r04", "r05", "r06", "r07", "r08", "r09", "r10", "r11"] : List String).length : ℤ)) →
      colors_for_runs ["r00", "r01", "r02", "r03", "r04", "r05", "r06", "r07", "r08", "r09", "r10", "r11"] 0.7 0.15 false =
        (["r00", "r01", "r02", "r03", "r04", "r05", "r06", "r07", "r08", "r09", "r10", "r11"] : List String).zip
          (sample_colors_varied
            (((["r00", "r01", "r02", "r03", "r04", "r05", "r06", "r07", "r08", "r09", "r10", "r11"] : List String).length : ℤ))
            (0.55, 0.8) (0.12, 0.18))) ∧
    (¬ (false = true ∨ 8 <
        ((["r00", "r01", "r02", "r03", "r04", "r05", "r06", "r07", "r08", "r09", "r10", "r11"] : List String).length : ℤ)) →
      colors_for_runs ["r00", "r01", "r02", "r03", "r04", "r05", "r06", "r07", "r08", "r09", "r10", "r11"] 0.7 0.15 false =
        (["r00", "r01", "r02", "r03", "r04", "r05", "r06", "r07", "r08", "r09", "r10", "r11"] : List String).zip
          (sample_colors
            (((["r00", "r01", "r02", "r03", "r04", "r05", "r06", "r07", "r08", "r09", "r10", "r11"] : List String).length : ℤ))
            0.7 0.15 0 360)) ∧
    ((["r00", "r01", "r02", "r03", "r04", "r05", "r06", "r07", "r08", "r09", "r10", "r11"] : List String).length = 12 →
      (colors_for_runs ["r00", "r01", "r02", "r03", "r04", "r05", "r06", "r07", "r08", "r09", "r10", "r11"]
            0.7 0.15 false).map Prod.snd =
          sample_colors_varied 12 (0.55, 0.8) (0.12, 0.18) ∧
        ((colors_for_runs ["r00", "r01", "r02", "r03", "r04", "r05", "r06", "r07", "r08", "r09", "r10", "r11"]
            0.7 0.15 false).map Prod.snd).Nodup)) :=
  ⟨by decide,
    C6_colors_for_runs ["r00", "r01", "r02", "r03", "r04", "r05", "r06", "r07", "r08", "r09", "r10", "r11"]
      0.7 0.15 false (by decide)⟩

end ColorSampler
